import Mathlib

/-!
# wavplayeralsa: session controller and status broadcaster

A shallow embedding of `CurrentSongController` (src/current_song_controller.cc)
together with the lifecycle part of `AlsaPlaybackService`
(src/services/alsa_service.cc) that the controller drives.

Conventions of the embedding:

* `uint32_t` values are natural numbers reduced modulo `2 ^ 32`,
  `int64_t` values are integers;
* a C++ function that throws `std::runtime_error` returns `Except String _`,
  the string being `e.what()`;
* calls that leave the repository (boost::filesystem, libsndfile, ALSA,
  std::thread, nlohmann::json) are fields of a record of outcomes that the
  functions take as an argument;
* every controller operation returns the new controller state, its reply and
  the list of calls it made on its collaborators, in program order.
-/

namespace wavplayeralsa

/-! ## Machine integers -/

/-- Number of values of a `uint32_t`. -/
def UINT32_MODULUS : Nat := 2 ^ 32

/-- Number of values of a `uint64_t`. -/
def UINT64_MODULUS : Nat := 2 ^ 64

/-- Smallest `int64_t`. -/
def INT64_MIN : Int := -(2 ^ 63)

/-! ## AlsaPlaybackService: lifecycle -/

/-- The members of `AlsaPlaybackService` that decide what `Play`, `Stop` and
`GetFileId` answer to the controller. `joinable` stands for
`playing_thread_.joinable()` and `ios_stopped` for `ios_.stopped()`. -/
structure AlsaPlaybackService where
  file_id_ : String
  play_seq_id_ : Nat
  full_file_name : String
  initialized_ : Bool
  joinable : Bool
  ios_stopped : Bool
  deriving DecidableEq, Repr

/-- Outcomes of the calls that leave the repository. -/
structure Externals where
  /-- The path `wav_dir_ / file_id` of boost::filesystem, as a string. -/
  path_join : String → String → String
  /-- Result of `boost::filesystem::canonical(p).string()`; an error is the
  `what()` of the `filesystem_error` it throws (a `std::runtime_error`). -/
  canonical : String → Except String String
  /-- Result of `InitSndFile(full_file_name)` followed by `InitAlsa(audio_device)`
  in the constructor of `AlsaPlaybackService`: both throw `std::runtime_error`. -/
  init_session : String → Except String Unit
  /-- Result of constructing the `std::thread` in `Play`; it throws
  `std::system_error` (a `std::runtime_error`) when no thread can be started. -/
  thread_start : Except String Unit

namespace AlsaPlaybackService

/-- Member function `GetFileId` (alsa_service.cc line 36). -/
def GetFileId (s : AlsaPlaybackService) : String := s.file_id_

/-- Member function `Play` (alsa_service.cc lines 398-417). Lines 408-415 assign
the frame cursor, seek the file and log; they neither throw nor touch the
members kept here. -/
def Play (ext : Externals) (s : AlsaPlaybackService) (_offset_in_ms : Int) :
    Except String AlsaPlaybackService :=
  if !s.initialized_ then
    .error "tried to play wav file on an uninitialzed alsa service"
  else if s.ios_stopped then
    .error "this instance of alsa playback service has already played in the past. it cannot be reused. create a new instance to play again"
  else
    match ext.thread_start with
    | .error e => .error e
    | .ok _ => .ok { s with joinable := true }

/-- Member function `Stop` (alsa_service.cc lines 419-429): the value returned
and the session after the call. -/
def Stop (s : AlsaPlaybackService) : Bool × AlsaPlaybackService :=
  let was_playing := s.joinable && !s.ios_stopped
  (was_playing, { s with ios_stopped := true, joinable := false })

end AlsaPlaybackService

/-- `AlsaPlaybackServiceFactory::CreateAlsaPlaybackService` (alsa_service.cc
lines 609-623): the constructor of `AlsaPlaybackService` (lines 102-119) on a
new object. -/
def CreateAlsaPlaybackService (ext : Externals) (full_file_name file_id : String) (play_seq_id : Nat) :
    Except String AlsaPlaybackService :=
  match ext.init_session full_file_name with
  | .error e => .error e
  | .ok _ =>
    .ok { file_id_ := file_id
          play_seq_id_ := play_seq_id
          full_file_name := full_file_name
          initialized_ := true
          joinable := false
          ios_stopped := false }

/-! ## CurrentSongController -/

/-- A call the controller makes on one of its collaborators. -/
inductive Event where
  /-- `alsa_service_->Stop()` on the session in the given state. -/
  | stop (s : AlsaPlaybackService)
  /-- `delete alsa_service_` on the session in the given state. -/
  | destroy (s : AlsaPlaybackService)
  /-- `boost::filesystem::canonical` on the given path. -/
  | canonical (path : String)
  /-- `CreateAlsaPlaybackService(full_file_name, file_id, play_seq_id)`. -/
  | create (full_file_name file_id : String) (play_seq_id : Nat)
  /-- `alsa_service_->Play(start_offset_ms)` on the session in the given state. -/
  | play (s : AlsaPlaybackService) (start_offset_ms : Int)
  /-- Arming of `throttle_timer_` for the given number of milliseconds. -/
  | arm_timer (ms : Nat)
  /-- `mqtt_service_->ReportCurrentSong(msg)`. -/
  | mqtt_report (msg : String)
  /-- `ws_service_->ReportCurrentSong(msg)`. -/
  | ws_report (msg : String)
  deriving DecidableEq, Repr

/-- Data members of `CurrentSongController` (current_song_controller.h). -/
structure CurrentSongController where
  alsa_service_ : Option AlsaPlaybackService
  player_uuid_ : String
  wav_dir_ : String
  last_status_msg_ : String
  play_seq_id_ : Nat
  throttle_timer_set_ : Bool
  deriving DecidableEq, Repr

/-- What a request hands back: the returned flag, the text written to
`out_msg` and the value stored through `play_seq_id`. -/
structure Reply where
  success : Bool
  out_msg : String
  play_seq_id : Nat
  deriving DecidableEq, Repr

/-- Result of a controller operation. -/
structure Outcome where
  ctl : CurrentSongController
  reply : Reply
  trace : List Event
  deriving DecidableEq, Repr

/-- `THROTTLE_WAIT_TIME_MS` (current_song_controller.h). -/
def THROTTLE_WAIT_TIME_MS : Nat := 50

/-- Constructor of `CurrentSongController` (current_song_controller.cc
lines 12-26) with the in-class member initialisers of the header. -/
def CurrentSongController.init : CurrentSongController :=
  { alsa_service_ := none
    player_uuid_ := ""
    wav_dir_ := ""
    last_status_msg_ := ""
    play_seq_id_ := 0
    throttle_timer_set_ := false }

/-! ### Text of the replies -/

/-- Output of `std::setfill('0') << std::setw(2) << n`. -/
def setw2 (n : Nat) : String :=
  let s := toString n
  String.mk (List.replicate (2 - s.length) '0') ++ s

/-- `std::abs` on `int64_t`. For `INT64_MIN` the C++ result is undefined; the
two's complement result `INT64_MIN` is taken. -/
def abs_int64 (x : Int) : Int :=
  if x = INT64_MIN then INT64_MIN else (x.natAbs : Int)

/-- Conversion of an `int64_t` to `uint64_t`. -/
def to_uint64 (x : Int) : Nat := (x % (UINT64_MODULUS : Int)).toNat

/-- `SECONDS_PER_HOUR` (current_song_controller.cc line 103). -/
def SECONDS_PER_HOUR : Nat := 60 * 60

/-- The `uint64_t` values `hours`, `minutes` and `seconds` of
current_song_controller.cc lines 104-108. The product `hours * SECONDS_PER_HOUR`
is at most `start_offset_sec`, so the subtraction of line 106 does not wrap. -/
def position_parts (start_offset_ms : Int) : Nat × Nat × Nat :=
  let start_offset_sec : Nat := to_uint64 (Int.tdiv (abs_int64 start_offset_ms) 1000)
  let hours : Nat := start_offset_sec / SECONDS_PER_HOUR
  let start_offset_sec : Nat := (start_offset_sec - hours * SECONDS_PER_HOUR) % UINT64_MODULUS
  let minutes : Nat := start_offset_sec / 60
  let seconds : Nat := start_offset_sec % 60
  (hours, minutes, seconds)

/-- The text `h:mm:ss` written by current_song_controller.cc lines 116-118. -/
def position_hms (start_offset_ms : Int) : String :=
  let p := position_parts start_offset_ms
  toString p.1 ++ ":" ++ setw2 p.2.1 ++ ":" ++ setw2 p.2.2

/-- Text written to `out_msg` by lines 99-123 of current_song_controller.cc. -/
def new_song_msg (file_id prev_file_id : String) (prev_file_was_playing : Bool)
    (start_offset_ms : Int) : String :=
  if file_id = prev_file_id then
    "changed position of the current file '" ++ file_id ++ "'. new position in ms is: "
      ++ toString start_offset_ms ++ "\n"
  else
    (if prev_file_was_playing = true ∧ prev_file_id ≠ "" then
      "audio file successfully changed from '" ++ prev_file_id ++ "' to '" ++ file_id
        ++ "' and will be played "
    else
      "will play audio file '" ++ file_id ++ "' ")
    ++ "starting at position " ++ toString start_offset_ms ++ " ms "
    ++ "(" ++ position_hms start_offset_ms
    ++ (if start_offset_ms < 0 then " in the future" else "")
    ++ ")"

/-- Text written to `out_msg` by lines 94-95. -/
def load_failure_msg (file_id what : String) : String :=
  "failed loading new audio file '" ++ file_id
    ++ "'. currently no audio file is loaded in the player and it is not playing. "
    ++ "reason for failure: " ++ what

/-- Text written to `out_msg` by lines 129-130. -/
def play_failure_msg (file_id what : String) : String :=
  "playing new audio file '" ++ file_id ++ "' failed. currently player is not playing. "
    ++ "reason for failure: " ++ what

/-! ### Requests -/

/-- Lines 64-72 of `NewSongRequest`, shared with lines 141-148 of
`StopPlayRequest`: the captured file id, the answer of `Stop()` and the calls
made. -/
def stop_and_delete (c : CurrentSongController) : String × Bool × List Event :=
  match c.alsa_service_ with
  | none => ("", false, [])
  | some s => (s.GetFileId, s.Stop.1, [Event.stop s, Event.destroy s.Stop.2])

/-- `CurrentSongController::NewSongRequest` (current_song_controller.cc
lines 58-135). `out_msg` is taken to be empty on entry, as it is at the call
in `HttpApi::OnPutCurrentSong`. -/
def NewSongRequest (ext : Externals) (c : CurrentSongController) (file_id : String)
    (start_offset_ms : Int) : Outcome :=
  let prev_file_id := (stop_and_delete c).1
  let prev_file_was_playing := (stop_and_delete c).2.1
  let tr := (stop_and_delete c).2.2
  let new_play_seq_id := (c.play_seq_id_ + 1) % UINT32_MODULUS
  let c1 := { c with alsa_service_ := none, play_seq_id_ := new_play_seq_id }
  let songFullPath := ext.path_join c.wav_dir_ file_id
  match ext.canonical songFullPath with
  | .error what =>
    { ctl := c1
      reply := ⟨false, load_failure_msg file_id what, new_play_seq_id⟩
      trace := tr ++ [Event.canonical songFullPath] }
  | .ok canonicalFullPath =>
    match CreateAlsaPlaybackService ext canonicalFullPath file_id new_play_seq_id with
    | .error what =>
      { ctl := c1
        reply := ⟨false, load_failure_msg file_id what, new_play_seq_id⟩
        trace := tr ++ [Event.canonical songFullPath,
                        Event.create canonicalFullPath file_id new_play_seq_id] }
    | .ok s =>
      let msg := new_song_msg file_id prev_file_id prev_file_was_playing start_offset_ms
      let tr2 := tr ++ [Event.canonical songFullPath,
                        Event.create canonicalFullPath file_id new_play_seq_id,
                        Event.play s start_offset_ms]
      match s.Play ext start_offset_ms with
      | .error what =>
        { ctl := { c1 with alsa_service_ := some s }
          reply := ⟨false, msg ++ play_failure_msg file_id what, new_play_seq_id⟩
          trace := tr2 }
      | .ok s1 =>
        { ctl := { c1 with alsa_service_ := some s1 }
          reply := ⟨true, msg, new_play_seq_id⟩
          trace := tr2 }

/-- `CurrentSongController::StopPlayRequest` (current_song_controller.cc
lines 137-163). -/
def StopPlayRequest (c : CurrentSongController) : Outcome :=
  let current_file_id := (stop_and_delete c).1
  let was_playing := (stop_and_delete c).2.1
  let tr := (stop_and_delete c).2.2
  let msg :=
    if current_file_id = "" ∨ was_playing = false then
      "no audio file is being played, so stop had no effect"
    else
      "current audio file '" ++ current_file_id ++ "' stopped playing"
  { ctl := { c with alsa_service_ := none }
    reply := ⟨true, msg, c.play_seq_id_⟩
    trace := tr }

/-! ## Status broadcaster -/

/-- The operations of nlohmann::json that the controller uses, for a type
`J` of json values. -/
structure JsonLib (J : Type) where
  /-- A default-constructed `json`. -/
  null : J
  /-- Assignment `j[key] = value` of a `bool`. -/
  set_bool : J → String → Bool → J
  /-- Assignment `j[key] = value` of a `std::string`. -/
  set_string : J → String → String → J
  /-- Assignment `j[key] = value` of an unsigned integer. -/
  set_unsigned : J → String → Nat → J
  /-- Member function `dump()`. -/
  dump : J → String

/-- The string `msg_json_str` of `UpdateLastStatusMsg` (lines 167-171): the
snapshot stamped with `uuid` and `play_seq_id`, serialized. -/
def status_msg {J : Type} (lib : JsonLib J) (c : CurrentSongController) (alsa_data : J)
    (play_seq_id : Nat) : String :=
  lib.dump (lib.set_unsigned (lib.set_string alsa_data "uuid" c.player_uuid_)
    "play_seq_id" play_seq_id)

/-- `CurrentSongController::UpdateLastStatusMsg` (current_song_controller.cc
lines 165-184). -/
def UpdateLastStatusMsg {J : Type} (lib : JsonLib J) (c : CurrentSongController)
    (alsa_data : J) (play_seq_id : Nat) : CurrentSongController × List Event :=
  let msg_json_str := status_msg lib c alsa_data play_seq_id
  if msg_json_str = c.last_status_msg_ then
    (c, [])
  else
    let c1 := { c with last_status_msg_ := msg_json_str }
    if !c1.throttle_timer_set_ then
      ({ c1 with throttle_timer_set_ := true }, [Event.arm_timer THROTTLE_WAIT_TIME_MS])
    else
      (c1, [])

/-- `CurrentSongController::ReportCurrentSongToServices`
(current_song_controller.cc lines 186-194); `error` tells whether the
`error_code` handed to the handler is set. -/
def ReportCurrentSongToServices (c : CurrentSongController) (error : Bool) :
    CurrentSongController × List Event :=
  let c1 := { c with throttle_timer_set_ := false }
  if error then
    (c1, [])
  else
    (c1, [Event.mqtt_report c1.last_status_msg_, Event.ws_report c1.last_status_msg_])

/-- `CurrentSongController::Initialize` (current_song_controller.cc
lines 28-36). -/
def Initialize {J : Type} (lib : JsonLib J) (c : CurrentSongController)
    (player_uuid wav_dir : String) : CurrentSongController × List Event :=
  let c1 := { c with player_uuid_ := player_uuid, wav_dir_ := wav_dir }
  let j := lib.set_bool lib.null "song_is_playing" false
  UpdateLastStatusMsg lib c1 j c1.play_seq_id_

/-- What the controller's executor runs for the broadcaster: a posted
`UpdateLastStatusMsg` or the completion handler of `throttle_timer_`. -/
inductive StatusInput (J : Type) where
  | merge (alsa_data : J) (play_seq_id : Nat)
  | timer (error : Bool)

/-- One handler run. The completion handler of `throttle_timer_` exists only
while a wait armed at line 181 is outstanding, which is while
`throttle_timer_set_` holds. -/
def status_step {J : Type} (lib : JsonLib J) (c : CurrentSongController) :
    StatusInput J → CurrentSongController × List Event
  | .merge alsa_data play_seq_id => UpdateLastStatusMsg lib c alsa_data play_seq_id
  | .timer error => if c.throttle_timer_set_ then ReportCurrentSongToServices c error else (c, [])

/-- Handler runs in order, with the calls they make. -/
def status_run {J : Type} (lib : JsonLib J) (c : CurrentSongController) :
    List (StatusInput J) → CurrentSongController × List Event
  | [] => (c, [])
  | i :: rest =>
    let r := status_step lib c i
    let r2 := status_run lib r.1 rest
    (r2.1, r.2 ++ r2.2)

/-- Serialized form of the last merged snapshot of a run, `dflt` when the run
merges none. -/
def last_merged {J : Type} (lib : JsonLib J) (c : CurrentSongController) (dflt : String) :
    List (StatusInput J) → String
  | [] => dflt
  | .merge alsa_data play_seq_id :: rest =>
    last_merged lib c (status_msg lib c alsa_data play_seq_id) rest
  | .timer _ :: rest => last_merged lib c dflt rest

/-- Payloads handed to the MQTT subscriber, in order. -/
def mqtt_payloads : List Event → List String
  | [] => []
  | Event.mqtt_report msg :: rest => msg :: mqtt_payloads rest
  | _ :: rest => mqtt_payloads rest

/-- Payloads handed to the WebSocket subscriber, in order. -/
def ws_payloads : List Event → List String
  | [] => []
  | Event.ws_report msg :: rest => msg :: ws_payloads rest
  | _ :: rest => ws_payloads rest

/-- Number of times `throttle_timer_` is armed. -/
def timer_armings (tr : List Event) : Nat :=
  tr.countP fun e => match e with
    | Event.arm_timer _ => true
    | _ => false

/-- Order of `std::string` keys: character by character, a proper start of a
text before the text. -/
def chars_before : List Char → List Char → Bool
  | [], [] => false
  | [], _ :: _ => true
  | _ :: _, [] => false
  | a :: as, b :: bs =>
    if a.toNat < b.toNat then true
    else if b.toNat < a.toNat then false
    else chars_before as bs

/-- A json object as the list of its members in the order of their keys, each
value already rendered; `member_set` replaces the member of that key or adds
one in its place, as `operator[]` on the `std::map` of an object does. -/
def member_set (j : List (String × String)) (key value : String) : List (String × String) :=
  match j with
  | [] => [(key, value)]
  | (k, v) :: rest =>
    if k = key then (key, value) :: rest
    else if chars_before key.data k.data then (key, value) :: (k, v) :: rest
    else (k, v) :: member_set rest key value

/-- A small instance of `JsonLib` used to evaluate the definitions: objects
with members in key order, dumped without blanks; strings are rendered
unescaped, as `dump()` renders texts of printable ASCII without quote or
backslash. -/
def demoJson : JsonLib (List (String × String)) :=
  { null := []
    set_bool := fun j k b => member_set j k (if b then "true" else "false")
    set_string := fun j k s => member_set j k ("\"" ++ s ++ "\"")
    set_unsigned := fun j k n => member_set j k (toString n)
    dump := fun j =>
      "\x7b" ++ ",".intercalate (j.map fun kv => "\"" ++ kv.1 ++ "\":" ++ kv.2) ++ "\x7d" }

/-- The snapshot built by `NoSongPlayingStatus(file_id, _)` (lines 51-53). -/
def demoStopped (file_id : String) : List (String × String) :=
  demoJson.set_string (demoJson.set_bool demoJson.null "song_is_playing" false)
    "stopped_file_id" file_id

/-- The text `part` occurs in the text `msg`. -/
def Contains (msg part : String) : Prop := part.data <:+: msg.data

instance (msg part : String) : Decidable (Contains msg part) :=
  inferInstanceAs (Decidable (part.data <:+: msg.data))

/-! ### The states the controller reaches -/

/-- What changes the controller: a request of the transport layer,
`Initialize`, a handler of the status broadcaster, or the end of the playing
thread of the held session, which stops the scheduler of that session
(alsa_service.cc line 443). -/
inductive ControllerStep (J : Type) where
  | new_song (file_id : String) (start_offset_ms : Int)
  | stop_play
  | init_player (player_uuid wav_dir : String)
  | status (i : StatusInput J)
  | thread_ended

/-- The controller after one step. -/
def ControllerStep.apply {J : Type} (lib : JsonLib J) (ext : Externals)
    (c : CurrentSongController) : ControllerStep J → CurrentSongController
  | ControllerStep.new_song file_id start_offset_ms =>
    (NewSongRequest ext c file_id start_offset_ms).ctl
  | ControllerStep.stop_play => (StopPlayRequest c).ctl
  | ControllerStep.init_player player_uuid wav_dir => (Initialize lib c player_uuid wav_dir).1
  | ControllerStep.status i => (status_step lib c i).1
  | ControllerStep.thread_ended =>
    { c with alsa_service_ := c.alsa_service_.map fun s =>
        if s.joinable then { s with ios_stopped := true } else s }

/-- An installation with root `/wav` holding `track1.wav` and `track2.wav`, a
file `/secret.wav` next to the root, and a working audio device. -/
def demoExt : Externals :=
  { path_join := fun d f => d ++ "/" ++ f
    canonical := fun p =>
      if p = "/wav/track1.wav" then .ok "/wav/track1.wav"
      else if p = "/wav/track2.wav" then .ok "/wav/track2.wav"
      else if p = "/wav/../secret.wav" then .ok "/secret.wav"
      else .error ("boost::filesystem::canonical: No such file or directory: \"" ++ p ++ "\"")
    init_session := fun _ => .ok ()
    thread_start := .ok () }

/-- The controller after construction and `Initialize("uuid-1", "/wav")`, the
status part aside. -/
def demoCtl : CurrentSongController :=
  { CurrentSongController.init with player_uuid_ := "uuid-1", wav_dir_ := "/wav" }

/-- An installation as `demoExt` in which no thread can be started. -/
def demoExtNoThread : Externals :=
  { demoExt with thread_start := .error "Resource temporarily unavailable" }

/-- A session as the factory builds it, playing. -/
def demoSession (file_id : String) (play_seq_id : Nat) : AlsaPlaybackService :=
  { file_id_ := file_id
    play_seq_id_ := play_seq_id
    full_file_name := "/wav/" ++ file_id
    initialized_ := true
    joinable := true
    ios_stopped := false }

/-! ### The containment check of `HttpApi::OnWebGet` -/

/-- The elements of a path written with `/` separators, without the root
directory and without empty names. -/
def path_elements (p : String) : List String :=
  ((p.data.splitOn '/').filter fun e => !e.isEmpty).map String.mk

/-- The test of http_api.cc lines 155-156: `OnWebGet` throws "path must be
within root path" exactly when this is false. -/
def path_is_within (root path : List String) : Bool :=
  !(decide (root.length > path.length) || !(root.isPrefixOf path))

/-- The calls that `NewSongRequest` makes after lines 64-72. -/
def is_load_call : Event → Prop
  | Event.canonical _ => True
  | Event.create _ _ _ => True
  | Event.play _ _ => True
  | _ => False

/-- The controller of the sample installation after the snapshot "stopped
`a.wav`" of play 1 has been merged and broadcast. -/
def demoCtlAfterBroadcast : CurrentSongController :=
  (status_run demoJson demoCtl [.merge (demoStopped "a.wav") 1, .timer false]).1

/-! ## AlsaPlaybackService: the decoded file -/

/-- `enum SampleType` of `AlsaPlaybackService` (alsa_service.cc lines 75-79). -/
inductive SampleType where
  | SampleTypeSigned
  | SampleTypeUnsigned
  | SampleTypeFloat
  deriving DecidableEq, Repr

/-- The values of alsa-lib's `snd_pcm_format_t` that `GetFormatForAlsa` hands
out. -/
inductive snd_pcm_format_t where
  | SND_PCM_FORMAT_S8
  | SND_PCM_FORMAT_U8
  | SND_PCM_FORMAT_S16_LE
  | SND_PCM_FORMAT_S16_BE
  | SND_PCM_FORMAT_U16_LE
  | SND_PCM_FORMAT_U16_BE
  | SND_PCM_FORMAT_S24_LE
  | SND_PCM_FORMAT_S24_BE
  | SND_PCM_FORMAT_U24_LE
  | SND_PCM_FORMAT_U24_BE
  | SND_PCM_FORMAT_S32_LE
  | SND_PCM_FORMAT_S32_BE
  | SND_PCM_FORMAT_U32_LE
  | SND_PCM_FORMAT_U32_BE
  | SND_PCM_FORMAT_FLOAT_LE
  | SND_PCM_FORMAT_FLOAT_BE
  | SND_PCM_FORMAT_FLOAT64_LE
  | SND_PCM_FORMAT_FLOAT64_BE
  deriving DecidableEq, Repr

namespace snd_pcm_format_t

/-- Kind of sample a format names: `S` signed integer, `U` unsigned integer,
`FLOAT` floating point. -/
def sample_type : snd_pcm_format_t → SampleType
  | SND_PCM_FORMAT_S8 | SND_PCM_FORMAT_S16_LE | SND_PCM_FORMAT_S16_BE
  | SND_PCM_FORMAT_S24_LE | SND_PCM_FORMAT_S24_BE
  | SND_PCM_FORMAT_S32_LE | SND_PCM_FORMAT_S32_BE => SampleType.SampleTypeSigned
  | SND_PCM_FORMAT_U8 | SND_PCM_FORMAT_U16_LE | SND_PCM_FORMAT_U16_BE
  | SND_PCM_FORMAT_U24_LE | SND_PCM_FORMAT_U24_BE
  | SND_PCM_FORMAT_U32_LE | SND_PCM_FORMAT_U32_BE => SampleType.SampleTypeUnsigned
  | SND_PCM_FORMAT_FLOAT_LE | SND_PCM_FORMAT_FLOAT_BE
  | SND_PCM_FORMAT_FLOAT64_LE | SND_PCM_FORMAT_FLOAT64_BE => SampleType.SampleTypeFloat

/-- Sample width in bits that a format names (alsa-lib's
`snd_pcm_format_width`). -/
def width : snd_pcm_format_t → Nat
  | SND_PCM_FORMAT_S8 | SND_PCM_FORMAT_U8 => 8
  | SND_PCM_FORMAT_S16_LE | SND_PCM_FORMAT_S16_BE
  | SND_PCM_FORMAT_U16_LE | SND_PCM_FORMAT_U16_BE => 16
  | SND_PCM_FORMAT_S24_LE | SND_PCM_FORMAT_S24_BE
  | SND_PCM_FORMAT_U24_LE | SND_PCM_FORMAT_U24_BE => 24
  | SND_PCM_FORMAT_S32_LE | SND_PCM_FORMAT_S32_BE
  | SND_PCM_FORMAT_U32_LE | SND_PCM_FORMAT_U32_BE
  | SND_PCM_FORMAT_FLOAT_LE | SND_PCM_FORMAT_FLOAT_BE => 32
  | SND_PCM_FORMAT_FLOAT64_LE | SND_PCM_FORMAT_FLOAT64_BE => 64

/-- Byte order that a format names: `some true` for `_LE`, `some false` for
`_BE`, `none` for the one-byte formats, which have none. -/
def little_endian : snd_pcm_format_t → Option Bool
  | SND_PCM_FORMAT_S8 | SND_PCM_FORMAT_U8 => none
  | SND_PCM_FORMAT_S16_LE | SND_PCM_FORMAT_U16_LE | SND_PCM_FORMAT_S24_LE
  | SND_PCM_FORMAT_U24_LE | SND_PCM_FORMAT_S32_LE | SND_PCM_FORMAT_U32_LE
  | SND_PCM_FORMAT_FLOAT_LE | SND_PCM_FORMAT_FLOAT64_LE => some true
  | SND_PCM_FORMAT_S16_BE | SND_PCM_FORMAT_U16_BE | SND_PCM_FORMAT_S24_BE
  | SND_PCM_FORMAT_U24_BE | SND_PCM_FORMAT_S32_BE | SND_PCM_FORMAT_U32_BE
  | SND_PCM_FORMAT_FLOAT_BE | SND_PCM_FORMAT_FLOAT64_BE => some false

end snd_pcm_format_t

/-- `TRANSFER_BUFFER_SIZE` (alsa_service.cc line 65). -/
def TRANSFER_BUFFER_SIZE : Nat := 4096 * 16

/-- Constants of libsndfile's `sndfile.h` that `InitSndFile` uses. -/
def SF_FORMAT_TYPEMASK : Nat := 0x0FFF0000

/-- See `SF_FORMAT_TYPEMASK`. -/
def SF_FORMAT_SUBMASK : Nat := 0x0000FFFF

/-- See `SF_FORMAT_TYPEMASK`. -/
def SF_FORMAT_WAV : Nat := 0x010000

/-- See `SF_FORMAT_TYPEMASK`. -/
def SF_FORMAT_AIFF : Nat := 0x020000

/-- See `SF_FORMAT_TYPEMASK`. -/
def SF_FORMAT_PCM_S8 : Nat := 0x0001

/-- See `SF_FORMAT_TYPEMASK`. -/
def SF_FORMAT_PCM_16 : Nat := 0x0002

/-- See `SF_FORMAT_TYPEMASK`. -/
def SF_FORMAT_PCM_24 : Nat := 0x0003

/-- See `SF_FORMAT_TYPEMASK`. -/
def SF_FORMAT_PCM_32 : Nat := 0x0004

/-- See `SF_FORMAT_TYPEMASK`. -/
def SF_FORMAT_FLOAT : Nat := 0x0006

/-- See `SF_FORMAT_TYPEMASK`. -/
def SF_FORMAT_DOUBLE : Nat := 0x0007

/-- Conversion of an integer to `unsigned int`. -/
def to_uint32 (x : Int) : Nat := (x % (UINT32_MODULUS : Int)).toNat

/-- What the `SndfileHandle` opened at line 141 answers: `error()`,
`strError()`, `samplerate()`, `channels()`, `format()` and `frames()`. -/
structure SndfileHandle where
  error : Int
  strError : String
  samplerate : Int
  channels : Int
  format : Nat
  frames : Int
  deriving DecidableEq, Repr

/-- The members of `AlsaPlaybackService` that `InitSndFile` sets ("from file"
and "calculated", alsa_service.cc lines 83-93). -/
structure FileParams where
  frame_rate_ : Nat
  num_of_channels_ : Nat
  is_endian_little_ : Bool
  sample_type_ : SampleType
  bytes_per_sample_ : Nat
  total_frame_in_file_ : Nat
  bytes_per_frame_ : Nat
  frames_capacity_in_buffer_ : Int
  deriving DecidableEq, Repr

/-- The `switch(minor_type)` of `InitSndFile` (alsa_service.cc lines 156-185):
`bytes_per_sample_` and `sample_type_`, or nothing in the `default` case. -/
def minor_format (minor_type : Nat) : Option (Nat × SampleType) :=
  if minor_type = SF_FORMAT_PCM_S8 then some (1, SampleType.SampleTypeSigned)
  else if minor_type = SF_FORMAT_PCM_16 then some (2, SampleType.SampleTypeSigned)
  else if minor_type = SF_FORMAT_PCM_24 then some (3, SampleType.SampleTypeSigned)
  else if minor_type = SF_FORMAT_PCM_32 then some (4, SampleType.SampleTypeSigned)
  else if minor_type = SF_FORMAT_FLOAT then some (4, SampleType.SampleTypeFloat)
  else if minor_type = SF_FORMAT_DOUBLE then some (8, SampleType.SampleTypeFloat)
  else none

/-- The `switch(major_type)` of `InitSndFile` (alsa_service.cc lines 187-198):
`is_endian_little_`, or nothing in the `default` case. -/
def major_format (major_type : Nat) : Option Bool :=
  if major_type = SF_FORMAT_WAV then some true
  else if major_type = SF_FORMAT_AIFF then some false
  else none

/-- Output of `std::hex << n`. -/
def hex (n : Nat) : String := String.mk (Nat.toDigits 16 n)

/-- `AlsaPlaybackService::InitSndFile` (alsa_service.cc lines 139-222) on the
answers of the opened file. The divisions of line 201 (by `frame_rate_`) and
of line 206 (by `bytes_per_frame_`) are undefined for a zero divisor; both
cases are reported as failures. -/
def InitSndFile (full_file_name : String) (snd_file_ : SndfileHandle) :
    Except String FileParams :=
  if snd_file_.error ≠ 0 then
    .error ("The file '" ++ full_file_name ++ "' cannot be opened. error msg: '"
      ++ snd_file_.strError ++ "'")
  else
    let frame_rate_ := to_uint32 snd_file_.samplerate
    let num_of_channels_ := to_uint32 snd_file_.channels
    let major_type := snd_file_.format &&& SF_FORMAT_TYPEMASK
    let minor_type := snd_file_.format &&& SF_FORMAT_SUBMASK
    match minor_format minor_type with
    | none =>
      .error ("wav file is in unsupported format. minor format as read from sndFile is: "
        ++ hex minor_type)
    | some (bytes_per_sample_, sample_type_) =>
      match major_format major_type with
      | none =>
        .error ("wav file is in unsupported format. major format as read from sndFile is: "
          ++ hex major_type)
      | some is_endian_little_ =>
        let total_frame_in_file_ := to_uint64 snd_file_.frames
        if frame_rate_ = 0 then
          .error "division by zero (line 201)"
        else
          let bytes_per_frame_ := (num_of_channels_ * bytes_per_sample_) % UINT32_MODULUS
          if bytes_per_frame_ = 0 then
            .error "division by zero (line 206)"
          else
            .ok { frame_rate_ := frame_rate_
                  num_of_channels_ := num_of_channels_
                  is_endian_little_ := is_endian_little_
                  sample_type_ := sample_type_
                  bytes_per_sample_ := bytes_per_sample_
                  total_frame_in_file_ := total_frame_in_file_
                  bytes_per_frame_ := bytes_per_frame_
                  frames_capacity_in_buffer_ := ((TRANSFER_BUFFER_SIZE / bytes_per_frame_ : Nat) : Int) }

/-- `AlsaPlaybackService::GetFormatForAlsa` (alsa_service.cc lines 334-396):
`some f` when it stores `f` and returns true, `none` when it returns false. -/
def GetFormatForAlsa (sample_type_ : SampleType) (is_endian_little_ : Bool)
    (bytes_per_sample_ : Nat) : Option snd_pcm_format_t :=
  match sample_type_ with
  | SampleType.SampleTypeSigned =>
    if is_endian_little_ then
      match bytes_per_sample_ with
      | 1 => some .SND_PCM_FORMAT_S8
      | 2 => some .SND_PCM_FORMAT_S16_LE
      | 3 => some .SND_PCM_FORMAT_S24_LE
      | 4 => some .SND_PCM_FORMAT_S32_LE
      | _ => none
    else
      match bytes_per_sample_ with
      | 1 => some .SND_PCM_FORMAT_S8
      | 2 => some .SND_PCM_FORMAT_S16_BE
      | 3 => some .SND_PCM_FORMAT_S24_BE
      | 4 => some .SND_PCM_FORMAT_S32_BE
      | _ => none
  | SampleType.SampleTypeUnsigned =>
    if is_endian_little_ then
      match bytes_per_sample_ with
      | 1 => some .SND_PCM_FORMAT_U8
      | 2 => some .SND_PCM_FORMAT_U16_LE
      | 3 => some .SND_PCM_FORMAT_U24_LE
      | 4 => some .SND_PCM_FORMAT_U32_LE
      | _ => none
    else
      match bytes_per_sample_ with
      | 1 => some .SND_PCM_FORMAT_U8
      | 2 => some .SND_PCM_FORMAT_U16_BE
      | 3 => some .SND_PCM_FORMAT_U24_BE
      | 4 => some .SND_PCM_FORMAT_U32_BE
      | _ => none
  | SampleType.SampleTypeFloat =>
    if is_endian_little_ then
      match bytes_per_sample_ with
      | 4 => some .SND_PCM_FORMAT_FLOAT_LE
      | 8 => some .SND_PCM_FORMAT_FLOAT64_LE
      | _ => none
    else
      match bytes_per_sample_ with
      | 4 => some .SND_PCM_FORMAT_FLOAT_BE
      | 8 => some .SND_PCM_FORMAT_FLOAT64_BE
      | _ => none

/-- A 44100 Hz, stereo, 16-bit WAV file of 5 seconds, as libsndfile reports
it. -/
def demoWav : SndfileHandle :=
  { error := 0
    strError := "No Error."
    samplerate := 44100
    channels := 2
    format := 0x010002
    frames := 220500 }

/-! ## AlsaPlaybackService: the playing thread -/

/-- `EPIPE` of errno.h. -/
def EPIPE : Int := 32

/-- Conversion of a `uint64_t` to `int64_t`. -/
def to_int64 (x : Nat) : Int :=
  if x % UINT64_MODULUS < 2 ^ 63 then ((x % UINT64_MODULUS : Nat) : Int)
  else ((x % UINT64_MODULUS : Nat) : Int) - (UINT64_MODULUS : Int)

/-- The `int64_t` that a 64-bit operation leaves for the exact result `x`: the
value of `x` modulo `2^64`, taken as signed. -/
def wrap_int64 (x : Int) : Int := to_int64 (to_uint64 x)

/-- Unary minus on `int64_t` (alsa_service.cc line 495): `INT64_MIN` is its own
opposite. -/
def neg_int64 (x : Int) : Int :=
  if x = INT64_MIN then INT64_MIN else -x

/-- The members of `AlsaPlaybackService` that the playing thread works on: the
constant ids, the members set by `InitSndFile`, the frame cursor and the last
published start time. -/
structure Transfer where
  file_id_ : String
  play_seq_id_ : Nat
  params : FileParams
  curr_position_frames_ : Int
  audio_start_time_ms_since_epoch_ : Nat
  deriving DecidableEq, Repr

/-- What ALSA, libsndfile and the clock answer during one run of a handler of
the playing thread: the results of `snd_pcm_avail_update` and of `readRaw`,
the value held by `int frames_written` after `snd_pcm_writei`, the result of
`snd_pcm_delay` and the frame count it stores, the `timeval` of
`gettimeofday`, and whether `snd_pcm_state` is `SND_PCM_STATE_RUNNING`. -/
structure HwStep where
  avail : Int
  read_raw : Int
  frames_written : Int
  delay_err : Int
  delay : Int
  tv_sec : Int
  tv_usec : Int
  pcm_state_running : Bool
  deriving DecidableEq, Repr

/-- The `throw std::runtime_error` sites of the playing thread, with the
return code they report. -/
inductive Fatal where
  /-- "an xrun occured" (line 460). -/
  | xrun
  /-- "unknown ALSA avail update return value" (line 464). -/
  | avail_unknown (frames_to_deliver : Int)
  /-- "Failed reading raw frames from snd file" (line 486). -/
  | read_failed (bytes_to_deliver : Nat)
  /-- "snd_pcm_writei failed" (line 503). -/
  | writei_failed (frames_written : Int)
  /-- "cannot query current offset in buffer" (line 552). -/
  | delay_failed (err : Int)
  /-- "snd_pcm_drop failed" (line 541). -/
  | drop_failed (err : Int)
  deriving DecidableEq, Repr

/-- A call the playing thread makes on ALSA, on the opened file or on the
events callback. -/
inductive Call where
  /-- `snd_pcm_avail_update`. -/
  | avail_update
  /-- `snd_file_.readRaw(buffer_for_transfer, bytes)`. -/
  | readRaw (bytes : Nat)
  /-- `bzero(buffer_for_transfer, bytes)`. -/
  | bzero (bytes : Nat)
  /-- `snd_pcm_writei(alsa_playback_handle_, buffer_for_transfer, frames)` and
  the value `frames_written` it returned; `frames` is the value of
  `frames_to_deliver`, which the call converts to the unsigned
  `snd_pcm_uframes_t`. -/
  | writei (frames : Int) (frames_written : Int)
  /-- `snd_file_.seek(frame, SEEK_SET)`. -/
  | seek (frame : Int)
  /-- `snd_pcm_delay`. -/
  | delay
  /-- `snd_pcm_state`. -/
  | pcm_state
  /-- `snd_pcm_drop`. -/
  | pcm_drop
  /-- `player_events_callback_->NewSongStatus(file_id, play_seq_id, start_time, speed)`. -/
  | NewSongStatus (file_id : String) (play_seq_id : Nat)
      (start_time_millis_since_epoch : Nat) (speed : ℚ)
  /-- `player_events_callback_->NoSongPlayingStatus(file_id, play_seq_id)`. -/
  | NoSongPlayingStatus (file_id : String) (play_seq_id : Nat)
  deriving DecidableEq, Repr

/-- How a handler of the playing thread leaves: with a handler posted to
`ios_`, with `alsa_wait_timer_` armed for 5 ms, with nothing scheduled, or
with an exception. -/
inductive StepEnd where
  /-- `ios_.post` of `FramesToPcmTransferLoop` (line 514). -/
  | post_transfer
  /-- `alsa_wait_timer_` armed for `FramesToPcmTransferLoop` (lines 468-469). -/
  | wait_transfer
  /-- `ios_.post` of `PcmDrainLoop` (line 490). -/
  | post_drain
  /-- `alsa_wait_timer_` armed for `PcmDrainLoop` (lines 531-532). -/
  | wait_drain
  /-- Return with no handler scheduled. -/
  | idle
  /-- A `std::runtime_error` leaves the handler. -/
  | fatal (e : Fatal)
  deriving DecidableEq, Repr

/-- Result of one handler: the members afterwards, the calls made in order and
the way the handler leaves. -/
structure StepResult where
  t : Transfer
  calls : List Call
  next : StepEnd
  deriving DecidableEq, Repr

/-- The time `curr_time_ms_since_epoch` of line 565. -/
def curr_time_ms_since_epoch (hw : HwStep) : Nat :=
  ((to_uint64 hw.tv_sec * 1000) % UINT64_MODULUS + to_uint64 hw.tv_usec / 1000) % UINT64_MODULUS

/-- The value `audio_file_start_time_ms_since_epoch` of lines 559-566 for a
cursor, a delay, a frame rate and a time. The subtraction of line 559 and the
product of line 560 are 64-bit operations; the difference of line 566 is
converted to `uint64_t`, which takes it modulo `2^64` whether or not the
subtraction wraps. -/
def start_time_estimate (curr_position_frames_ delay : Int) (frame_rate_ : Nat)
    (curr_time_ms_since_epoch : Nat) : Nat :=
  let pos_in_frames : Int := wrap_int64 (curr_position_frames_ - delay)
  let ms_since_audio_file_start : Int :=
    Int.tdiv (wrap_int64 (pos_in_frames * 1000)) (frame_rate_ : Int)
  to_uint64 (to_int64 curr_time_ms_since_epoch - ms_since_audio_file_start)

/-- The value `diff_from_prev` of line 568. -/
def diff_from_prev (audio_file_start_time_ms_since_epoch
    audio_start_time_ms_since_epoch_ : Nat) : Int :=
  to_int64 (to_uint64 ((audio_file_start_time_ms_since_epoch : Int)
    - (audio_start_time_ms_since_epoch_ : Int)))

/-- `AlsaPlaybackService::CheckSongStartTime` (alsa_service.cc lines 545-586):
the members afterwards, the calls made, and the exception if one is thrown. -/
def CheckSongStartTime (t : Transfer) (hw : HwStep) : Transfer × List Call × Option Fatal :=
  if hw.delay_err < 0 then
    (t, [Call.delay], some (Fatal.delay_failed hw.delay_err))
  else if hw.delay < 4096 then
    (t, [Call.delay], none)
  else
    let audio_file_start_time_ms_since_epoch :=
      start_time_estimate t.curr_position_frames_ hw.delay t.params.frame_rate_
        (curr_time_ms_since_epoch hw)
    let diff := diff_from_prev audio_file_start_time_ms_since_epoch
      t.audio_start_time_ms_since_epoch_
    if diff ≤ 1 ∧ diff ≥ -1 then
      (t, [Call.delay], none)
    else
      ({ t with audio_start_time_ms_since_epoch_ := audio_file_start_time_ms_since_epoch },
       [Call.delay,
        Call.NewSongStatus t.file_id_ t.play_seq_id_ audio_file_start_time_ms_since_epoch 1],
       none)

/-- Lines 500-514 of `FramesToPcmTransferLoop`: the submission of
`frames_to_deliver` frames after the calls `before`. -/
def transfer_submit (t : Transfer) (hw : HwStep) (frames_to_deliver : Int)
    (start_in_future : Bool) (before : List Call) : StepResult :=
  let frames_written := hw.frames_written
  if frames_written < 0 then
    { t := t
      calls := before ++ [Call.writei frames_to_deliver frames_written]
      next := StepEnd.fatal (Fatal.writei_failed frames_written) }
  else
    let t1 := { t with curr_position_frames_ := t.curr_position_frames_ + frames_written }
    let seek_calls :=
      if t1.curr_position_frames_ ≥ 0
          ∧ (start_in_future = true ∨ frames_written ≠ frames_to_deliver) then
        [Call.seek t1.curr_position_frames_]
      else []
    let r := CheckSongStartTime t1 hw
    { t := r.1
      calls := before ++ [Call.writei frames_to_deliver frames_written] ++ seek_calls ++ r.2.1
      next := match r.2.2 with
        | some e => StepEnd.fatal e
        | none => StepEnd.post_transfer }

/-- `AlsaPlaybackService::FramesToPcmTransferLoop` (alsa_service.cc lines
446-515); `error_code` tells whether the `error_code` handed to the handler is
set. `snd_pcm_sframes_t` is taken to be 64 bits wide. -/
def FramesToPcmTransferLoop (t : Transfer) (error_code : Bool) (hw : HwStep) : StepResult :=
  if error_code then
    { t := t, calls := [], next := StepEnd.idle }
  else
    let frames_to_deliver := hw.avail
    if frames_to_deliver < 0 then
      { t := t
        calls := [Call.avail_update]
        next := StepEnd.fatal
          (if frames_to_deliver = -EPIPE then Fatal.xrun
           else Fatal.avail_unknown frames_to_deliver) }
    else if frames_to_deliver = 0 then
      { t := t, calls := [Call.avail_update], next := StepEnd.wait_transfer }
    else
      let frames_to_deliver := min frames_to_deliver t.params.frames_capacity_in_buffer_
      let start_in_future := decide (t.curr_position_frames_ < 0)
      if start_in_future = false then
        let bytes_requested : Nat := to_uint32 (frames_to_deliver * t.params.bytes_per_frame_)
        let bytes_to_deliver : Nat := to_uint32 hw.read_raw
        if bytes_to_deliver < 0 then
          { t := t
            calls := [Call.avail_update, Call.readRaw bytes_requested]
            next := StepEnd.fatal (Fatal.read_failed bytes_to_deliver) }
        else if bytes_to_deliver = 0 then
          { t := t
            calls := [Call.avail_update, Call.readRaw bytes_requested]
            next := StepEnd.post_drain }
        else
          transfer_submit t hw frames_to_deliver start_in_future
            [Call.avail_update, Call.readRaw bytes_requested]
      else
        let frames_to_deliver := min frames_to_deliver (neg_int64 t.curr_position_frames_)
        let bytes_to_deliver : Nat := to_uint32 (frames_to_deliver * t.params.bytes_per_frame_)
        transfer_submit t hw frames_to_deliver start_in_future
          [Call.avail_update, Call.bzero bytes_to_deliver]

/-- `AlsaPlaybackService::PcmDrainLoop` (alsa_service.cc lines 517-533), with
`IsAlsaStatePlaying` (lines 588-596). -/
def PcmDrainLoop (t : Transfer) (error_code : Bool) (hw : HwStep) : StepResult :=
  if error_code then
    { t := t, calls := [], next := StepEnd.idle }
  else
    let is_currently_playing := hw.pcm_state_running
    if !is_currently_playing then
      { t := t, calls := [Call.pcm_state], next := StepEnd.idle }
    else
      let r := CheckSongStartTime t hw
      { t := r.1
        calls := [Call.pcm_state] ++ r.2.1
        next := match r.2.2 with
          | some e => StepEnd.fatal e
          | none => StepEnd.wait_drain }

/-- The call `ios_.run()` of line 435: the handlers run one after the other,
each on the answers of one `HwStep`, until a handler throws or leaves nothing
scheduled; when the answers run out, `ios_.stop()` has been called from
`Stop()` and `run()` returns with the next handler not run. Result: the
members afterwards, the calls made, the number of handlers run and the way
the last one left. -/
def ios_run (t : Transfer) (pending : StepEnd) :
    List HwStep → Transfer × List Call × Nat × StepEnd
  | [] => (t, [], 0, pending)
  | hw :: rest =>
    match pending with
    | StepEnd.idle => (t, [], 0, StepEnd.idle)
    | StepEnd.fatal e => (t, [], 0, StepEnd.fatal e)
    | StepEnd.post_transfer | StepEnd.wait_transfer =>
      let r := FramesToPcmTransferLoop t false hw
      let r2 := ios_run r.t r.next rest
      (r2.1, r.calls ++ r2.2.1, r2.2.2.1 + 1, r2.2.2.2)
    | StepEnd.post_drain | StepEnd.wait_drain =>
      let r := PcmDrainLoop t false hw
      let r2 := ios_run r.t r.next rest
      (r2.1, r.calls ++ r2.2.1, r2.2.2.1 + 1, r2.2.2.2)

/-- Result of the playing thread: the members at its end, the calls it made in
order and the number of handlers it ran. -/
structure ThreadRun where
  t : Transfer
  calls : List Call
  handlers_run : Nat
  deriving DecidableEq, Repr

/-- `AlsaPlaybackService::PlayingThreadMain` (alsa_service.cc lines 431-444) on
the answers `steps` of the handler runs. `PcmDrop` (lines 535-543) is reached
when `run()` returns; an exception it throws is caught like one of a handler,
so its result does not show. -/
def PlayingThreadMain (t : Transfer) (steps : List HwStep) : ThreadRun :=
  let r := ios_run t StepEnd.post_transfer steps
  let drop_calls := match r.2.2.2 with
    | StepEnd.fatal _ => []
    | _ => [Call.pcm_drop]
  { t := r.1
    calls := r.2.1 ++ drop_calls
      ++ [Call.NoSongPlayingStatus r.1.file_id_ r.1.play_seq_id_]
    handlers_run := r.2.2.1 }

/-- The `NoSongPlayingStatus` events among calls, in order. -/
def no_song_events : List Call → List (String × Nat)
  | [] => []
  | Call.NoSongPlayingStatus file_id play_seq_id :: rest =>
    (file_id, play_seq_id) :: no_song_events rest
  | _ :: rest => no_song_events rest

/-- Frames of silence taken by the device before the first read of the file:
the sum of the values returned by the `snd_pcm_writei` calls that precede the
first `readRaw`. -/
def silence_before_read : List Call → Int
  | [] => 0
  | Call.readRaw _ :: _ => 0
  | Call.writei _ frames_written :: rest => frames_written + silence_before_read rest
  | _ :: rest => silence_before_read rest

/-- Whether the file is read in the calls. -/
def reads_file : List Call → Bool
  | [] => false
  | Call.readRaw _ :: _ => true
  | _ :: rest => reads_file rest

/-- The start times of the `NewSongStatus` events among calls, in order. -/
def published_start_times : List Call → List Nat
  | [] => []
  | Call.NewSongStatus _ _ start _ :: rest => start :: published_start_times rest
  | _ :: rest => published_start_times rest

/-- The session of `demoWav` with the given cursor, as `Play` leaves it. -/
def demoTransfer (cursor : Int) : Transfer :=
  { file_id_ := "track1.wav"
    play_seq_id_ := 1
    params :=
      { frame_rate_ := 44100
        num_of_channels_ := 2
        is_endian_little_ := true
        sample_type_ := SampleType.SampleTypeSigned
        bytes_per_sample_ := 2
        total_frame_in_file_ := 220500
        bytes_per_frame_ := 4
        frames_capacity_in_buffer_ := 16384 }
    curr_position_frames_ := cursor
    audio_start_time_ms_since_epoch_ := 0 }

/-- Answers of a healthy device with room for 4096 frames that takes all of
them, a file that delivers the 16384 bytes asked for, 8192 frames queued, and
the clock at 1700000000.000 s. -/
def demoHw : HwStep :=
  { avail := 4096
    read_raw := 16384
    frames_written := 4096
    delay_err := 0
    delay := 8192
    tv_sec := 1700000000
    tv_usec := 0
    pcm_state_running := true }

/-- Answers of four handler runs of a session that starts 10000 frames in the
future: the device takes 4096, 4096 and 1808 frames of silence, then 4096
frames of the file. -/
def demoFutureSteps : List HwStep :=
  [demoHw, demoHw, { demoHw with frames_written := 1808 }, demoHw]

/-- A session of the sample file, 445096 frames in, that has published no
start time yet. -/
def demoTransferLate : Transfer := demoTransfer 445096

/-- What a handler may publish when the last published start time is `l`:
nothing, leaving `l`, or one start time below `2^64` that becomes the last
published one and differs from `l` by more than 1. -/
def publishes_at_most_one (l : Nat) (calls : List Call) (l1 : Nat) : Prop :=
  (published_start_times calls = [] ∧ l1 = l)
  ∨ (∃ e, published_start_times calls = [e] ∧ l1 = e ∧ e < UINT64_MODULUS
    ∧ 1 < |(e : Int) - (l : Int)|)

/-- Answers of the device with 4096 frames queued while the clock reads 5 s
after the epoch. -/
def demoHwFiveSeconds : HwStep :=
  { demoHw with delay := 4096, tv_sec := 5, tv_usec := 0 }

/-! ### Lifecycle states of the specification -/

/-- The lifecycle states that the specification gives a session. -/
inductive SpecLifecycle where
  | Created
  | Playing
  | Draining
  | Ended
  | Stopped
  deriving DecidableEq, Repr

/-- The specification's terminal states: `Ended` and `Stopped`. -/
def SpecLifecycle.terminal : SpecLifecycle → Bool
  | SpecLifecycle.Ended => true
  | SpecLifecycle.Stopped => true
  | _ => false

/-- The members a session has in a lifecycle state. Before `Play` no thread
has been constructed and the scheduler of the session has not been stopped;
while the thread transfers or drains it is joinable and the scheduler runs;
after the natural end the thread, not yet joined, has stopped the scheduler
(alsa_service.cc line 443); a stopped session has a stopped scheduler, with
the thread joined after `Stop` (lines 423-426) or not yet joined after a
hardware failure (lines 439-443). -/
def shows_lifecycle (s : AlsaPlaybackService) : SpecLifecycle → Bool
  | SpecLifecycle.Created => !s.joinable && !s.ios_stopped
  | SpecLifecycle.Playing => s.joinable && !s.ios_stopped
  | SpecLifecycle.Draining => s.joinable && !s.ios_stopped
  | SpecLifecycle.Ended => s.joinable && s.ios_stopped
  | SpecLifecycle.Stopped => s.ios_stopped

/-! ### The `double` arithmetic of `Play` -/

/-- The integer nearest to `q`, the even one of the two when `q` lies halfway:
the rounding of IEEE 754 binary64 arithmetic. -/
def round_half_even (q : ℚ) : Int :=
  if q - (⌊q⌋ : ℚ) < 1 / 2 then ⌊q⌋
  else if 1 / 2 < q - (⌊q⌋ : ℚ) then ⌊q⌋ + 1
  else if ⌊q⌋ % 2 = 0 then ⌊q⌋
  else ⌊q⌋ + 1

/-- The power `2^e` for an integer `e`. -/
def pow2 (e : Int) : ℚ :=
  if 0 ≤ e then ((2 ^ e.toNat : Nat) : ℚ) else 1 / ((2 ^ (-e).toNat : Nat) : ℚ)

/-- The number of halvings that bring `n` below 2, at most `fuel` of them. -/
def halvings : Nat → Nat → Nat
  | 0, _ => 0
  | fuel + 1, n => if 2 ≤ n then halvings fuel (n / 2) + 1 else 0

/-- The exponent `e` of a positive `q`, with `2^e ≤ q < 2^(e+1)`. -/
def binary_exponent (q : ℚ) : Int :=
  let k : Int := (halvings q.num.natAbs q.num.natAbs : Int) - (halvings q.den q.den : Int)
  if pow2 k ≤ q then k else k - 1

/-- The `double` nearest to a positive `q`: `q` rounded to 53 significant bits.
The values of `Play` are far inside the range of normal numbers, so subnormal
numbers and overflow are left out. -/
def round_double_pos (q : ℚ) : ℚ :=
  (round_half_even (q / pow2 (binary_exponent q - 52)) : ℚ) * pow2 (binary_exponent q - 52)

/-- The `double` nearest to `q`. -/
def round_double (q : ℚ) : ℚ :=
  if q = 0 then 0
  else if 0 < q then round_double_pos q
  else -round_double_pos (-q)

/-- Conversion of a `double` to `int64_t`: the fraction is discarded. -/
def double_to_int64 (q : ℚ) : Int :=
  if 0 ≤ q then ⌊q⌋ else ⌈q⌉

/-- The `double` assigned to `curr_position_frames_` at alsa_service.cc line
409: `(double)offset_in_ms / 1000.0 * (double)frame_rate_`, each conversion
and each operation rounded; the literal `1000.0` is a `double`. -/
def position_in_frames (offset_in_ms : Int) (frame_rate_ : Nat) : ℚ :=
  let position_in_seconds : ℚ := round_double (round_double (offset_in_ms : ℚ) / 1000)
  round_double (position_in_seconds * round_double (frame_rate_ : ℚ))

/-- Lines 408-413 of `AlsaPlaybackService::Play`: the frame cursor and the seek
on the opened file. -/
def Transfer.Play (t : Transfer) (offset_in_ms : Int) : Transfer × List Call :=
  let curr_position_frames_ : Int :=
    min (double_to_int64 (position_in_frames offset_in_ms t.params.frame_rate_))
      (to_int64 t.params.total_frame_in_file_)
  ({ t with curr_position_frames_ := curr_position_frames_ },
   if curr_position_frames_ ≥ 0 then [Call.seek curr_position_frames_] else [])

/-- `CurrentSongController::NewSongStatus` (current_song_controller.cc
lines 37-47): the handler posted to `ios_`. `set_double` is the assignment
`j[key] = value` of a `double`. -/
def CurrentSongController.NewSongStatus {J : Type} (lib : JsonLib J)
    (set_double : J → String → ℚ → J) (file_id : String)
    (play_seq_id start_time_millis_since_epoch : Nat) (speed : ℚ) : StatusInput J :=
  StatusInput.merge
    (set_double
      (lib.set_unsigned
        (lib.set_string (lib.set_bool lib.null "song_is_playing" true) "file_id" file_id)
        "start_time_millis_since_epoch" start_time_millis_since_epoch)
      "speed" speed)
    play_seq_id

/-- `CurrentSongController::NoSongPlayingStatus` (current_song_controller.cc
lines 49-56): the handler posted to `ios_`. -/
def CurrentSongController.NoSongPlayingStatus {J : Type} (lib : JsonLib J)
    (file_id : String) (play_seq_id : Nat) : StatusInput J :=
  StatusInput.merge
    (lib.set_string (lib.set_bool lib.null "song_is_playing" false) "stopped_file_id" file_id)
    play_seq_id

/-- The handlers that the calls of a playing thread post to the `ios_` of the
controller, in the order of the calls. -/
def posted_handlers {J : Type} (lib : JsonLib J) (set_double : J → String → ℚ → J) :
    List Call → List (StatusInput J)
  | [] => []
  | Call.NewSongStatus file_id play_seq_id start speed :: rest =>
    CurrentSongController.NewSongStatus lib set_double file_id play_seq_id start speed
      :: posted_handlers lib set_double rest
  | Call.NoSongPlayingStatus file_id play_seq_id :: rest =>
    CurrentSongController.NoSongPlayingStatus lib file_id play_seq_id
      :: posted_handlers lib set_double rest
  | _ :: rest => posted_handlers lib set_double rest

/-- The controller with the handlers that were posted to its `ios_` and have
not run yet, oldest first. The requests are handlers of the same `ios_`
(http_api.cc line 29), so a posted handler runs once the request that is
being served has returned. -/
structure Player (J : Type) where
  ctl : CurrentSongController
  posted : List (StatusInput J)

/-- The handlers posted while `alsa_service_->Stop()` runs. `Stop()` joins the
playing thread (alsa_service.cc lines 424-426): the calls `closing` that the
thread makes from the call of `Stop()` until its end are made before `Stop()`
returns. Without a session or without a joinable thread there are none. -/
def posted_during_stop {J : Type} (lib : JsonLib J) (set_double : J → String → ℚ → J)
    (c : CurrentSongController) (closing : List Call) : List (StatusInput J) :=
  match c.alsa_service_ with
  | none => []
  | some s => if s.joinable then posted_handlers lib set_double closing else []

/-- `StopPlayRequest` run as a handler of `ios_`, with the calls `closing` of the
playing thread during `Stop()`. -/
def Player.StopPlayRequest {J : Type} (lib : JsonLib J) (set_double : J → String → ℚ → J)
    (p : Player J) (closing : List Call) : Player J × Reply :=
  ({ ctl := (wavplayeralsa.StopPlayRequest p.ctl).ctl
     posted := p.posted ++ posted_during_stop lib set_double p.ctl closing },
   (wavplayeralsa.StopPlayRequest p.ctl).reply)

/-- `NewSongRequest` run as a handler of `ios_`, with the calls `closing` of the
playing thread of the previous session during `Stop()`. -/
def Player.NewSongRequest {J : Type} (lib : JsonLib J) (set_double : J → String → ℚ → J)
    (ext : Externals) (p : Player J) (file_id : String) (start_offset_ms : Int)
    (closing : List Call) : Player J × Reply :=
  ({ ctl := (wavplayeralsa.NewSongRequest ext p.ctl file_id start_offset_ms).ctl
     posted := p.posted ++ posted_during_stop lib set_double p.ctl closing },
   (wavplayeralsa.NewSongRequest ext p.ctl file_id start_offset_ms).reply)

/-- Answers as `demoHw` when the file has 441 frames (1764 bytes) left to
deliver: the read asked for 16384 bytes returns 1764. -/
def demoHwShortRead : HwStep :=
  { demoHw with read_raw := 1764 }

/-- The answers at the end of the sample file: the short read, then a read at
the end of the file, then a device that has played all it was given. -/
def demoEndOfFileSteps : List HwStep :=
  [demoHwShortRead, { demoHw with read_raw := 0 }, { demoHw with pcm_state_running := false }]

end wavplayeralsa

namespace wavplayeralsa

/-! ## Sequence ids -/

/-- The id stored by `NewSongRequest` is the one it hands back, on every path. -/
theorem NewSongRequest_reply_id_eq_ctl_id (ext : Externals) (c : CurrentSongController)
    (file_id : String) (start_offset_ms : Int) :
    (NewSongRequest ext c file_id start_offset_ms).reply.play_seq_id
      = (NewSongRequest ext c file_id start_offset_ms).ctl.play_seq_id_ := by
  unfold NewSongRequest
  simp only []
  split
  · rfl
  · split
    · rfl
    · split <;> rfl

/-- The id handed back by `NewSongRequest` is the successor of the stored one
in `uint32_t` arithmetic, on every path. -/
theorem NewSongRequest_reply_id (ext : Externals) (c : CurrentSongController)
    (file_id : String) (start_offset_ms : Int) :
    (NewSongRequest ext c file_id start_offset_ms).reply.play_seq_id
      = (c.play_seq_id_ + 1) % UINT32_MODULUS := by
  unfold NewSongRequest
  simp only []
  split
  · rfl
  · split
    · rfl
    · split <;> rfl

/-- C1, as stated, fails at the largest `uint32_t`: with `play_seq_id_` equal
to 4294967295 a request hands back 0, not 4294967296. -/
theorem NewSongRequest_id_wraps_at_uint32_max :
    (NewSongRequest demoExt { demoCtl with play_seq_id_ := 4294967295 } "track1.wav" 0).reply.play_seq_id
        = 0
    ∧ (NewSongRequest demoExt { demoCtl with play_seq_id_ := 4294967295 } "track1.wav" 0).reply.play_seq_id
        ≠ ({ demoCtl with play_seq_id_ := 4294967295 } : CurrentSongController).play_seq_id_ + 1 := by
  constructor <;> decide

/-- C1 (amended): for every controller state and every request, whether it
succeeds or fails, `NewSongRequest` hands back and stores
`(previous id + 1) mod 2^32`; this is `previous id + 1` whenever the previous
id is below `2^32 - 1`, so the first request on a fresh controller hands back
1. `StopPlayRequest` hands back the current id and leaves the counter
unchanged. -/
theorem NewSongRequest_id_is_successor_mod_uint32 (ext : Externals)
    (c : CurrentSongController) (file_id : String) (start_offset_ms : Int) :
    (NewSongRequest ext c file_id start_offset_ms).reply.play_seq_id
        = (c.play_seq_id_ + 1) % UINT32_MODULUS
    ∧ (NewSongRequest ext c file_id start_offset_ms).ctl.play_seq_id_
        = (c.play_seq_id_ + 1) % UINT32_MODULUS
    ∧ (c.play_seq_id_ + 1 < UINT32_MODULUS →
        (NewSongRequest ext c file_id start_offset_ms).reply.play_seq_id = c.play_seq_id_ + 1)
    ∧ (NewSongRequest ext CurrentSongController.init file_id start_offset_ms).reply.play_seq_id = 1
    ∧ (StopPlayRequest c).reply.play_seq_id = c.play_seq_id_
    ∧ (StopPlayRequest c).ctl.play_seq_id_ = c.play_seq_id_ := by
  refine ⟨NewSongRequest_reply_id ext c file_id start_offset_ms, ?_, ?_, ?_, rfl, rfl⟩
  · rw [← NewSongRequest_reply_id_eq_ctl_id, NewSongRequest_reply_id]
  · intro h
    rw [NewSongRequest_reply_id, Nat.mod_eq_of_lt h]
  · rw [NewSongRequest_reply_id]
    rfl

/-- C1 (amended) at a failed and at a successful request of the sample
installation. -/
theorem NewSongRequest_id_is_successor_mod_uint32_witness :
    (NewSongRequest demoExt demoCtl "missing.wav" 0).reply.success = false
    ∧ (NewSongRequest demoExt demoCtl "missing.wav" 0).reply.play_seq_id = 1
    ∧ (NewSongRequest demoExt (NewSongRequest demoExt demoCtl "missing.wav" 0).ctl
        "track1.wav" 0).reply.success = true
    ∧ (NewSongRequest demoExt (NewSongRequest demoExt demoCtl "missing.wav" 0).ctl
        "track1.wav" 0).reply.play_seq_id = 2 := by
  refine ⟨by decide, ?_, by decide, ?_⟩
  · exact (NewSongRequest_id_is_successor_mod_uint32 demoExt demoCtl "missing.wav" 0).2.2.1
      (by decide)
  · have h := (NewSongRequest_id_is_successor_mod_uint32 demoExt
      (NewSongRequest demoExt demoCtl "missing.wav" 0).ctl "track1.wav" 0).2.2.1
    exact h (by decide)

/-! ## Replacement of the session -/

/-- The trace of `NewSongRequest` is the trace of lines 64-72 followed by
calls of lines 82-126 only, and a session held afterwards was built by a
factory call among them. -/
theorem NewSongRequest_trace (ext : Externals) (c : CurrentSongController)
    (file_id : String) (start_offset_ms : Int) :
    ∃ rest, (NewSongRequest ext c file_id start_offset_ms).trace
        = (stop_and_delete c).2.2 ++ rest
      ∧ (∀ e ∈ rest, is_load_call e)
      ∧ (∀ t, (NewSongRequest ext c file_id start_offset_ms).ctl.alsa_service_ = some t →
          Event.create t.full_file_name t.file_id_ t.play_seq_id_ ∈ rest) := by
  unfold NewSongRequest
  simp only []
  split
  · exact ⟨_, rfl, by simp [is_load_call], by simp⟩
  · split
    · exact ⟨_, rfl, by simp [is_load_call], by simp⟩
    · rename_i p _ _ s hs
      have hs2 : s.full_file_name = p ∧ s.file_id_ = file_id
          ∧ s.play_seq_id_ = (c.play_seq_id_ + 1) % UINT32_MODULUS := by
        unfold CreateAlsaPlaybackService at hs
        split at hs
        · cases hs
        · cases hs
          exact ⟨rfl, rfl, rfl⟩
      split
      · refine ⟨_, rfl, by simp [is_load_call], ?_⟩
        intro t ht
        simp only [Option.some.injEq] at ht
        subst ht
        simpa using hs2
      · rename_i s1 hp
        have hp2 : s1.full_file_name = s.full_file_name ∧ s1.file_id_ = s.file_id_
            ∧ s1.play_seq_id_ = s.play_seq_id_ := by
          unfold AlsaPlaybackService.Play at hp
          split at hp
          · cases hp
          · split at hp
            · cases hp
            · split at hp
              · cases hp
              · cases hp
                exact ⟨rfl, rfl, rfl⟩
        refine ⟨_, rfl, by simp [is_load_call], ?_⟩
        intro t ht
        simp only [Option.some.injEq] at ht
        subst ht
        simpa [hp2.1, hp2.2.1, hp2.2.2] using hs2

/-- C2: when the controller holds a session `s`, every `NewSongRequest`, on the
success path and on every failure path, first calls `Stop()` on `s` and deletes
it (stopped: its loop is stopped and its thread joined); everything that
follows is a call to `canonical`, to the factory or to `Play`, so the factory
builds the new session only after the old one is destroyed, and a session held
afterwards is one built by such a factory call. -/
theorem NewSongRequest_stops_and_destroys_before_create (ext : Externals)
    (c : CurrentSongController) (s : AlsaPlaybackService) (file_id : String)
    (start_offset_ms : Int) (h : c.alsa_service_ = some s) :
    ∃ rest, (NewSongRequest ext c file_id start_offset_ms).trace
        = Event.stop s :: Event.destroy s.Stop.2 :: rest
      ∧ s.Stop.2.ios_stopped = true ∧ s.Stop.2.joinable = false
      ∧ (∀ e ∈ rest, is_load_call e)
      ∧ (∀ t, (NewSongRequest ext c file_id start_offset_ms).ctl.alsa_service_ = some t →
          Event.create t.full_file_name t.file_id_ t.play_seq_id_ ∈ rest) := by
  obtain ⟨rest, h1, h2, h3⟩ := NewSongRequest_trace ext c file_id start_offset_ms
  refine ⟨rest, ?_, rfl, rfl, h2, h3⟩
  rw [h1]
  simp [stop_and_delete, h]

/-- C2 at the sample installation: `track1.wav` is playing and `track2.wav` is
requested. -/
theorem NewSongRequest_stops_and_destroys_before_create_witness :
    ∃ rest, (NewSongRequest demoExt { demoCtl with alsa_service_ := some (demoSession "track1.wav" 1) }
          "track2.wav" 0).trace
        = Event.stop (demoSession "track1.wav" 1)
            :: Event.destroy (demoSession "track1.wav" 1).Stop.2 :: rest
      ∧ (demoSession "track1.wav" 1).Stop.2.ios_stopped = true
      ∧ (demoSession "track1.wav" 1).Stop.2.joinable = false
      ∧ (∀ e ∈ rest, is_load_call e)
      ∧ (∀ t, (NewSongRequest demoExt
            { demoCtl with alsa_service_ := some (demoSession "track1.wav" 1) }
            "track2.wav" 0).ctl.alsa_service_ = some t →
          Event.create t.full_file_name t.file_id_ t.play_seq_id_ ∈ rest) :=
  NewSongRequest_stops_and_destroys_before_create demoExt
    { demoCtl with alsa_service_ := some (demoSession "track1.wav" 1) }
    (demoSession "track1.wav" 1) "track2.wav" 0 rfl

/-! ## Failed requests -/

/-- C3, as stated, fails when `Play()` throws: with no thread to start, the
request for `track1.wav` returns `success=false` and the controller keeps the
session the factory has just built. -/
theorem NewSongRequest_play_failure_keeps_session :
    (NewSongRequest demoExtNoThread demoCtl "track1.wav" 0).reply.success = false
    ∧ (NewSongRequest demoExtNoThread demoCtl "track1.wav" 0).ctl.alsa_service_
        = some { file_id_ := "track1.wav"
                 play_seq_id_ := 1
                 full_file_name := "/wav/track1.wav"
                 initialized_ := true
                 joinable := false
                 ios_stopped := false }
    ∧ (NewSongRequest demoExtNoThread demoCtl "track1.wav" 0).ctl.alsa_service_ ≠ none := by
  refine ⟨by decide, by decide, by decide⟩

/-- C3 (amended): a `NewSongRequest` that returns `success=false` failed either
in path resolution or session construction, and then the controller holds no
session afterwards, or in `Play()`, and then the controller still holds the
session the factory has just built, which is not playing. -/
theorem NewSongRequest_failure_cases (ext : Externals) (c : CurrentSongController)
    (file_id : String) (start_offset_ms : Int)
    (h : (NewSongRequest ext c file_id start_offset_ms).reply.success = false) :
    ((NewSongRequest ext c file_id start_offset_ms).ctl.alsa_service_ = none
      ∧ ((∃ what, ext.canonical (ext.path_join c.wav_dir_ file_id) = .error what)
        ∨ (∃ path what, ext.canonical (ext.path_join c.wav_dir_ file_id) = .ok path
            ∧ CreateAlsaPlaybackService ext path file_id ((c.play_seq_id_ + 1) % UINT32_MODULUS)
                = .error what)))
    ∨ (∃ path s what, ext.canonical (ext.path_join c.wav_dir_ file_id) = .ok path
        ∧ CreateAlsaPlaybackService ext path file_id ((c.play_seq_id_ + 1) % UINT32_MODULUS)
            = .ok s
        ∧ s.Play ext start_offset_ms = .error what
        ∧ (NewSongRequest ext c file_id start_offset_ms).ctl.alsa_service_ = some s
        ∧ s.Stop.1 = false) := by
  cases hc : ext.canonical (ext.path_join c.wav_dir_ file_id) with
  | error what =>
    left
    simp [NewSongRequest, hc]
  | ok path =>
    cases hs : CreateAlsaPlaybackService ext path file_id
        ((c.play_seq_id_ + 1) % UINT32_MODULUS) with
    | error what =>
      left
      simp [NewSongRequest, hc, hs]
    | ok s =>
      cases hp : s.Play ext start_offset_ms with
      | error what =>
        right
        refine ⟨path, s, what, rfl, hs, hp, ?_, ?_⟩
        · simp [NewSongRequest, hc, hs, hp]
        · unfold CreateAlsaPlaybackService at hs
          split at hs
          · cases hs
          · cases hs
            rfl
      | ok s1 =>
        simp [NewSongRequest, hc, hs, hp] at h

/-- C3 (amended) at a request for a file that does not exist. -/
theorem NewSongRequest_failure_cases_witness :
    ((NewSongRequest demoExt demoCtl "missing.wav" 0).ctl.alsa_service_ = none
      ∧ ((∃ what, demoExt.canonical (demoExt.path_join demoCtl.wav_dir_ "missing.wav")
            = .error what)
        ∨ (∃ path what, demoExt.canonical (demoExt.path_join demoCtl.wav_dir_ "missing.wav")
              = .ok path
            ∧ CreateAlsaPlaybackService demoExt path "missing.wav"
                ((demoCtl.play_seq_id_ + 1) % UINT32_MODULUS) = .error what)))
    ∨ (∃ path s what, demoExt.canonical (demoExt.path_join demoCtl.wav_dir_ "missing.wav")
          = .ok path
        ∧ CreateAlsaPlaybackService demoExt path "missing.wav"
            ((demoCtl.play_seq_id_ + 1) % UINT32_MODULUS) = .ok s
        ∧ s.Play demoExt 0 = .error what
        ∧ (NewSongRequest demoExt demoCtl "missing.wav" 0).ctl.alsa_service_ = some s
        ∧ s.Stop.1 = false) :=
  NewSongRequest_failure_cases demoExt demoCtl "missing.wav" 0 (by decide)

/-! ## Resolution of the file id -/

/-- C4 at the failing input: with root `/wav` and a file `/secret.wav` next to
it, the request for `../secret.wav` resolves to `/secret.wav`, which the
containment test of `HttpApi::OnWebGet` places outside `/wav`; the request
nevertheless hands that path to the factory, keeps the session built for it
and returns `success=true`. -/
theorem NewSongRequest_accepts_path_outside_root :
    demoExt.canonical (demoExt.path_join demoCtl.wav_dir_ "../secret.wav") = .ok "/secret.wav"
    ∧ path_is_within (path_elements demoCtl.wav_dir_) (path_elements "/secret.wav") = false
    ∧ (NewSongRequest demoExt demoCtl "../secret.wav" 0).reply.success = true
    ∧ (NewSongRequest demoExt demoCtl "../secret.wav" 0).trace
        = [Event.canonical "/wav/../secret.wav",
           Event.create "/secret.wav" "../secret.wav" 1,
           Event.play { file_id_ := "../secret.wav"
                        play_seq_id_ := 1
                        full_file_name := "/secret.wav"
                        initialized_ := true
                        joinable := false
                        ios_stopped := false } 0]
    ∧ (NewSongRequest demoExt demoCtl "../secret.wav" 0).ctl.alsa_service_
        = some { file_id_ := "../secret.wav"
                 play_seq_id_ := 1
                 full_file_name := "/secret.wav"
                 initialized_ := true
                 joinable := true
                 ios_stopped := false } := by
  refine ⟨rfl, by decide, by decide, by decide, by decide⟩

/-! ## Text of a successful reply -/

/-- On success the reply text is the text of lines 99-123, built from the file
id captured at line 68 and the answer of `Stop()` at line 69. -/
theorem NewSongRequest_success_out_msg (ext : Externals) (c : CurrentSongController)
    (file_id : String) (start_offset_ms : Int)
    (h : (NewSongRequest ext c file_id start_offset_ms).reply.success = true) :
    (NewSongRequest ext c file_id start_offset_ms).reply.out_msg
      = new_song_msg file_id (stop_and_delete c).1 (stop_and_delete c).2.1 start_offset_ms := by
  cases hc : ext.canonical (ext.path_join c.wav_dir_ file_id) with
  | error what => simp [NewSongRequest, hc] at h
  | ok path =>
    cases hs : CreateAlsaPlaybackService ext path file_id
        ((c.play_seq_id_ + 1) % UINT32_MODULUS) with
    | error what => simp [NewSongRequest, hc, hs] at h
    | ok s =>
      cases hp : s.Play ext start_offset_ms with
      | error what => simp [NewSongRequest, hc, hs, hp] at h
      | ok s1 => simp [NewSongRequest, hc, hs, hp]

set_option maxRecDepth 100000 in
/-- C5, as stated, fails on the exact text: the reposition text ends with a
line break (the `std::endl` of line 100); for a negative offset the other two
texts read `(h:mm:ss in the future)`, not `(h:mm:ss)`; and a replaced session
that was actively playing under an empty file id gives the "will play" text,
not the "changed from" one. -/
theorem NewSongRequest_out_msg_is_not_the_stated_text :
    (NewSongRequest demoExt { demoCtl with alsa_service_ := some (demoSession "track1.wav" 1) }
        "track1.wav" 2000).reply
      = ⟨true, "changed position of the current file 'track1.wav'. new position in ms is: 2000\n", 1⟩
    ∧ "changed position of the current file 'track1.wav'. new position in ms is: 2000\n"
      ≠ "changed position of the current file 'track1.wav'. new position in ms is: 2000"
    ∧ (NewSongRequest demoExt { demoCtl with alsa_service_ := some (demoSession "track1.wav" 1) }
        "track2.wav" (-3000)).reply
      = ⟨true, "audio file successfully changed from 'track1.wav' to 'track2.wav' and will be played starting at position -3000 ms (0:00:03 in the future)", 1⟩
    ∧ "audio file successfully changed from 'track1.wav' to 'track2.wav' and will be played starting at position -3000 ms (0:00:03 in the future)"
      ≠ "audio file successfully changed from 'track1.wav' to 'track2.wav' and will be played starting at position -3000 ms (0:00:03)"
    ∧ (demoSession "" 1).Stop.1 = true
    ∧ (NewSongRequest demoExt { demoCtl with alsa_service_ := some (demoSession "" 1) }
        "track2.wav" 0).reply
      = ⟨true, "will play audio file 'track2.wav' starting at position 0 ms (0:00:00)", 1⟩
    ∧ "will play audio file 'track2.wav' starting at position 0 ms (0:00:00)"
      ≠ "audio file successfully changed from '' to 'track2.wav' and will be played starting at position 0 ms (0:00:00)" := by
  refine ⟨by decide, by decide, by decide, by decide, by decide, by decide, by decide⟩

/-- C5 (amended): for every successful `NewSongRequest` the text is chosen by
the prior state. Let `prev` be the file id of the session just replaced, or the
empty string when none was held. When `file_id = prev` the text is
"changed position of the current file '<id>'. new position in ms is: <offset>"
followed by a line break. Otherwise, when the replaced session was actively
playing (its `Stop()` returned true) and `prev` is not empty, it is
"audio file successfully changed from '<prev>' to '<id>' and will be played
starting at position <offset> ms (h:mm:ss)"; otherwise it is "will play audio
file '<id>' starting at position <offset> ms (h:mm:ss)". In the last two texts
a negative offset adds " in the future" after `h:mm:ss`. -/
theorem NewSongRequest_success_message_by_prior_state (ext : Externals)
    (c : CurrentSongController) (file_id : String) (start_offset_ms : Int)
    (h : (NewSongRequest ext c file_id start_offset_ms).reply.success = true) :
    (∀ prev was_playing,
        (c.alsa_service_ = none ∧ prev = "" ∧ was_playing = false
          ∨ ∃ s, c.alsa_service_ = some s ∧ prev = s.file_id_ ∧ was_playing = s.Stop.1) →
      (file_id = prev →
        (NewSongRequest ext c file_id start_offset_ms).reply.out_msg
          = "changed position of the current file '" ++ file_id
            ++ "'. new position in ms is: " ++ toString start_offset_ms ++ "\n")
      ∧ (file_id ≠ prev → was_playing = true → prev ≠ "" →
        (NewSongRequest ext c file_id start_offset_ms).reply.out_msg
          = "audio file successfully changed from '" ++ prev ++ "' to '" ++ file_id
            ++ "' and will be played " ++ "starting at position "
            ++ toString start_offset_ms ++ " ms " ++ "(" ++ position_hms start_offset_ms
            ++ (if start_offset_ms < 0 then " in the future" else "") ++ ")")
      ∧ (file_id ≠ prev → (was_playing = false ∨ prev = "") →
        (NewSongRequest ext c file_id start_offset_ms).reply.out_msg
          = "will play audio file '" ++ file_id ++ "' " ++ "starting at position "
            ++ toString start_offset_ms ++ " ms " ++ "(" ++ position_hms start_offset_ms
            ++ (if start_offset_ms < 0 then " in the future" else "") ++ ")")) := by
  intro prev was_playing hprior
  have hsd : (stop_and_delete c).1 = prev ∧ (stop_and_delete c).2.1 = was_playing := by
    rcases hprior with ⟨h1, h2, h3⟩ | ⟨s, h1, h2, h3⟩
    · simp [stop_and_delete, h1, h2, h3]
    · simp [stop_and_delete, h1, h2, h3, AlsaPlaybackService.GetFileId]
  rw [NewSongRequest_success_out_msg ext c file_id start_offset_ms h, hsd.1, hsd.2]
  refine ⟨?_, ?_, ?_⟩
  · intro he
    simp [new_song_msg, he]
  · intro he hw hp
    simp [new_song_msg, he, hw, hp]
  · intro he hw
    have : ¬ (was_playing = true ∧ prev ≠ "") := by
      rcases hw with hw | hw
      · simp [hw]
      · simp [hw]
    simp only [new_song_msg, he, this, if_false]

/-- C5 (amended) at the replacement of the playing `track1.wav` by
`track2.wav`. -/
theorem NewSongRequest_success_message_by_prior_state_witness :
    (NewSongRequest demoExt { demoCtl with alsa_service_ := some (demoSession "track1.wav" 1) }
        "track2.wav" 0).reply.out_msg
      = "audio file successfully changed from '" ++ "track1.wav" ++ "' to '" ++ "track2.wav"
          ++ "' and will be played " ++ "starting at position "
          ++ toString (0 : Int) ++ " ms " ++ "(" ++ position_hms 0
          ++ (if (0 : Int) < 0 then " in the future" else "") ++ ")" :=
  (NewSongRequest_success_message_by_prior_state demoExt
    { demoCtl with alsa_service_ := some (demoSession "track1.wav" 1) } "track2.wav" 0
    (by decide) "track1.wav" true
    (Or.inr ⟨demoSession "track1.wav" 1, rfl, rfl, rfl⟩)).2.1 (by decide) rfl (by decide)

/-! ## Position in a successful reply -/

/-- A text occurs in every text it is a piece of. -/
theorem Contains_of_eq_append {msg part : String} (pre post : String)
    (h : msg = pre ++ part ++ post) : Contains msg part := by
  refine ⟨pre.data, post.data, ?_⟩
  rw [h]
  simp [String.data_append]

set_option maxRecDepth 100000 in
/-- C6, as stated, fails for the same-file reposition: asked to move the
playing `track1.wav` to 3000 ms in the future, the request succeeds with a text
that holds neither `0:00:03` nor "in the future". -/
theorem NewSongRequest_reposition_text_has_no_hms :
    (NewSongRequest demoExt { demoCtl with alsa_service_ := some (demoSession "track1.wav" 1) }
        "track1.wav" (-3000)).reply
      = ⟨true, "changed position of the current file 'track1.wav'. new position in ms is: -3000\n", 1⟩
    ∧ position_hms (-3000) = "0:00:03"
    ∧ ¬ Contains
        (NewSongRequest demoExt { demoCtl with alsa_service_ := some (demoSession "track1.wav" 1) }
          "track1.wav" (-3000)).reply.out_msg (position_hms (-3000))
    ∧ ¬ Contains
        (NewSongRequest demoExt { demoCtl with alsa_service_ := some (demoSession "track1.wav" 1) }
          "track1.wav" (-3000)).reply.out_msg "in the future" := by
  refine ⟨by decide, by decide, by decide, by decide⟩

/-- C6 (amended): let `prev` be the file id of the session just replaced, or
the empty string when none was held. For every successful `NewSongRequest`
whose text is the file-replacement or the fresh-play variant, that is whenever
the requested file id differs from `prev`, the text contains the target
position formatted as `h:mm:ss` and, whenever `start_offset_ms` is negative,
the note "in the future"; the same-file reposition text carries the position
as the plain number of milliseconds. -/
theorem NewSongRequest_success_message_position (ext : Externals)
    (c : CurrentSongController) (file_id : String) (start_offset_ms : Int)
    (h : (NewSongRequest ext c file_id start_offset_ms).reply.success = true) :
    ∀ prev, (c.alsa_service_ = none ∧ prev = ""
        ∨ ∃ s, c.alsa_service_ = some s ∧ prev = s.file_id_) →
      (file_id ≠ prev →
        Contains (NewSongRequest ext c file_id start_offset_ms).reply.out_msg
          (position_hms start_offset_ms)
        ∧ (start_offset_ms < 0 →
          Contains (NewSongRequest ext c file_id start_offset_ms).reply.out_msg
            "in the future"))
      ∧ (file_id = prev →
        Contains (NewSongRequest ext c file_id start_offset_ms).reply.out_msg
          (toString start_offset_ms)) := by
  intro prev hprior
  have hsd : (stop_and_delete c).1 = prev := by
    rcases hprior with ⟨h1, h2⟩ | ⟨s, h1, h2⟩
    · simp [stop_and_delete, h1, h2]
    · simp [stop_and_delete, h1, h2, AlsaPlaybackService.GetFileId]
  rw [NewSongRequest_success_out_msg ext c file_id start_offset_ms h, hsd]
  refine ⟨fun hne => ⟨?_, fun hneg => ?_⟩, fun he => ?_⟩
  · simp only [new_song_msg, hne, if_false]
    generalize (if (stop_and_delete c).2.1 = true ∧ prev ≠ "" then _
      else "will play audio file '" ++ file_id ++ "' ") = head
    exact Contains_of_eq_append
      (head ++ "starting at position " ++ toString start_offset_ms ++ " ms " ++ "(")
      ((if start_offset_ms < 0 then " in the future" else "") ++ ")")
      (by simp only [String.append_assoc])
  · simp only [new_song_msg, hne, if_false, hneg, if_true]
    generalize (if (stop_and_delete c).2.1 = true ∧ prev ≠ "" then _
      else "will play audio file '" ++ file_id ++ "' ") = head
    refine Contains_of_eq_append
      (head ++ "starting at position " ++ toString start_offset_ms ++ " ms " ++ "("
        ++ position_hms start_offset_ms ++ " ") ")" ?_
    simp only [String.append_assoc]
    rfl
  · simp only [new_song_msg, he, if_true]
    exact Contains_of_eq_append _ _ rfl

/-- C6 (amended) at the replacement of the playing `track1.wav` by
`track2.wav`, 3000 ms in the future. -/
theorem NewSongRequest_success_message_position_witness :
    Contains
      (NewSongRequest demoExt { demoCtl with alsa_service_ := some (demoSession "track1.wav" 1) }
        "track2.wav" (-3000)).reply.out_msg (position_hms (-3000))
    ∧ Contains
      (NewSongRequest demoExt { demoCtl with alsa_service_ := some (demoSession "track1.wav" 1) }
        "track2.wav" (-3000)).reply.out_msg "in the future" :=
  ⟨((NewSongRequest_success_message_position demoExt
      { demoCtl with alsa_service_ := some (demoSession "track1.wav" 1) } "track2.wav" (-3000)
      (by decide) "track1.wav" (Or.inr ⟨demoSession "track1.wav" 1, rfl, rfl⟩)).1
      (by decide)).1,
   ((NewSongRequest_success_message_position demoExt
      { demoCtl with alsa_service_ := some (demoSession "track1.wav" 1) } "track2.wav" (-3000)
      (by decide) "track1.wav" (Or.inr ⟨demoSession "track1.wav" 1, rfl, rfl⟩)).1
      (by decide)).2 (by decide)⟩

/-! ## StopPlayRequest -/

section Broadcaster

variable {J : Type}

/-- `UpdateLastStatusMsg` does not touch `player_uuid_`. -/
theorem UpdateLastStatusMsg_player_uuid (lib : JsonLib J) (c : CurrentSongController)
    (s : J) (id : Nat) :
    (UpdateLastStatusMsg lib c s id).1.player_uuid_ = c.player_uuid_ := by
  unfold UpdateLastStatusMsg
  simp only []
  split
  · rfl
  · split <;> rfl

/-- After `UpdateLastStatusMsg` the last-known message is the serialized form
of the snapshot just merged, whether it was recorded or dropped. -/
theorem UpdateLastStatusMsg_last_status_msg (lib : JsonLib J) (c : CurrentSongController)
    (s : J) (id : Nat) :
    (UpdateLastStatusMsg lib c s id).1.last_status_msg_ = status_msg lib c s id := by
  unfold UpdateLastStatusMsg
  simp only []
  split
  · rename_i h
    exact h.symm
  · split <;> rfl

/-- The serialized form depends on the controller through `player_uuid_` only. -/
theorem status_msg_congr (lib : JsonLib J) (c c1 : CurrentSongController)
    (h : c1.player_uuid_ = c.player_uuid_) (s : J) (id : Nat) :
    status_msg lib c1 s id = status_msg lib c s id := by
  simp [status_msg, h]

/-- A merged snapshot is dropped, leaving the controller as it was and making
no call, exactly when its serialized form is the last-known message. -/
theorem UpdateLastStatusMsg_dropped_iff (lib : JsonLib J) (c : CurrentSongController)
    (s : J) (id : Nat) :
    UpdateLastStatusMsg lib c s id = (c, []) ↔ status_msg lib c s id = c.last_status_msg_ := by
  constructor
  · intro h
    have h1 := UpdateLastStatusMsg_last_status_msg lib c s id
    rw [h] at h1
    exact h1.symm
  · intro h
    simp [UpdateLastStatusMsg, h]

/-- A snapshot merged right after itself is dropped. -/
theorem UpdateLastStatusMsg_repeat (lib : JsonLib J) (c : CurrentSongController)
    (s : J) (id : Nat) :
    UpdateLastStatusMsg lib (UpdateLastStatusMsg lib c s id).1 s id
      = ((UpdateLastStatusMsg lib c s id).1, []) := by
  rw [UpdateLastStatusMsg_dropped_iff,
    status_msg_congr lib c _ (UpdateLastStatusMsg_player_uuid lib c s id),
    UpdateLastStatusMsg_last_status_msg]

/-- One merge arms the timer at most once. -/
theorem UpdateLastStatusMsg_armings_le_one (lib : JsonLib J) (c : CurrentSongController)
    (s : J) (id : Nat) :
    timer_armings (UpdateLastStatusMsg lib c s id).2 ≤ 1 := by
  unfold UpdateLastStatusMsg
  simp only []
  split
  · simp [timer_armings]
  · split <;> simp [timer_armings]

/-- With no wait outstanding, completion handlers do not run. -/
theorem status_run_timers_idle (lib : JsonLib J) (c : CurrentSongController)
    (h : c.throttle_timer_set_ = false) (errors : List Bool) :
    status_run lib c (errors.map StatusInput.timer) = (c, []) := by
  induction errors with
  | nil => rfl
  | cons e rest ih =>
    simp only [List.map_cons, status_run, status_step, h]
    simp [ih]

/-- Completion handlers alone deliver at most one message to each subscriber. -/
theorem status_run_timers_payloads (lib : JsonLib J) (c : CurrentSongController)
    (errors : List Bool) :
    (mqtt_payloads (status_run lib c (errors.map StatusInput.timer)).2).length ≤ 1
    ∧ (ws_payloads (status_run lib c (errors.map StatusInput.timer)).2).length ≤ 1 := by
  cases errors with
  | nil => simp [status_run, mqtt_payloads, ws_payloads]
  | cons e rest =>
    simp only [List.map_cons, status_run, status_step]
    by_cases hset : c.throttle_timer_set_ = true
    · have hidle : (ReportCurrentSongToServices c e).1.throttle_timer_set_ = false := by
        unfold ReportCurrentSongToServices
        simp only []
        split <;> rfl
      simp only [hset, if_true, status_run_timers_idle lib _ hidle rest, List.append_nil]
      unfold ReportCurrentSongToServices
      simp only []
      split <;> simp [mqtt_payloads, ws_payloads]
    · have hidle : c.throttle_timer_set_ = false := by simpa using hset
      simp [hidle, status_run_timers_idle lib c hidle rest, mqtt_payloads, ws_payloads]

/-- The calls of a run split along the inputs. -/
theorem status_run_append (lib : JsonLib J) (c : CurrentSongController)
    (xs ys : List (StatusInput J)) :
    status_run lib c (xs ++ ys)
      = ((status_run lib (status_run lib c xs).1 ys).1,
         (status_run lib c xs).2 ++ (status_run lib (status_run lib c xs).1 ys).2) := by
  induction xs generalizing c with
  | nil => simp [status_run]
  | cons x rest ih => simp [status_run, ih, List.append_assoc]

/-- Merges alone hand nothing to the subscribers. -/
theorem UpdateLastStatusMsg_no_payload (lib : JsonLib J) (c : CurrentSongController)
    (s : J) (id : Nat) :
    mqtt_payloads (UpdateLastStatusMsg lib c s id).2 = []
    ∧ ws_payloads (UpdateLastStatusMsg lib c s id).2 = [] := by
  unfold UpdateLastStatusMsg
  simp only []
  split
  · simp [mqtt_payloads, ws_payloads]
  · split <;> simp [mqtt_payloads, ws_payloads]

/-- The MQTT payloads of two traces in a row. -/
theorem mqtt_payloads_append (xs ys : List Event) :
    mqtt_payloads (xs ++ ys) = mqtt_payloads xs ++ mqtt_payloads ys := by
  induction xs with
  | nil => rfl
  | cons x rest ih => cases x <;> simp [mqtt_payloads, ih]

/-- The WebSocket payloads of two traces in a row. -/
theorem ws_payloads_append (xs ys : List Event) :
    ws_payloads (xs ++ ys) = ws_payloads xs ++ ws_payloads ys := by
  induction xs with
  | nil => rfl
  | cons x rest ih => cases x <;> simp [ws_payloads, ih]

/-- C8: for every controller state and every status snapshot `s`, merging `s`
twice in a row leaves the controller in the state reached by merging it once:
the second call changes neither the last-known message nor the pending flag and
arms no timer, the pair arms the timer at most once, and whatever completion
handlers run after the pair deliver at most one broadcast (one message to each
subscriber). -/
theorem UpdateLastStatusMsg_twice_same_as_once (lib : JsonLib J) (c : CurrentSongController)
    (s : J) (id : Nat) :
    UpdateLastStatusMsg lib (UpdateLastStatusMsg lib c s id).1 s id
      = ((UpdateLastStatusMsg lib c s id).1, [])
    ∧ (status_run lib c [.merge s id, .merge s id]).1 = (status_run lib c [.merge s id]).1
    ∧ (status_run lib c [.merge s id, .merge s id]).2 = (status_run lib c [.merge s id]).2
    ∧ timer_armings (status_run lib c [.merge s id, .merge s id]).2 ≤ 1
    ∧ ∀ errors : List Bool,
        (mqtt_payloads (status_run lib c
          ([.merge s id, .merge s id] ++ errors.map StatusInput.timer)).2).length ≤ 1
        ∧ (ws_payloads (status_run lib c
          ([.merge s id, .merge s id] ++ errors.map StatusInput.timer)).2).length ≤ 1 := by
  have hrep := UpdateLastStatusMsg_repeat lib c s id
  have hrun : status_run lib c [.merge s id, .merge s id]
      = ((UpdateLastStatusMsg lib c s id).1, (UpdateLastStatusMsg lib c s id).2) := by
    simp [status_run, status_step, hrep]
  refine ⟨hrep, ?_, ?_, ?_, ?_⟩
  · rw [hrun]
    simp [status_run, status_step]
  · rw [hrun]
    simp [status_run, status_step]
  · rw [hrun]
    exact UpdateLastStatusMsg_armings_le_one lib c s id
  · intro errors
    rw [status_run_append, hrun]
    simp only [mqtt_payloads_append, ws_payloads_append,
      (UpdateLastStatusMsg_no_payload lib c s id).1,
      (UpdateLastStatusMsg_no_payload lib c s id).2, List.nil_append]
    exact status_run_timers_payloads lib _ errors

end Broadcaster

/-! ## Status broadcaster: coalescing -/

section Coalescing

variable {J : Type}

/-- A merge with no wait outstanding and a new message arms the timer. -/
theorem UpdateLastStatusMsg_idle_new (lib : JsonLib J) (c : CurrentSongController)
    (s : J) (id : Nat) (hidle : c.throttle_timer_set_ = false)
    (hnew : status_msg lib c s id ≠ c.last_status_msg_) :
    UpdateLastStatusMsg lib c s id
      = ({ c with last_status_msg_ := status_msg lib c s id, throttle_timer_set_ := true },
         [Event.arm_timer THROTTLE_WAIT_TIME_MS]) := by
  simp [UpdateLastStatusMsg, hnew, hidle]

/-- A merge with a wait outstanding and a new message records it only. -/
theorem UpdateLastStatusMsg_pending_new (lib : JsonLib J) (c : CurrentSongController)
    (s : J) (id : Nat) (hpend : c.throttle_timer_set_ = true)
    (hnew : status_msg lib c s id ≠ c.last_status_msg_) :
    UpdateLastStatusMsg lib c s id
      = ({ c with last_status_msg_ := status_msg lib c s id }, []) := by
  simp [UpdateLastStatusMsg, hnew, hpend]

set_option maxRecDepth 100000 in
/-- C9, as stated, fails when `a` is the snapshot already known: with no
broadcast pending and "stopped `a.wav`" last broadcast, merging "stopped
`a.wav`" again and then the distinct "stopped `b.wav`" arms the timer on the
second merge, not on the first. -/
theorem UpdateLastStatusMsg_timer_armed_on_second_snapshot :
    demoCtlAfterBroadcast.throttle_timer_set_ = false
    ∧ status_msg demoJson demoCtlAfterBroadcast (demoStopped "a.wav") 1
        ≠ status_msg demoJson demoCtlAfterBroadcast (demoStopped "b.wav") 1
    ∧ (UpdateLastStatusMsg demoJson demoCtlAfterBroadcast (demoStopped "a.wav") 1).2 = []
    ∧ (UpdateLastStatusMsg demoJson
        (UpdateLastStatusMsg demoJson demoCtlAfterBroadcast (demoStopped "a.wav") 1).1
        (demoStopped "b.wav") 1).2 = [Event.arm_timer 50] := by
  refine ⟨by decide, by decide, by decide, by decide⟩

/-- C9 (amended): starting from a controller with no broadcast pending, for
every two snapshots `a` then `b` with distinct serialized forms merged before
the throttle timer fires, the timer is armed exactly once, for 50 ms: on `a`
when the serialized form of `a` differs from the last-known message, and
otherwise, `a` being dropped, on `b`. When the timer fires, exactly one
broadcast is delivered (one message to each of the two subscribers), whose
payload is the serialized form of `b`; the pending flag, set in between, is
cleared by the firing. -/
theorem two_distinct_snapshots_one_broadcast (lib : JsonLib J) (c : CurrentSongController)
    (a : J) (id_a : Nat) (b : J) (id_b : Nat)
    (hidle : c.throttle_timer_set_ = false)
    (hab : status_msg lib c a id_a ≠ status_msg lib c b id_b) :
    timer_armings (status_run lib c [.merge a id_a, .merge b id_b]).2 = 1
    ∧ (status_msg lib c a id_a ≠ c.last_status_msg_ →
        (UpdateLastStatusMsg lib c a id_a).2 = [Event.arm_timer 50]
        ∧ (UpdateLastStatusMsg lib (UpdateLastStatusMsg lib c a id_a).1 b id_b).2 = [])
    ∧ (status_msg lib c a id_a = c.last_status_msg_ →
        (UpdateLastStatusMsg lib c a id_a).2 = []
        ∧ (UpdateLastStatusMsg lib (UpdateLastStatusMsg lib c a id_a).1 b id_b).2
            = [Event.arm_timer 50])
    ∧ (status_run lib c [.merge a id_a, .merge b id_b]).1.throttle_timer_set_ = true
    ∧ (status_run lib c [.merge a id_a, .merge b id_b, .timer false]).2
        = [Event.arm_timer 50, Event.mqtt_report (status_msg lib c b id_b),
           Event.ws_report (status_msg lib c b id_b)]
    ∧ (status_run lib c [.merge a id_a, .merge b id_b, .timer false]).1.throttle_timer_set_
        = false := by
  by_cases ha : status_msg lib c a id_a = c.last_status_msg_
  · have h1 : UpdateLastStatusMsg lib c a id_a = (c, []) :=
      (UpdateLastStatusMsg_dropped_iff lib c a id_a).2 ha
    have hb : status_msg lib c b id_b ≠ c.last_status_msg_ := fun h => hab (ha.trans h.symm)
    have h2 := UpdateLastStatusMsg_idle_new lib c b id_b hidle hb
    refine ⟨?_, fun hne => absurd ha hne, fun _ => ?_, ?_, ?_, ?_⟩
    · simp [status_run, status_step, h1, h2, timer_armings]
    · simp [h1, h2, THROTTLE_WAIT_TIME_MS]
    · simp [status_run, status_step, h1, h2]
    · simp [status_run, status_step, h1, h2, ReportCurrentSongToServices,
        THROTTLE_WAIT_TIME_MS]
    · simp [status_run, status_step, h1, h2, ReportCurrentSongToServices]
  · have h1 := UpdateLastStatusMsg_idle_new lib c a id_a hidle ha
    have hb : status_msg lib
          { c with last_status_msg_ := status_msg lib c a id_a, throttle_timer_set_ := true }
          b id_b
        ≠ ({ c with last_status_msg_ := status_msg lib c a id_a,
                    throttle_timer_set_ := true } : CurrentSongController).last_status_msg_ := by
      rw [status_msg_congr lib c _ rfl]
      exact fun h => hab h.symm
    have h2 := UpdateLastStatusMsg_pending_new lib _ b id_b rfl hb
    have hsm : status_msg lib
          { c with last_status_msg_ := status_msg lib c a id_a, throttle_timer_set_ := true }
          b id_b
        = status_msg lib c b id_b := rfl
    refine ⟨?_, fun _ => ?_, fun he => absurd he ha, ?_, ?_, ?_⟩
    · simp [status_run, status_step, h1, h2, timer_armings]
    · simp [h1, h2, THROTTLE_WAIT_TIME_MS]
    · simp [status_run, status_step, h1, h2]
    · simp [status_run, status_step, h1, h2, hsm, ReportCurrentSongToServices,
        THROTTLE_WAIT_TIME_MS]
    · simp [status_run, status_step, h1, h2, ReportCurrentSongToServices]

set_option maxRecDepth 100000 in
/-- C9 (amended) at the sample installation: "stopped `a.wav`" then "stopped
`b.wav`" merged into the freshly built controller. -/
theorem two_distinct_snapshots_one_broadcast_witness :
    (status_run demoJson demoCtl
        [.merge (demoStopped "a.wav") 1, .merge (demoStopped "b.wav") 1, .timer false]).2
      = [Event.arm_timer 50,
         Event.mqtt_report (status_msg demoJson demoCtl (demoStopped "b.wav") 1),
         Event.ws_report (status_msg demoJson demoCtl (demoStopped "b.wav") 1)]
    ∧ status_msg demoJson demoCtl (demoStopped "b.wav") 1
      = "\x7b\"play_seq_id\":1,\"song_is_playing\":false,\"stopped_file_id\":\"b.wav\",\"uuid\":\"uuid-1\"\x7d" :=
  ⟨(two_distinct_snapshots_one_broadcast demoJson demoCtl (demoStopped "a.wav") 1
      (demoStopped "b.wav") 1 rfl (by decide)).2.2.2.2.1, by decide⟩

/-! ## Status broadcaster: the comparison value -/

/-- A run does not touch `player_uuid_`. -/
theorem status_run_player_uuid (lib : JsonLib J) (c : CurrentSongController)
    (ins : List (StatusInput J)) :
    (status_run lib c ins).1.player_uuid_ = c.player_uuid_ := by
  induction ins generalizing c with
  | nil => rfl
  | cons i rest ih =>
    simp only [status_run]
    rw [ih]
    cases i with
    | merge s id => exact UpdateLastStatusMsg_player_uuid lib c s id
    | timer e =>
      simp only [status_step, ReportCurrentSongToServices]
      split
      · split <;> rfl
      · rfl

/-- The serialized form of the last merged snapshot depends on the controller
through `player_uuid_` only. -/
theorem last_merged_congr (lib : JsonLib J) (c c1 : CurrentSongController)
    (h : c1.player_uuid_ = c.player_uuid_) (dflt : String) (ins : List (StatusInput J)) :
    last_merged lib c1 dflt ins = last_merged lib c dflt ins := by
  induction ins generalizing dflt with
  | nil => rfl
  | cons i rest ih =>
    cases i with
    | merge s id => simp only [last_merged, status_msg_congr lib c c1 h, ih]
    | timer e => simp only [last_merged, ih]

/-- After a run the last-known message is the serialized form of the last
snapshot merged in it, broadcast or not. -/
theorem status_run_last_status_msg (lib : JsonLib J) (c : CurrentSongController)
    (ins : List (StatusInput J)) :
    (status_run lib c ins).1.last_status_msg_ = last_merged lib c c.last_status_msg_ ins := by
  induction ins generalizing c with
  | nil => rfl
  | cons i rest ih =>
    simp only [status_run]
    rw [ih]
    cases i with
    | merge s id =>
      simp only [status_step, last_merged]
      rw [UpdateLastStatusMsg_last_status_msg,
        last_merged_congr lib c _ (UpdateLastStatusMsg_player_uuid lib c s id)]
    | timer e =>
      simp only [status_step, last_merged]
      by_cases hset : c.throttle_timer_set_ = true
      · simp only [hset, if_true]
        have h1 : (ReportCurrentSongToServices c e).1.last_status_msg_ = c.last_status_msg_ := by
          unfold ReportCurrentSongToServices
          simp only []
          split <;> rfl
        have h2 : (ReportCurrentSongToServices c e).1.player_uuid_ = c.player_uuid_ := by
          unfold ReportCurrentSongToServices
          simp only []
          split <;> rfl
        rw [h1, last_merged_congr lib c _ h2]
      · simp [hset]

set_option maxRecDepth 100000 in
/-- C10, as stated, fails: after "stopped `a.wav`" has been broadcast and
"stopped `b.wav`" merged, a further "stopped `a.wav`" equals the snapshot most
recently broadcast and yet is not dropped; it is recorded, and the next firing
broadcasts "stopped `a.wav`" a second time in a row. -/
theorem UpdateLastStatusMsg_keeps_snapshot_equal_to_last_broadcast :
    mqtt_payloads (status_run demoJson demoCtl
        [.merge (demoStopped "a.wav") 1, .timer false, .merge (demoStopped "b.wav") 1]).2
      = [status_msg demoJson demoCtl (demoStopped "a.wav") 1]
    ∧ UpdateLastStatusMsg demoJson
        (status_run demoJson demoCtl
          [.merge (demoStopped "a.wav") 1, .timer false, .merge (demoStopped "b.wav") 1]).1
        (demoStopped "a.wav") 1
      ≠ ((status_run demoJson demoCtl
          [.merge (demoStopped "a.wav") 1, .timer false, .merge (demoStopped "b.wav") 1]).1, [])
    ∧ mqtt_payloads (status_run demoJson demoCtl
        [.merge (demoStopped "a.wav") 1, .timer false, .merge (demoStopped "b.wav") 1,
         .merge (demoStopped "a.wav") 1, .timer false]).2
      = [status_msg demoJson demoCtl (demoStopped "a.wav") 1,
         status_msg demoJson demoCtl (demoStopped "a.wav") 1] := by
  refine ⟨by decide, by decide, by decide⟩

/-- C10 (amended): for every sequence of merged snapshots and timer firings, a
merged snapshot is dropped exactly when its serialized form equals the
serialized form of the snapshot most recently merged, whether or not that one
has been broadcast (before the first merge: the last-known message the
controller started with); the controller's comparison value is that last
merged snapshot, not the last emitted one. -/
theorem merged_snapshot_dropped_iff_equals_last_merged (lib : JsonLib J)
    (c : CurrentSongController) (ins : List (StatusInput J)) (s : J) (id : Nat) :
    (status_run lib c ins).1.last_status_msg_ = last_merged lib c c.last_status_msg_ ins
    ∧ (UpdateLastStatusMsg lib (status_run lib c ins).1 s id = ((status_run lib c ins).1, [])
        ↔ status_msg lib c s id = last_merged lib c c.last_status_msg_ ins) := by
  refine ⟨status_run_last_status_msg lib c ins, ?_⟩
  rw [UpdateLastStatusMsg_dropped_iff, status_run_last_status_msg,
    status_msg_congr lib c _ (status_run_player_uuid lib c ins)]

end Coalescing

/-! ## Sample formats -/

/-- What `GetFormatForAlsa` answers for a sample size beyond 8 bytes. -/
theorem GetFormatForAlsa_large (sample_type_ : SampleType) (is_endian_little_ : Bool)
    (n : Nat) : GetFormatForAlsa sample_type_ is_endian_little_ (n + 9) = none := by
  cases sample_type_ <;> cases is_endian_little_ <;> rfl

/-- The sample formats that `InitSndFile` accepts. -/
theorem InitSndFile_sample_format (full_file_name : String) (snd_file_ : SndfileHandle)
    (p : FileParams) (h : InitSndFile full_file_name snd_file_ = .ok p) :
    (p.sample_type_ = SampleType.SampleTypeSigned
      ∧ (p.bytes_per_sample_ = 1 ∨ p.bytes_per_sample_ = 2 ∨ p.bytes_per_sample_ = 3
        ∨ p.bytes_per_sample_ = 4))
    ∨ (p.sample_type_ = SampleType.SampleTypeFloat
      ∧ (p.bytes_per_sample_ = 4 ∨ p.bytes_per_sample_ = 8)) := by
  unfold InitSndFile at h
  split at h
  · cases h
  · simp only [] at h
    split at h
    · cases h
    · rename_i bps st hminor
      split at h
      · cases h
      · split at h
        · cases h
        · split at h
          · cases h
          · cases h
            simp only []
            unfold minor_format at hminor
            repeat' split at hminor
            all_goals cases hminor
            all_goals simp

/-- C20: `GetFormatForAlsa` succeeds exactly for a signed or unsigned integer
sample of 1, 2, 3 or 4 bytes and for a float sample of 4 or 8 bytes, in either
byte order; the format it returns names the same kind of sample (signed,
unsigned, float), the same width (8 bits per byte of the sample: 8/16/24/32-bit
integer, 32/64-bit float) and the same byte order as the decoded file (the
one-byte formats have no byte order); and every sample format that
`InitSndFile` accepts is one for which `GetFormatForAlsa` succeeds. -/
theorem GetFormatForAlsa_matches_decoded_file (sample_type_ : SampleType)
    (is_endian_little_ : Bool) (bytes_per_sample_ : Nat) :
    ((GetFormatForAlsa sample_type_ is_endian_little_ bytes_per_sample_).isSome = true ↔
      ((sample_type_ = SampleType.SampleTypeSigned
          ∨ sample_type_ = SampleType.SampleTypeUnsigned)
        ∧ (bytes_per_sample_ = 1 ∨ bytes_per_sample_ = 2 ∨ bytes_per_sample_ = 3
          ∨ bytes_per_sample_ = 4))
      ∨ (sample_type_ = SampleType.SampleTypeFloat
        ∧ (bytes_per_sample_ = 4 ∨ bytes_per_sample_ = 8)))
    ∧ (∀ f, GetFormatForAlsa sample_type_ is_endian_little_ bytes_per_sample_ = some f →
        f.sample_type = sample_type_
        ∧ f.width = 8 * bytes_per_sample_
        ∧ (f.little_endian = some is_endian_little_
          ∨ (bytes_per_sample_ = 1 ∧ f.little_endian = none)))
    ∧ (∀ full_file_name snd_file_ p, InitSndFile full_file_name snd_file_ = .ok p →
        (GetFormatForAlsa p.sample_type_ p.is_endian_little_ p.bytes_per_sample_).isSome
          = true) := by
  refine ⟨?_, ?_, ?_⟩
  · rcases Nat.lt_or_ge bytes_per_sample_ 9 with hlt | hge
    · interval_cases bytes_per_sample_ <;> cases sample_type_ <;> cases is_endian_little_ <;>
        simp [GetFormatForAlsa]
    · obtain ⟨n, rfl⟩ := Nat.exists_eq_add_of_le hge
      rw [Nat.add_comm, GetFormatForAlsa_large]
      simp
  · intro f hf
    rcases Nat.lt_or_ge bytes_per_sample_ 9 with hlt | hge
    · interval_cases bytes_per_sample_ <;> cases sample_type_ <;> cases is_endian_little_ <;>
        simp [GetFormatForAlsa] at hf <;> subst hf <;>
        simp [snd_pcm_format_t.sample_type, snd_pcm_format_t.width,
          snd_pcm_format_t.little_endian]
    · obtain ⟨n, rfl⟩ := Nat.exists_eq_add_of_le hge
      rw [Nat.add_comm, GetFormatForAlsa_large] at hf
      cases hf
  · intro full_file_name snd_file_ p hp
    rcases InitSndFile_sample_format full_file_name snd_file_ p hp with ⟨ht, hb⟩ | ⟨ht, hb⟩
    · rw [ht]
      rcases hb with hb | hb | hb | hb <;> rw [hb] <;> cases p.is_endian_little_ <;> rfl
    · rw [ht]
      rcases hb with hb | hb <;> rw [hb] <;> cases p.is_endian_little_ <;> rfl

/-! ## The transfer step, case by case -/

/-- Away from `INT64_MIN` the 64-bit unary minus is the opposite. -/
theorem neg_int64_of_ne (x : Int) (h : x ≠ INT64_MIN) : neg_int64 x = -x := by
  simp [neg_int64, h]

/-- The value `INT64_MIN` is its own 64-bit opposite. -/
theorem neg_int64_min : neg_int64 INT64_MIN = INT64_MIN := by
  simp [neg_int64]

/-- A byte count of `INT64_MIN` frames is 0 as an `unsigned int`. -/
theorem to_uint32_INT64_MIN_mul (n : Nat) : to_uint32 (INT64_MIN * (n : Int)) = 0 := by
  unfold to_uint32
  have h : (INT64_MIN * (n : Int)) % (UINT32_MODULUS : Int) = 0 := by
    apply Int.emod_eq_zero_of_dvd
    apply Dvd.dvd.mul_right
    simp only [INT64_MIN, UINT32_MODULUS]
    norm_num
  rw [h]
  rfl

/-- `CheckSongStartTime` changes neither the ids, nor the file parameters, nor
the cursor. -/
theorem CheckSongStartTime_keeps (t : Transfer) (hw : HwStep) :
    (CheckSongStartTime t hw).1.file_id_ = t.file_id_
    ∧ (CheckSongStartTime t hw).1.play_seq_id_ = t.play_seq_id_
    ∧ (CheckSongStartTime t hw).1.params = t.params
    ∧ (CheckSongStartTime t hw).1.curr_position_frames_ = t.curr_position_frames_ := by
  unfold CheckSongStartTime
  split
  · exact ⟨rfl, rfl, rfl, rfl⟩
  · split
    · exact ⟨rfl, rfl, rfl, rfl⟩
    · simp only []
      split <;> exact ⟨rfl, rfl, rfl, rfl⟩

/-- The calls of `CheckSongStartTime`: the delay query, followed by at most
one `NewSongStatus` event. -/
theorem CheckSongStartTime_calls (t : Transfer) (hw : HwStep) :
    (CheckSongStartTime t hw).2.1 = [Call.delay]
    ∨ (CheckSongStartTime t hw).2.1
        = [Call.delay, Call.NewSongStatus t.file_id_ t.play_seq_id_
            (start_time_estimate t.curr_position_frames_ hw.delay t.params.frame_rate_
              (curr_time_ms_since_epoch hw)) 1] := by
  unfold CheckSongStartTime
  split
  · exact Or.inl rfl
  · split
    · exact Or.inl rfl
    · simp only []
      split
      · exact Or.inl rfl
      · exact Or.inr rfl

/-- `CheckSongStartTime` throws only when the delay query fails. -/
theorem CheckSongStartTime_fatal (t : Transfer) (hw : HwStep) :
    (hw.delay_err < 0 ∧ (CheckSongStartTime t hw).2.2 = some (Fatal.delay_failed hw.delay_err))
    ∨ (0 ≤ hw.delay_err ∧ (CheckSongStartTime t hw).2.2 = none) := by
  unfold CheckSongStartTime
  split
  · rename_i h
    exact Or.inl ⟨h, rfl⟩
  · rename_i h
    right
    refine ⟨by omega, ?_⟩
    split
    · rfl
    · simp only []
      split <;> rfl

/-- A step whose space query fails throws at once. -/
theorem FramesToPcmTransferLoop_avail_neg (t : Transfer) (hw : HwStep) (h : hw.avail < 0) :
    FramesToPcmTransferLoop t false hw
      = { t := t
          calls := [Call.avail_update]
          next := StepEnd.fatal
            (if hw.avail = -EPIPE then Fatal.xrun else Fatal.avail_unknown hw.avail) } := by
  simp [FramesToPcmTransferLoop, h]

/-- A step that finds no room waits. -/
theorem FramesToPcmTransferLoop_avail_zero (t : Transfer) (hw : HwStep) (h : hw.avail = 0) :
    FramesToPcmTransferLoop t false hw
      = { t := t, calls := [Call.avail_update], next := StepEnd.wait_transfer } := by
  simp [FramesToPcmTransferLoop, h]

/-- A step at a non-negative cursor whose read stores zero in
`bytes_to_deliver` goes over to draining. -/
theorem FramesToPcmTransferLoop_eof (t : Transfer) (hw : HwStep) (ha : 0 < hw.avail)
    (hc : 0 ≤ t.curr_position_frames_) (hr : to_uint32 hw.read_raw = 0) :
    FramesToPcmTransferLoop t false hw
      = { t := t
          calls := [Call.avail_update,
            Call.readRaw (to_uint32 (min hw.avail t.params.frames_capacity_in_buffer_
              * t.params.bytes_per_frame_))]
          next := StepEnd.post_drain } := by
  have h1 : ¬ hw.avail < 0 := by omega
  have h2 : ¬ hw.avail = 0 := by omega
  have h3 : ¬ t.curr_position_frames_ < 0 := by omega
  simp [FramesToPcmTransferLoop, h1, h2, h3, hr]

/-- A step at a non-negative cursor whose read stores a non-zero value in
`bytes_to_deliver` submits the frames asked for. -/
theorem FramesToPcmTransferLoop_normal (t : Transfer) (hw : HwStep) (ha : 0 < hw.avail)
    (hc : 0 ≤ t.curr_position_frames_) (hr : to_uint32 hw.read_raw ≠ 0) :
    FramesToPcmTransferLoop t false hw
      = transfer_submit t hw (min hw.avail t.params.frames_capacity_in_buffer_) false
          [Call.avail_update,
            Call.readRaw (to_uint32 (min hw.avail t.params.frames_capacity_in_buffer_
              * t.params.bytes_per_frame_))] := by
  have h1 : ¬ hw.avail < 0 := by omega
  have h2 : ¬ hw.avail = 0 := by omega
  have h3 : ¬ t.curr_position_frames_ < 0 := by omega
  simp [FramesToPcmTransferLoop, h1, h2, h3, hr]

/-- A step at a negative cursor submits zeroed frames. -/
theorem FramesToPcmTransferLoop_future (t : Transfer) (hw : HwStep) (ha : 0 < hw.avail)
    (hc : t.curr_position_frames_ < 0) :
    FramesToPcmTransferLoop t false hw
      = transfer_submit t hw
          (min (min hw.avail t.params.frames_capacity_in_buffer_) (neg_int64 t.curr_position_frames_))
          true
          [Call.avail_update,
            Call.bzero (to_uint32
              (min (min hw.avail t.params.frames_capacity_in_buffer_)
                  (neg_int64 t.curr_position_frames_)
                * t.params.bytes_per_frame_))] := by
  have h1 : ¬ hw.avail < 0 := by omega
  have h2 : ¬ hw.avail = 0 := by omega
  simp [FramesToPcmTransferLoop, h1, h2, hc]

/-- A submission that the device refuses throws and leaves the members as
they were. -/
theorem transfer_submit_refused (t : Transfer) (hw : HwStep) (n : Int) (future : Bool)
    (before : List Call) (h : hw.frames_written < 0) :
    transfer_submit t hw n future before
      = { t := t
          calls := before ++ [Call.writei n hw.frames_written]
          next := StepEnd.fatal (Fatal.writei_failed hw.frames_written) } := by
  simp [transfer_submit, h]

/-- A submission that the device takes advances the cursor by the frames
taken, seeks under the condition of line 507, and ends with
`CheckSongStartTime`. -/
theorem transfer_submit_taken (t : Transfer) (hw : HwStep) (n : Int) (future : Bool)
    (before : List Call) (h : 0 ≤ hw.frames_written) :
    (transfer_submit t hw n future before).t.curr_position_frames_
        = t.curr_position_frames_ + hw.frames_written
    ∧ (transfer_submit t hw n future before).t.file_id_ = t.file_id_
    ∧ (transfer_submit t hw n future before).t.play_seq_id_ = t.play_seq_id_
    ∧ (transfer_submit t hw n future before).t.params = t.params
    ∧ (transfer_submit t hw n future before).calls
        = before ++ [Call.writei n hw.frames_written]
          ++ (if 0 ≤ t.curr_position_frames_ + hw.frames_written
                ∧ (future = true ∨ hw.frames_written ≠ n)
              then [Call.seek (t.curr_position_frames_ + hw.frames_written)] else [])
          ++ (CheckSongStartTime
                { t with curr_position_frames_ := t.curr_position_frames_ + hw.frames_written }
                hw).2.1
    ∧ ((transfer_submit t hw n future before).next = StepEnd.post_transfer
      ∨ (transfer_submit t hw n future before).next
          = StepEnd.fatal (Fatal.delay_failed hw.delay_err)) := by
  have h1 : ¬ hw.frames_written < 0 := by omega
  have hk := CheckSongStartTime_keeps
    { t with curr_position_frames_ := t.curr_position_frames_ + hw.frames_written } hw
  refine ⟨?_, ?_, ?_, ?_, ?_, ?_⟩
  · simp [transfer_submit, h1, hk.2.2.2]
  · simp [transfer_submit, h1, hk.1]
  · simp [transfer_submit, h1, hk.2.1]
  · simp [transfer_submit, h1, hk.2.2.1]
  · simp [transfer_submit, h1]
  · simp only [transfer_submit, h1, if_false]
    rcases CheckSongStartTime_fatal
      { t with curr_position_frames_ := t.curr_position_frames_ + hw.frames_written } hw
      with ⟨_, hf⟩ | ⟨_, hf⟩
    · rw [hf]
      exact Or.inr rfl
    · rw [hf]
      exact Or.inl rfl

/-! ## Size of one transfer -/

/-- What `InitSndFile` computes for a file it accepts: a positive frame rate,
a positive frame size, and the capacity `TRANSFER_BUFFER_SIZE / bytes_per_frame_`. -/
theorem InitSndFile_calculated (full_file_name : String) (snd_file_ : SndfileHandle)
    (p : FileParams) (h : InitSndFile full_file_name snd_file_ = .ok p) :
    0 < p.frame_rate_
    ∧ 0 < p.bytes_per_frame_
    ∧ p.bytes_per_frame_
        = (to_uint32 snd_file_.channels * p.bytes_per_sample_) % UINT32_MODULUS
    ∧ p.frames_capacity_in_buffer_ = ((TRANSFER_BUFFER_SIZE / p.bytes_per_frame_ : Nat) : Int) := by
  unfold InitSndFile at h
  split at h
  · cases h
  · simp only [] at h
    split at h
    · cases h
    · split at h
      · cases h
      · split at h
        · cases h
        · split at h
          · cases h
          · rename_i h1 h2
            cases h
            exact ⟨Nat.pos_of_ne_zero h1, Nat.pos_of_ne_zero h2, rfl, rfl⟩

/-- With the capacity of an accepted file, a frame count between 0 and the
capacity fills at most the transfer buffer, and its byte count survives the
conversion to `unsigned int`. -/
theorem bytes_of_frames_le (p : FileParams)
    (hcap : p.frames_capacity_in_buffer_ = ((TRANSFER_BUFFER_SIZE / p.bytes_per_frame_ : Nat) : Int))
    (n : Int) (h0 : 0 ≤ n) (hn : n ≤ p.frames_capacity_in_buffer_) :
    to_uint32 (n * p.bytes_per_frame_) = (n * p.bytes_per_frame_).toNat
    ∧ n * (p.bytes_per_frame_ : Int) ≤ (TRANSFER_BUFFER_SIZE : Int)
    ∧ (n * p.bytes_per_frame_).toNat ≤ TRANSFER_BUFFER_SIZE := by
  have h1 : (TRANSFER_BUFFER_SIZE / p.bytes_per_frame_) * p.bytes_per_frame_
      ≤ TRANSFER_BUFFER_SIZE := Nat.div_mul_le_self _ _
  have h2 : n * (p.bytes_per_frame_ : Int) ≤ (TRANSFER_BUFFER_SIZE : Int) := by
    calc n * (p.bytes_per_frame_ : Int)
        ≤ ((TRANSFER_BUFFER_SIZE / p.bytes_per_frame_ : Nat) : Int) * (p.bytes_per_frame_ : Int) := by
          apply Int.mul_le_mul_of_nonneg_right (hcap ▸ hn)
          exact Int.ofNat_nonneg _
      _ ≤ (TRANSFER_BUFFER_SIZE : Int) := by exact_mod_cast h1
  have h3 : 0 ≤ n * (p.bytes_per_frame_ : Int) :=
    Int.mul_nonneg h0 (Int.ofNat_nonneg _)
  refine ⟨?_, h2, ?_⟩
  · unfold to_uint32
    congr 1
    apply Int.emod_eq_of_lt h3
    have : (TRANSFER_BUFFER_SIZE : Int) < (UINT32_MODULUS : Int) := by
      simp [TRANSFER_BUFFER_SIZE, UINT32_MODULUS]
    omega
  · have : ((n * (p.bytes_per_frame_ : Int)).toNat : Int) ≤ (TRANSFER_BUFFER_SIZE : Int) := by
      rw [Int.toNat_of_nonneg h3]
      exact h2
    exact_mod_cast this

/-- The memory calls of a submission are those made before it. -/
theorem transfer_submit_memory_calls (t : Transfer) (hw : HwStep) (n : Int) (future : Bool)
    (before : List Call) (b : Nat) :
    (Call.readRaw b ∈ (transfer_submit t hw n future before).calls ↔ Call.readRaw b ∈ before)
    ∧ (Call.bzero b ∈ (transfer_submit t hw n future before).calls ↔ Call.bzero b ∈ before) := by
  by_cases hw0 : hw.frames_written < 0
  · rw [transfer_submit_refused t hw n future before hw0]
    simp
  · have h := (transfer_submit_taken t hw n future before (by omega)).2.2.2.2.1
    rw [h]
    rcases CheckSongStartTime_calls
      { t with curr_position_frames_ := t.curr_position_frames_ + hw.frames_written } hw
      with hc | hc
    · rw [hc]
      constructor <;> split <;> simp
    · rw [hc]
      constructor <;> split <;> simp

/-- Where a step reads the file: at a non-negative cursor, with room in the
device, for the byte count of the frames asked for. -/
theorem FramesToPcmTransferLoop_reads (t : Transfer) (hw : HwStep) (b : Nat)
    (h : Call.readRaw b ∈ (FramesToPcmTransferLoop t false hw).calls) :
    0 < hw.avail ∧ 0 ≤ t.curr_position_frames_
    ∧ b = to_uint32 (min hw.avail t.params.frames_capacity_in_buffer_
        * t.params.bytes_per_frame_) := by
  rcases lt_trichotomy hw.avail 0 with ha | ha | ha
  · rw [FramesToPcmTransferLoop_avail_neg t hw ha] at h
    simp at h
  · rw [FramesToPcmTransferLoop_avail_zero t hw ha] at h
    simp at h
  · by_cases hc : t.curr_position_frames_ < 0
    · rw [FramesToPcmTransferLoop_future t hw ha hc,
        (transfer_submit_memory_calls _ _ _ _ _ _).1] at h
      simp at h
    · have hc0 : 0 ≤ t.curr_position_frames_ := by omega
      by_cases hr : to_uint32 hw.read_raw = 0
      · rw [FramesToPcmTransferLoop_eof t hw ha hc0 hr] at h
        simp at h
        exact ⟨ha, hc0, h⟩
      · rw [FramesToPcmTransferLoop_normal t hw ha hc0 hr,
          (transfer_submit_memory_calls _ _ _ _ _ _).1] at h
        simp at h
        exact ⟨ha, hc0, h⟩

/-- Where a step zeroes the buffer: at a negative cursor, with room in the
device, for the byte count of the frames asked for. -/
theorem FramesToPcmTransferLoop_zeroes (t : Transfer) (hw : HwStep) (b : Nat)
    (h : Call.bzero b ∈ (FramesToPcmTransferLoop t false hw).calls) :
    0 < hw.avail ∧ t.curr_position_frames_ < 0
    ∧ b = to_uint32 (min (min hw.avail t.params.frames_capacity_in_buffer_)
          (neg_int64 t.curr_position_frames_)
        * t.params.bytes_per_frame_) := by
  rcases lt_trichotomy hw.avail 0 with ha | ha | ha
  · rw [FramesToPcmTransferLoop_avail_neg t hw ha] at h
    simp at h
  · rw [FramesToPcmTransferLoop_avail_zero t hw ha] at h
    simp at h
  · by_cases hc : t.curr_position_frames_ < 0
    · rw [FramesToPcmTransferLoop_future t hw ha hc,
        (transfer_submit_memory_calls _ _ _ _ _ _).2] at h
      simp at h
      exact ⟨ha, hc, h⟩
    · have hc0 : 0 ≤ t.curr_position_frames_ := by omega
      by_cases hr : to_uint32 hw.read_raw = 0
      · rw [FramesToPcmTransferLoop_eof t hw ha hc0 hr] at h
        simp at h
      · rw [FramesToPcmTransferLoop_normal t hw ha hc0 hr,
          (transfer_submit_memory_calls _ _ _ _ _ _).2] at h
        simp at h

/-- C19: for every file format accepted by `InitSndFile` (such a format has a
frame of at least one byte) and every value returned by the available-space
query, the frame capacity is `TRANSFER_BUFFER_SIZE / bytes_per_frame_` with
`TRANSFER_BUFFER_SIZE = 65536`, and the number of bytes read into or zeroed in
the transfer buffer in one step is the number of frames asked for times
`bytes_per_frame_` and at most 65536 (at the cursor `INT64_MIN`, which is its
own 64-bit opposite, that product taken modulo `2^32` is 0 bytes); a query
result of exactly zero submits
nothing and leaves the cursor, like all the members, unchanged. -/
theorem transfer_step_bytes_le_buffer_size (full_file_name : String)
    (snd_file_ : SndfileHandle) (t : Transfer) (hw : HwStep)
    (h : InitSndFile full_file_name snd_file_ = .ok t.params) :
    TRANSFER_BUFFER_SIZE = 65536
    ∧ t.params.frames_capacity_in_buffer_
        = ((TRANSFER_BUFFER_SIZE / t.params.bytes_per_frame_ : Nat) : Int)
    ∧ (∀ b, Call.readRaw b ∈ (FramesToPcmTransferLoop t false hw).calls →
        (b : Int) = min hw.avail t.params.frames_capacity_in_buffer_
          * t.params.bytes_per_frame_
        ∧ b ≤ TRANSFER_BUFFER_SIZE)
    ∧ (∀ b, Call.bzero b ∈ (FramesToPcmTransferLoop t false hw).calls →
        (t.curr_position_frames_ ≠ INT64_MIN →
          (b : Int) = min (min hw.avail t.params.frames_capacity_in_buffer_)
              (-t.curr_position_frames_)
            * t.params.bytes_per_frame_)
        ∧ (t.curr_position_frames_ = INT64_MIN → b = 0)
        ∧ b ≤ TRANSFER_BUFFER_SIZE)
    ∧ (hw.avail = 0 →
        FramesToPcmTransferLoop t false hw
          = { t := t, calls := [Call.avail_update], next := StepEnd.wait_transfer }) := by
  obtain ⟨_, hb, _, hcap⟩ := InitSndFile_calculated full_file_name snd_file_ t.params h
  have hcap0 : 0 ≤ t.params.frames_capacity_in_buffer_ := by
    rw [hcap]
    exact Int.ofNat_nonneg _
  refine ⟨rfl, hcap, ?_, ?_, FramesToPcmTransferLoop_avail_zero t hw⟩
  · intro b hmem
    obtain ⟨ha, _, hbv⟩ := FramesToPcmTransferLoop_reads t hw b hmem
    have hn0 : 0 ≤ min hw.avail t.params.frames_capacity_in_buffer_ := le_min (by omega) hcap0
    obtain ⟨h1, h2, h3⟩ := bytes_of_frames_le t.params hcap _ hn0 (min_le_right _ _)
    rw [h1] at hbv
    subst hbv
    refine ⟨?_, h3⟩
    rw [Int.toNat_of_nonneg (Int.mul_nonneg hn0 (Int.ofNat_nonneg _))]
  · intro b hmem
    obtain ⟨ha, hc, hbv⟩ := FramesToPcmTransferLoop_zeroes t hw b hmem
    by_cases hmin : t.curr_position_frames_ = INT64_MIN
    · have hn : min (min hw.avail t.params.frames_capacity_in_buffer_)
          (neg_int64 t.curr_position_frames_) = INT64_MIN := by
        rw [hmin, neg_int64_min]
        apply min_eq_right
        have : (0 : Int) ≤ min hw.avail t.params.frames_capacity_in_buffer_ :=
          le_min (by omega) hcap0
        simp only [INT64_MIN]
        omega
      rw [hn, to_uint32_INT64_MIN_mul] at hbv
      subst hbv
      exact ⟨fun h1 => absurd hmin h1, fun _ => rfl, Nat.zero_le _⟩
    · rw [neg_int64_of_ne _ hmin] at hbv
      have hn0 : 0 ≤ min (min hw.avail t.params.frames_capacity_in_buffer_)
          (-t.curr_position_frames_) :=
        le_min (le_min (by omega) hcap0) (by omega)
      obtain ⟨h1, h2, h3⟩ := bytes_of_frames_le t.params hcap _ hn0
        (le_trans (min_le_left _ _) (min_le_right _ _))
      rw [h1] at hbv
      subst hbv
      refine ⟨fun _ => ?_, fun h1 => absurd h1 hmin, h3⟩
      rw [Int.toNat_of_nonneg (Int.mul_nonneg hn0 (Int.ofNat_nonneg _))]

set_option maxRecDepth 100000 in
/-- C19 at the 16-bit stereo file of the sample installation: 4 bytes a frame,
16384 frames of capacity, and a step that reads 16384 bytes for the 4096
frames the device has room for. -/
theorem transfer_step_bytes_le_buffer_size_witness :
    (demoTransfer 0).params.frames_capacity_in_buffer_
        = ((TRANSFER_BUFFER_SIZE / (demoTransfer 0).params.bytes_per_frame_ : Nat) : Int)
    ∧ Call.readRaw 16384 ∈ (FramesToPcmTransferLoop (demoTransfer 0) false demoHw).calls
    ∧ 16384 ≤ TRANSFER_BUFFER_SIZE :=
  ⟨(transfer_step_bytes_le_buffer_size "/wav/track1.wav" demoWav (demoTransfer 0) demoHw
      (by rfl)).2.1,
   by decide,
   ((transfer_step_bytes_le_buffer_size "/wav/track1.wav" demoWav (demoTransfer 0) demoHw
      (by rfl)).2.2.1 16384 (by decide)).2⟩

/-! ## Read failures -/

/-- The ways a submission can leave. -/
theorem transfer_submit_next (t : Transfer) (hw : HwStep) (n : Int) (future : Bool)
    (before : List Call) :
    (transfer_submit t hw n future before).next = StepEnd.post_transfer
    ∨ (transfer_submit t hw n future before).next
        = StepEnd.fatal (Fatal.writei_failed hw.frames_written)
    ∨ (transfer_submit t hw n future before).next
        = StepEnd.fatal (Fatal.delay_failed hw.delay_err) := by
  by_cases hw0 : hw.frames_written < 0
  · rw [transfer_submit_refused t hw n future before hw0]
    exact Or.inr (Or.inl rfl)
  · rcases (transfer_submit_taken t hw n future before (by omega)).2.2.2.2.2 with h | h
    · exact Or.inl h
    · exact Or.inr (Or.inr h)

/-- The exception of line 486 is never thrown: `bytes_to_deliver` is an
`unsigned int`, which is never below zero. -/
theorem FramesToPcmTransferLoop_never_read_failed (t : Transfer) (error_code : Bool)
    (hw : HwStep) (b : Nat) :
    (FramesToPcmTransferLoop t error_code hw).next ≠ StepEnd.fatal (Fatal.read_failed b) := by
  cases error_code with
  | true => simp [FramesToPcmTransferLoop]
  | false =>
    rcases lt_trichotomy hw.avail 0 with ha | ha | ha
    · rw [FramesToPcmTransferLoop_avail_neg t hw ha]
      simp only []
      split <;> simp
    · rw [FramesToPcmTransferLoop_avail_zero t hw ha]
      simp
    · by_cases hc : t.curr_position_frames_ < 0
      · rw [FramesToPcmTransferLoop_future t hw ha hc]
        rcases transfer_submit_next t hw
          (min (min hw.avail t.params.frames_capacity_in_buffer_) (neg_int64 t.curr_position_frames_))
          true _ with h | h | h <;> rw [h] <;> simp
      · have hc0 : 0 ≤ t.curr_position_frames_ := by omega
        by_cases hr : to_uint32 hw.read_raw = 0
        · rw [FramesToPcmTransferLoop_eof t hw ha hc0 hr]
          simp
        · rw [FramesToPcmTransferLoop_normal t hw ha hc0 hr]
          rcases transfer_submit_next t hw
            (min hw.avail t.params.frames_capacity_in_buffer_) false _ with h | h | h <;>
            rw [h] <;> simp

set_option maxRecDepth 100000 in
/-- C16 at the failing input: at cursor 0 with room for 4096 frames, a read
that reports the error -1 is stored as 4294967295 in the `unsigned int`
`bytes_to_deliver`; the step throws nothing, submits 4096 frames to the device
and advances the cursor, exactly as after a good read. No input at all makes
the step throw the read failure of line 486. (The other half of C16 holds: a
read that stores zero makes no submission, leaves the cursor and posts the
drain loop.) -/
theorem FramesToPcmTransferLoop_read_error_is_submitted :
    to_uint32 (-1) = 4294967295
    ∧ FramesToPcmTransferLoop (demoTransfer 0) false { demoHw with read_raw := -1 }
      = { t := { demoTransfer 4096 with audio_start_time_ms_since_epoch_ := 1700000000092 }
          calls := [Call.avail_update, Call.readRaw 16384, Call.writei 4096 4096, Call.delay,
            Call.NewSongStatus "track1.wav" 1 1700000000092 1]
          next := StepEnd.post_transfer }
    ∧ FramesToPcmTransferLoop (demoTransfer 0) false { demoHw with read_raw := -1 }
      = FramesToPcmTransferLoop (demoTransfer 0) false demoHw
    ∧ (∀ t error_code hw b,
        (FramesToPcmTransferLoop t error_code hw).next ≠ StepEnd.fatal (Fatal.read_failed b))
    ∧ (∀ t hw, 0 < hw.avail → 0 ≤ t.curr_position_frames_ → to_uint32 hw.read_raw = 0 →
        FramesToPcmTransferLoop t false hw
          = { t := t
              calls := [Call.avail_update,
                Call.readRaw (to_uint32 (min hw.avail t.params.frames_capacity_in_buffer_
                  * t.params.bytes_per_frame_))]
              next := StepEnd.post_drain }) :=
  ⟨by decide, by decide, by decide, FramesToPcmTransferLoop_never_read_failed,
    FramesToPcmTransferLoop_eof⟩

/-! ## Cursor and reseek -/

/-- The submissions among the calls of `transfer_submit`. -/
theorem transfer_submit_writei_mem (t : Transfer) (hw : HwStep) (n : Int) (future : Bool)
    (before : List Call) (hb : ∀ n1 w1, Call.writei n1 w1 ∉ before) (n1 w1 : Int) :
    Call.writei n1 w1 ∈ (transfer_submit t hw n future before).calls
      ↔ n1 = n ∧ w1 = hw.frames_written := by
  by_cases hw0 : hw.frames_written < 0
  · rw [transfer_submit_refused t hw n future before hw0]
    simp [hb]
  · rw [(transfer_submit_taken t hw n future before (by omega)).2.2.2.2.1]
    rcases CheckSongStartTime_calls
      { t with curr_position_frames_ := t.curr_position_frames_ + hw.frames_written } hw
      with hc | hc
    · rw [hc]
      split <;> simp [hb]
    · rw [hc]
      split <;> simp [hb]

/-- A step that submits is a step with room in the device that got past the
read; the submission asks for the frames of lines 475 and 495. -/
theorem FramesToPcmTransferLoop_submits (t : Transfer) (hw : HwStep) (n w : Int)
    (h : Call.writei n w ∈ (FramesToPcmTransferLoop t false hw).calls) :
    w = hw.frames_written
    ∧ ((0 ≤ t.curr_position_frames_
        ∧ n = min hw.avail t.params.frames_capacity_in_buffer_
        ∧ FramesToPcmTransferLoop t false hw
          = transfer_submit t hw n false
              [Call.avail_update,
                Call.readRaw (to_uint32 (min hw.avail t.params.frames_capacity_in_buffer_
                  * t.params.bytes_per_frame_))])
      ∨ (t.curr_position_frames_ < 0
        ∧ n = min (min hw.avail t.params.frames_capacity_in_buffer_)
            (neg_int64 t.curr_position_frames_)
        ∧ FramesToPcmTransferLoop t false hw
          = transfer_submit t hw n true
              [Call.avail_update,
                Call.bzero (to_uint32
                  (min (min hw.avail t.params.frames_capacity_in_buffer_)
                      (neg_int64 t.curr_position_frames_)
                    * t.params.bytes_per_frame_))])) := by
  rcases lt_trichotomy hw.avail 0 with ha | ha | ha
  · rw [FramesToPcmTransferLoop_avail_neg t hw ha] at h
    simp at h
  · rw [FramesToPcmTransferLoop_avail_zero t hw ha] at h
    simp at h
  · by_cases hc : t.curr_position_frames_ < 0
    · have heq := FramesToPcmTransferLoop_future t hw ha hc
      rw [heq, transfer_submit_writei_mem _ _ _ _ _ (by simp)] at h
      obtain ⟨h1, h2⟩ := h
      subst h1
      exact ⟨h2, Or.inr ⟨hc, rfl, heq⟩⟩
    · have hc0 : 0 ≤ t.curr_position_frames_ := by omega
      by_cases hr : to_uint32 hw.read_raw = 0
      · rw [FramesToPcmTransferLoop_eof t hw ha hc0 hr] at h
        simp at h
      · have heq := FramesToPcmTransferLoop_normal t hw ha hc0 hr
        rw [heq, transfer_submit_writei_mem _ _ _ _ _ (by simp)] at h
        obtain ⟨h1, h2⟩ := h
        subst h1
        exact ⟨h2, Or.inl ⟨hc0, rfl, heq⟩⟩

/-- The seeks among the calls of a submission that the device takes. -/
theorem transfer_submit_seek_mem (t : Transfer) (hw : HwStep) (n : Int) (future : Bool)
    (before : List Call) (hb : ∀ f, Call.seek f ∉ before) (h0 : 0 ≤ hw.frames_written)
    (f : Int) :
    Call.seek f ∈ (transfer_submit t hw n future before).calls
      ↔ f = t.curr_position_frames_ + hw.frames_written
        ∧ 0 ≤ t.curr_position_frames_ + hw.frames_written
        ∧ (future = true ∨ hw.frames_written ≠ n) := by
  rw [(transfer_submit_taken t hw n future before h0).2.2.2.2.1]
  rcases CheckSongStartTime_calls
    { t with curr_position_frames_ := t.curr_position_frames_ + hw.frames_written } hw
    with hc | hc
  · rw [hc]
    split
    · rename_i hcond
      simp [hb, hcond]
    · rename_i hcond
      simp only [List.append_nil, List.mem_append, List.mem_cons, List.mem_singleton, hb,
        false_or, or_false, List.not_mem_nil]
      constructor
      · intro hh
        simp at hh
      · rintro ⟨_, h2, h3⟩
        exact absurd ⟨h2, h3⟩ hcond
  · rw [hc]
    split
    · rename_i hcond
      simp [hb, hcond]
    · rename_i hcond
      simp only [List.append_nil, List.mem_append, List.mem_cons, List.mem_singleton, hb,
        false_or, or_false, List.not_mem_nil]
      constructor
      · intro hh
        simp at hh
      · rintro ⟨_, h2, h3⟩
        exact absurd ⟨h2, h3⟩ hcond

set_option maxRecDepth 100000 in
/-- C17, as stated, fails in future-start mode while the cursor stays
negative: entered at cursor -10000, a step whose 4096 frames are all taken
leaves the cursor at -5904 and does not seek the file. -/
theorem FramesToPcmTransferLoop_future_step_without_seek :
    FramesToPcmTransferLoop (demoTransfer (-10000)) false demoHw
      = { t := { demoTransfer (-5904) with audio_start_time_ms_since_epoch_ := 1700000000319 }
          calls := [Call.avail_update, Call.bzero 16384, Call.writei 4096 4096, Call.delay,
            Call.NewSongStatus "track1.wav" 1 1700000000319 1]
          next := StepEnd.post_transfer }
    ∧ Call.seek (-5904)
        ∉ (FramesToPcmTransferLoop (demoTransfer (-10000)) false demoHw).calls := by
  refine ⟨by decide, by decide⟩

/-- C17 (amended): for every transfer step whose submit of `n` frames returns
`w >= 0` accepted frames, the cursor after the step equals the cursor before
plus `w`, and the Frame Source is reseeked, to the new cursor, exactly when the
new cursor is not negative and either `w` differs from `n` or the step was in
future-start mode; so it is not reseeked when all requested frames were
accepted in normal mode, nor while the cursor stays negative. -/
theorem transfer_step_cursor_and_reseek (t : Transfer) (hw : HwStep) (n w : Int)
    (h : Call.writei n w ∈ (FramesToPcmTransferLoop t false hw).calls) (hw0 : 0 ≤ w) :
    (FramesToPcmTransferLoop t false hw).t.curr_position_frames_
        = t.curr_position_frames_ + w
    ∧ (∀ f, Call.seek f ∈ (FramesToPcmTransferLoop t false hw).calls
        ↔ f = t.curr_position_frames_ + w
          ∧ 0 ≤ t.curr_position_frames_ + w
          ∧ (t.curr_position_frames_ < 0 ∨ w ≠ n)) := by
  obtain ⟨hwv, hcase⟩ := FramesToPcmTransferLoop_submits t hw n w h
  subst hwv
  rcases hcase with ⟨hc, _, heq⟩ | ⟨hc, _, heq⟩
  · rw [heq]
    refine ⟨(transfer_submit_taken t hw n false _ hw0).1, fun f => ?_⟩
    rw [transfer_submit_seek_mem t hw n false _ (by simp) hw0]
    have : ¬ t.curr_position_frames_ < 0 := by omega
    simp [this]
  · rw [heq]
    refine ⟨(transfer_submit_taken t hw n true _ hw0).1, fun f => ?_⟩
    rw [transfer_submit_seek_mem t hw n true _ (by simp) hw0]
    simp [hc]

set_option maxRecDepth 100000 in
/-- C17 (amended) at a partial write: of the 4096 frames asked for at cursor 0
the device takes 1000, and the file is reseeked to frame 1000. -/
theorem transfer_step_cursor_and_reseek_witness :
    (FramesToPcmTransferLoop (demoTransfer 0) false
        { demoHw with frames_written := 1000 }).t.curr_position_frames_ = 0 + 1000
    ∧ Call.seek 1000 ∈ (FramesToPcmTransferLoop (demoTransfer 0) false
        { demoHw with frames_written := 1000 }).calls :=
  ⟨(transfer_step_cursor_and_reseek (demoTransfer 0) { demoHw with frames_written := 1000 }
      4096 1000 (by decide) (by decide)).1,
   ((transfer_step_cursor_and_reseek (demoTransfer 0) { demoHw with frames_written := 1000 }
      4096 1000 (by decide) (by decide)).2 1000).2 ⟨by decide, by decide, by decide⟩⟩

/-! ## Future-start mode -/

/-- Nothing runs once a handler has thrown. -/
theorem ios_run_fatal (t : Transfer) (e : Fatal) (steps : List HwStep) :
    ios_run t (StepEnd.fatal e) steps = (t, [], 0, StepEnd.fatal e) := by
  cases steps <;> rfl

/-- Nothing runs once no handler is scheduled. -/
theorem ios_run_idle (t : Transfer) (steps : List HwStep) :
    ios_run t StepEnd.idle steps = (t, [], 0, StepEnd.idle) := by
  cases steps <;> rfl

/-- A run with the transfer step scheduled starts with that step. -/
theorem ios_run_transfer (t : Transfer) (pending : StepEnd)
    (hp : pending = StepEnd.post_transfer ∨ pending = StepEnd.wait_transfer)
    (hw : HwStep) (rest : List HwStep) :
    ios_run t pending (hw :: rest)
      = ((ios_run (FramesToPcmTransferLoop t false hw).t
            (FramesToPcmTransferLoop t false hw).next rest).1,
         (FramesToPcmTransferLoop t false hw).calls
           ++ (ios_run (FramesToPcmTransferLoop t false hw).t
            (FramesToPcmTransferLoop t false hw).next rest).2.1,
         (ios_run (FramesToPcmTransferLoop t false hw).t
            (FramesToPcmTransferLoop t false hw).next rest).2.2.1 + 1,
         (ios_run (FramesToPcmTransferLoop t false hw).t
            (FramesToPcmTransferLoop t false hw).next rest).2.2.2) := by
  rcases hp with hp | hp <;> subst hp <;> rfl

/-- A run with the drain step scheduled starts with that step. -/
theorem ios_run_drain (t : Transfer) (pending : StepEnd)
    (hp : pending = StepEnd.post_drain ∨ pending = StepEnd.wait_drain)
    (hw : HwStep) (rest : List HwStep) :
    ios_run t pending (hw :: rest)
      = ((ios_run (PcmDrainLoop t false hw).t (PcmDrainLoop t false hw).next rest).1,
         (PcmDrainLoop t false hw).calls
           ++ (ios_run (PcmDrainLoop t false hw).t (PcmDrainLoop t false hw).next rest).2.1,
         (ios_run (PcmDrainLoop t false hw).t (PcmDrainLoop t false hw).next rest).2.2.1 + 1,
         (ios_run (PcmDrainLoop t false hw).t (PcmDrainLoop t false hw).next rest).2.2.2) := by
  rcases hp with hp | hp <;> subst hp <;> rfl

/-- Reading in two traces in a row. -/
theorem reads_file_append (xs ys : List Call) :
    reads_file (xs ++ ys) = (reads_file xs || reads_file ys) := by
  induction xs with
  | nil => simp [reads_file]
  | cons x rest ih => cases x <;> simp [reads_file, ih]

/-- Silence before the first read in two traces in a row. -/
theorem silence_before_read_append (xs ys : List Call) :
    silence_before_read (xs ++ ys)
      = if reads_file xs = true then silence_before_read xs
        else silence_before_read xs + silence_before_read ys := by
  induction xs with
  | nil => simp [reads_file, silence_before_read]
  | cons x rest ih =>
    cases x <;> simp only [List.cons_append, reads_file, silence_before_read, ih] <;>
      split <;> first
        | (simp_all; done)
        | (simp_all; omega)

/-- `CheckSongStartTime` neither reads the file nor submits frames. -/
theorem CheckSongStartTime_silent (t : Transfer) (hw : HwStep) :
    reads_file (CheckSongStartTime t hw).2.1 = false
    ∧ silence_before_read (CheckSongStartTime t hw).2.1 = 0 := by
  rcases CheckSongStartTime_calls t hw with h | h <;> rw [h] <;>
    simp [reads_file, silence_before_read]

/-- While the cursor is not positive and the device takes at most what it is
asked for, the frames taken before the first read of the file add up to the
distance of the cursor from 0. -/
theorem ios_run_silence (steps : List HwStep) :
    ∀ (t : Transfer) (pending : StepEnd),
      (pending = StepEnd.post_transfer ∨ pending = StepEnd.wait_transfer) →
      t.curr_position_frames_ ≤ 0 →
      INT64_MIN < t.curr_position_frames_ →
      (∀ n w, Call.writei n w ∈ (ios_run t pending steps).2.1 → w ≤ n) →
      reads_file (ios_run t pending steps).2.1 = true →
      silence_before_read (ios_run t pending steps).2.1 = -t.curr_position_frames_ := by
  induction steps with
  | nil =>
    intro t pending _ _ _ _ hread
    simp [ios_run, reads_file] at hread
  | cons hw rest ih =>
    intro t pending hp hc hmin hacc hread
    have hne : t.curr_position_frames_ ≠ INT64_MIN := ne_of_gt hmin
    have hmin2 : -(2 ^ 63 : Int) < t.curr_position_frames_ := hmin
    rw [ios_run_transfer t pending hp hw rest] at hacc hread ⊢
    simp only [] at hacc hread ⊢
    rcases lt_trichotomy hw.avail 0 with ha | ha | ha
    · rw [FramesToPcmTransferLoop_avail_neg t hw ha] at hread
      simp [ios_run_fatal, reads_file] at hread
    · rw [FramesToPcmTransferLoop_avail_zero t hw ha] at hacc hread ⊢
      simp only [] at hacc hread ⊢
      have hacc2 : ∀ n w, Call.writei n w
          ∈ (ios_run t StepEnd.wait_transfer rest).2.1 → w ≤ n := by
        intro n w hm
        exact hacc n w (List.mem_append_right _ hm)
      rw [reads_file_append] at hread
      simp only [reads_file, Bool.false_or] at hread
      rw [silence_before_read_append]
      simp only [reads_file, silence_before_read, Bool.false_eq_true, if_false, zero_add]
      exact ih t StepEnd.wait_transfer (Or.inr rfl) hc hmin hacc2 hread
    · by_cases hneg : t.curr_position_frames_ < 0
      · have heq := FramesToPcmTransferLoop_future t hw ha hneg
        rw [neg_int64_of_ne _ hne] at heq
        by_cases hw0 : hw.frames_written < 0
        · rw [heq, transfer_submit_refused _ _ _ _ _ hw0] at hread
          simp [ios_run_fatal, reads_file] at hread
        · have hw1 : 0 ≤ hw.frames_written := by omega
          have hmem : Call.writei
              (min (min hw.avail t.params.frames_capacity_in_buffer_)
                (-t.curr_position_frames_)) hw.frames_written
              ∈ (FramesToPcmTransferLoop t false hw).calls := by
            rw [heq, transfer_submit_writei_mem _ _ _ _ _ (by simp)]
            exact ⟨rfl, rfl⟩
          have hle := hacc _ _ (List.mem_append_left _ hmem)
          have hle2 : hw.frames_written ≤ -t.curr_position_frames_ :=
            le_trans hle (min_le_right _ _)
          obtain ⟨hcur, _, _, _, hcalls, hnext⟩ := transfer_submit_taken t hw
            (min (min hw.avail t.params.frames_capacity_in_buffer_)
              (-t.curr_position_frames_)) true
            [Call.avail_update,
              Call.bzero (to_uint32
                (min (min hw.avail t.params.frames_capacity_in_buffer_)
                    (-t.curr_position_frames_)
                  * t.params.bytes_per_frame_))] hw1
          rw [← heq] at hcur hcalls hnext
          have hsil := CheckSongStartTime_silent
            { t with curr_position_frames_ := t.curr_position_frames_ + hw.frames_written } hw
          have hstep_reads : reads_file (FramesToPcmTransferLoop t false hw).calls = false := by
            rw [hcalls]
            simp only [reads_file_append, hsil.1, Bool.or_false]
            split <;> simp [reads_file]
          have hstep_sil : silence_before_read (FramesToPcmTransferLoop t false hw).calls
              = hw.frames_written := by
            rw [hcalls]
            simp only [silence_before_read_append, reads_file_append, hsil.1, hsil.2]
            split <;> simp [reads_file, silence_before_read]
          rw [reads_file_append, hstep_reads, Bool.false_or] at hread
          rw [silence_before_read_append, hstep_reads, hstep_sil]
          simp only [Bool.false_eq_true, if_false]
          rcases hnext with hn | hn
          · rw [hn] at hacc hread ⊢
            have hacc2 : ∀ n w, Call.writei n w
                ∈ (ios_run (FramesToPcmTransferLoop t false hw).t
                    StepEnd.post_transfer rest).2.1 → w ≤ n := by
              intro n w hm
              exact hacc n w (List.mem_append_right _ hm)
            have := ih (FramesToPcmTransferLoop t false hw).t StepEnd.post_transfer
              (Or.inl rfl) (by rw [hcur]; omega)
              (by rw [hcur]; simp only [INT64_MIN]; omega) hacc2 hread
            rw [this, hcur]
            omega
          · rw [hn, ios_run_fatal] at hread
            simp [reads_file] at hread
      · have hc0 : t.curr_position_frames_ = 0 := by omega
        have hc1 : 0 ≤ t.curr_position_frames_ := by omega
        have hfirst : ∃ b tail, (FramesToPcmTransferLoop t false hw).calls
            = Call.avail_update :: Call.readRaw b :: tail := by
          by_cases hr : to_uint32 hw.read_raw = 0
          · rw [FramesToPcmTransferLoop_eof t hw ha hc1 hr]
            exact ⟨_, [], rfl⟩
          · rw [FramesToPcmTransferLoop_normal t hw ha hc1 hr]
            by_cases hw0 : hw.frames_written < 0
            · rw [transfer_submit_refused _ _ _ _ _ hw0]
              exact ⟨_, _, rfl⟩
            · rw [(transfer_submit_taken t hw _ false _ (by omega)).2.2.2.2.1]
              exact ⟨_, _, by simp only [List.cons_append, List.nil_append]; rfl⟩
        obtain ⟨b, tail, hcalls⟩ := hfirst
        rw [hcalls, hc0]
        simp [silence_before_read]

set_option maxRecDepth 100000 in
/-- C15 as stated fails at the cursor `INT64_MIN`, which the 64-bit unary minus
of line 495 leaves as it is: with room for 4096 frames the step zeroes 0 bytes
of the buffer and asks the device for `INT64_MIN` frames, which is `2^63` as
the unsigned frame count of `snd_pcm_writei`, where `min(available, buffer
capacity, -c)` is 4096; the 4096 frames the device takes were not zeroed. -/
theorem FramesToPcmTransferLoop_min_cursor_submits_frames_not_zeroed :
    (demoTransfer INT64_MIN).curr_position_frames_ < 0
    ∧ FramesToPcmTransferLoop (demoTransfer INT64_MIN) false demoHw
      = { t := { demoTransfer (-9223372036854771712) with
                  audio_start_time_ms_since_epoch_ := 1700000000092 }
          calls := [Call.avail_update, Call.bzero 0,
            Call.writei (-9223372036854775808) 4096, Call.delay,
            Call.NewSongStatus "track1.wav" 1 1700000000092 1]
          next := StepEnd.post_transfer }
    ∧ to_uint64 (-9223372036854775808) = 9223372036854775808
    ∧ min (min demoHw.avail (demoTransfer INT64_MIN).params.frames_capacity_in_buffer_)
        (-(demoTransfer INT64_MIN).curr_position_frames_) = 4096
    ∧ (∀ n w, Call.writei n w
          ∈ (FramesToPcmTransferLoop (demoTransfer INT64_MIN) false demoHw).calls →
        n ≠ min (min demoHw.avail (demoTransfer INT64_MIN).params.frames_capacity_in_buffer_)
          (-(demoTransfer INT64_MIN).curr_position_frames_)) := by
  have hstep : FramesToPcmTransferLoop (demoTransfer INT64_MIN) false demoHw
      = { t := { demoTransfer (-9223372036854771712) with
                  audio_start_time_ms_since_epoch_ := 1700000000092 }
          calls := [Call.avail_update, Call.bzero 0,
            Call.writei (-9223372036854775808) 4096, Call.delay,
            Call.NewSongStatus "track1.wav" 1 1700000000092 1]
          next := StepEnd.post_transfer } := by decide
  refine ⟨by decide, hstep, by decide, by decide, ?_⟩
  intro n w hm
  rw [hstep] at hm
  simp at hm
  rw [hm.1]
  decide

/-- C15 (amended): for every transfer step entered with a negative cursor `c`
other than the minimum 64-bit value (of a session whose file `InitSndFile`
accepted): the step does not read the Frame Source; what it submits is a buffer zeroed for all the frames it asks for, and
it asks for `min(available, buffer capacity, -c)` frames; assuming the hardware
accepts at most the number of frames requested, it leaves the cursor `<= 0`.
Hence over a run in which the hardware accepts at most what is requested, the
silence frames the hardware has taken before the first read of the file total
exactly `-c`, the absolute value of the initial negative cursor. -/
theorem future_start_submits_silence_up_to_cursor (full_file_name : String)
    (snd_file_ : SndfileHandle) (t : Transfer) (hw : HwStep)
    (hp : InitSndFile full_file_name snd_file_ = .ok t.params)
    (hc : t.curr_position_frames_ < 0) (hmin : INT64_MIN < t.curr_position_frames_) :
    (∀ b, Call.readRaw b ∉ (FramesToPcmTransferLoop t false hw).calls)
    ∧ (∀ n w, Call.writei n w ∈ (FramesToPcmTransferLoop t false hw).calls →
        n = min (min hw.avail t.params.frames_capacity_in_buffer_) (-t.curr_position_frames_)
        ∧ [Call.avail_update, Call.bzero (n * t.params.bytes_per_frame_).toNat,
            Call.writei n w] <+: (FramesToPcmTransferLoop t false hw).calls)
    ∧ ((∀ n w, Call.writei n w ∈ (FramesToPcmTransferLoop t false hw).calls → w ≤ n) →
        (FramesToPcmTransferLoop t false hw).t.curr_position_frames_ ≤ 0)
    ∧ (∀ steps : List HwStep,
        (∀ n w, Call.writei n w ∈ (PlayingThreadMain t steps).calls → w ≤ n) →
        reads_file (PlayingThreadMain t steps).calls = true →
        silence_before_read (PlayingThreadMain t steps).calls = -t.curr_position_frames_) := by
  obtain ⟨_, _, _, hcap⟩ := InitSndFile_calculated full_file_name snd_file_ t.params hp
  have hcap0 : 0 ≤ t.params.frames_capacity_in_buffer_ := by
    rw [hcap]
    exact Int.ofNat_nonneg _
  have hne : t.curr_position_frames_ ≠ INT64_MIN := ne_of_gt hmin
  refine ⟨?_, ?_, ?_, ?_⟩
  · intro b hmem
    have := (FramesToPcmTransferLoop_reads t hw b hmem).2.1
    omega
  · intro n w hmem
    obtain ⟨hwv, hcase⟩ := FramesToPcmTransferLoop_submits t hw n w hmem
    rcases hcase with ⟨h0, _, _⟩ | ⟨_, hn, heq⟩
    · omega
    · rw [neg_int64_of_ne _ hne] at hn heq
      refine ⟨hn, ?_⟩
      have ha : 0 < hw.avail := by
        rcases lt_trichotomy hw.avail 0 with ha | ha | ha
        · rw [FramesToPcmTransferLoop_avail_neg t hw ha] at hmem
          simp at hmem
        · rw [FramesToPcmTransferLoop_avail_zero t hw ha] at hmem
          simp at hmem
        · exact ha
      have hn0 : 0 ≤ n := by
        rw [hn]
        exact le_min (le_min (by omega) hcap0) (by omega)
      have hnc : n ≤ t.params.frames_capacity_in_buffer_ := by
        rw [hn]
        exact le_trans (min_le_left _ _) (min_le_right _ _)
      have hbytes := (bytes_of_frames_le t.params hcap n hn0 hnc).1
      rw [heq, ← hn, hbytes, hwv]
      by_cases hw0 : hw.frames_written < 0
      · rw [transfer_submit_refused _ _ _ _ _ hw0]
        exact ⟨[], by simp⟩
      · rw [(transfer_submit_taken t hw n true _ (by omega)).2.2.2.2.1]
        exact ⟨_, by simp only [List.append_assoc, List.cons_append, List.nil_append]; rfl⟩
  · intro hacc
    rcases lt_trichotomy hw.avail 0 with ha | ha | ha
    · rw [FramesToPcmTransferLoop_avail_neg t hw ha]
      exact le_of_lt hc
    · rw [FramesToPcmTransferLoop_avail_zero t hw ha]
      exact le_of_lt hc
    · have heq := FramesToPcmTransferLoop_future t hw ha hc
      rw [neg_int64_of_ne _ hne] at heq
      by_cases hw0 : hw.frames_written < 0
      · rw [heq, transfer_submit_refused _ _ _ _ _ hw0]
        exact le_of_lt hc
      · have hmem : Call.writei
            (min (min hw.avail t.params.frames_capacity_in_buffer_)
              (-t.curr_position_frames_)) hw.frames_written
            ∈ (FramesToPcmTransferLoop t false hw).calls := by
          rw [heq, transfer_submit_writei_mem _ _ _ _ _ (by simp)]
          exact ⟨rfl, rfl⟩
        have hle : hw.frames_written ≤ -t.curr_position_frames_ :=
          le_trans (hacc _ _ hmem) (min_le_right _ _)
        rw [heq, (transfer_submit_taken t hw _ true _ (by omega)).1]
        omega
  · intro steps hacc hread
    have hrun : ∀ n w, Call.writei n w ∈ (ios_run t StepEnd.post_transfer steps).2.1 →
        w ≤ n := by
      intro n w hm
      apply hacc n w
      simp only [PlayingThreadMain, List.append_assoc]
      exact List.mem_append_left _ hm
    have htail : ∀ xs : List Call, xs = [] ∨ xs = [Call.pcm_drop] →
        reads_file (xs ++ [Call.NoSongPlayingStatus
            (ios_run t StepEnd.post_transfer steps).1.file_id_
            (ios_run t StepEnd.post_transfer steps).1.play_seq_id_]) = false
        ∧ silence_before_read (xs ++ [Call.NoSongPlayingStatus
            (ios_run t StepEnd.post_transfer steps).1.file_id_
            (ios_run t StepEnd.post_transfer steps).1.play_seq_id_]) = 0 := by
      intro xs hxs
      rcases hxs with rfl | rfl <;> simp [reads_file, silence_before_read]
    have hdrop : (match (ios_run t StepEnd.post_transfer steps).2.2.2 with
        | StepEnd.fatal _ => ([] : List Call)
        | _ => [Call.pcm_drop]) = [] ∨
        (match (ios_run t StepEnd.post_transfer steps).2.2.2 with
        | StepEnd.fatal _ => ([] : List Call)
        | _ => [Call.pcm_drop]) = [Call.pcm_drop] := by
      split
      · exact Or.inl rfl
      · exact Or.inr rfl
    have ht := htail _ hdrop
    simp only [PlayingThreadMain, List.append_assoc] at hread ⊢
    rw [reads_file_append, ht.1, Bool.or_false] at hread
    rw [silence_before_read_append, hread]
    simp only [if_true]
    exact ios_run_silence steps t StepEnd.post_transfer (Or.inl rfl) (le_of_lt hc) hmin hrun
      hread

set_option maxRecDepth 100000 in
/-- C15 (amended) at a session of the sample file that starts 10000 frames in the
future: the device takes 4096, 4096 and 1808 frames of silence before the file
is first read. -/
theorem future_start_submits_silence_up_to_cursor_witness :
    (PlayingThreadMain (demoTransfer (-10000)) demoFutureSteps).calls
      = [Call.avail_update, Call.bzero 16384, Call.writei 4096 4096, Call.delay,
          Call.NewSongStatus "track1.wav" 1 1700000000319 1,
         Call.avail_update, Call.bzero 16384, Call.writei 4096 4096, Call.delay,
          Call.NewSongStatus "track1.wav" 1 1700000000226 1,
         Call.avail_update, Call.bzero 7232, Call.writei 1808 1808, Call.seek 0, Call.delay,
          Call.NewSongStatus "track1.wav" 1 1700000000185 1,
         Call.avail_update, Call.readRaw 16384, Call.writei 4096 4096, Call.delay,
          Call.NewSongStatus "track1.wav" 1 1700000000092 1,
         Call.pcm_drop, Call.NoSongPlayingStatus "track1.wav" 1]
    ∧ silence_before_read (PlayingThreadMain (demoTransfer (-10000)) demoFutureSteps).calls
      = -(demoTransfer (-10000)).curr_position_frames_ := by
  have hcalls : (PlayingThreadMain (demoTransfer (-10000)) demoFutureSteps).calls
      = [Call.avail_update, Call.bzero 16384, Call.writei 4096 4096, Call.delay,
          Call.NewSongStatus "track1.wav" 1 1700000000319 1,
         Call.avail_update, Call.bzero 16384, Call.writei 4096 4096, Call.delay,
          Call.NewSongStatus "track1.wav" 1 1700000000226 1,
         Call.avail_update, Call.bzero 7232, Call.writei 1808 1808, Call.seek 0, Call.delay,
          Call.NewSongStatus "track1.wav" 1 1700000000185 1,
         Call.avail_update, Call.readRaw 16384, Call.writei 4096 4096, Call.delay,
          Call.NewSongStatus "track1.wav" 1 1700000000092 1,
         Call.pcm_drop, Call.NoSongPlayingStatus "track1.wav" 1] := by decide
  refine ⟨hcalls, ?_⟩
  refine (future_start_submits_silence_up_to_cursor "/wav/track1.wav" demoWav
    (demoTransfer (-10000)) demoHw (by rfl) (by decide) (by decide)).2.2.2 demoFutureSteps ?_ ?_
  · intro n w hm
    rw [hcalls] at hm
    simp at hm
    omega
  · rw [hcalls]
    rfl

/-! ## End of the playing thread -/

/-- `CheckSongStartTime` emits no `NoSongPlayingStatus`. -/
theorem CheckSongStartTime_no_song (t : Transfer) (hw : HwStep) :
    no_song_events (CheckSongStartTime t hw).2.1 = [] := by
  rcases CheckSongStartTime_calls t hw with h | h <;> rw [h] <;> rfl

/-- The `NoSongPlayingStatus` events of two traces in a row. -/
theorem no_song_events_append (xs ys : List Call) :
    no_song_events (xs ++ ys) = no_song_events xs ++ no_song_events ys := by
  induction xs with
  | nil => rfl
  | cons x rest ih => cases x <;> simp [no_song_events, ih]

/-- A submission emits no `NoSongPlayingStatus` and keeps the ids. -/
theorem transfer_submit_ids (t : Transfer) (hw : HwStep) (n : Int) (future : Bool)
    (before : List Call) (hb : no_song_events before = []) :
    no_song_events (transfer_submit t hw n future before).calls = []
    ∧ (transfer_submit t hw n future before).t.file_id_ = t.file_id_
    ∧ (transfer_submit t hw n future before).t.play_seq_id_ = t.play_seq_id_ := by
  by_cases hw0 : hw.frames_written < 0
  · rw [transfer_submit_refused t hw n future before hw0]
    simp [no_song_events_append, hb, no_song_events]
  · obtain ⟨_, h1, h2, _, h3, _⟩ := transfer_submit_taken t hw n future before (by omega)
    refine ⟨?_, h1, h2⟩
    rw [h3]
    simp only [no_song_events_append, hb, CheckSongStartTime_no_song, List.append_nil,
      List.nil_append]
    split <;> rfl

/-- The transfer step emits no `NoSongPlayingStatus` and keeps the ids. -/
theorem FramesToPcmTransferLoop_ids (t : Transfer) (hw : HwStep) :
    no_song_events (FramesToPcmTransferLoop t false hw).calls = []
    ∧ (FramesToPcmTransferLoop t false hw).t.file_id_ = t.file_id_
    ∧ (FramesToPcmTransferLoop t false hw).t.play_seq_id_ = t.play_seq_id_ := by
  rcases lt_trichotomy hw.avail 0 with ha | ha | ha
  · rw [FramesToPcmTransferLoop_avail_neg t hw ha]
    exact ⟨rfl, rfl, rfl⟩
  · rw [FramesToPcmTransferLoop_avail_zero t hw ha]
    exact ⟨rfl, rfl, rfl⟩
  · by_cases hc : t.curr_position_frames_ < 0
    · rw [FramesToPcmTransferLoop_future t hw ha hc]
      exact transfer_submit_ids _ _ _ _ _ rfl
    · have hc0 : 0 ≤ t.curr_position_frames_ := by omega
      by_cases hr : to_uint32 hw.read_raw = 0
      · rw [FramesToPcmTransferLoop_eof t hw ha hc0 hr]
        exact ⟨rfl, rfl, rfl⟩
      · rw [FramesToPcmTransferLoop_normal t hw ha hc0 hr]
        exact transfer_submit_ids _ _ _ _ _ rfl

/-- The drain step emits no `NoSongPlayingStatus` and keeps the ids. -/
theorem PcmDrainLoop_ids (t : Transfer) (hw : HwStep) :
    no_song_events (PcmDrainLoop t false hw).calls = []
    ∧ (PcmDrainLoop t false hw).t.file_id_ = t.file_id_
    ∧ (PcmDrainLoop t false hw).t.play_seq_id_ = t.play_seq_id_ := by
  unfold PcmDrainLoop
  simp only [Bool.false_eq_true, if_false]
  split
  · exact ⟨rfl, rfl, rfl⟩
  · have hk := CheckSongStartTime_keeps t hw
    refine ⟨?_, hk.1, hk.2.1⟩
    simp only [no_song_events_append, CheckSongStartTime_no_song, List.append_nil]
    rfl

/-- The handlers emit no `NoSongPlayingStatus` and keep the ids. -/
theorem ios_run_ids (steps : List HwStep) :
    ∀ (t : Transfer) (pending : StepEnd),
      no_song_events (ios_run t pending steps).2.1 = []
      ∧ (ios_run t pending steps).1.file_id_ = t.file_id_
      ∧ (ios_run t pending steps).1.play_seq_id_ = t.play_seq_id_ := by
  induction steps with
  | nil => intro t pending; exact ⟨rfl, rfl, rfl⟩
  | cons hw rest ih =>
    intro t pending
    cases pending with
    | idle => exact ⟨rfl, rfl, rfl⟩
    | fatal e => exact ⟨rfl, rfl, rfl⟩
    | post_transfer =>
      obtain ⟨h1, h2, h3⟩ := FramesToPcmTransferLoop_ids t hw
      obtain ⟨i1, i2, i3⟩ := ih (FramesToPcmTransferLoop t false hw).t
        (FramesToPcmTransferLoop t false hw).next
      simp only [ios_run]
      exact ⟨by rw [no_song_events_append, h1, i1]; rfl, i2.trans h2, i3.trans h3⟩
    | wait_transfer =>
      obtain ⟨h1, h2, h3⟩ := FramesToPcmTransferLoop_ids t hw
      obtain ⟨i1, i2, i3⟩ := ih (FramesToPcmTransferLoop t false hw).t
        (FramesToPcmTransferLoop t false hw).next
      simp only [ios_run]
      exact ⟨by rw [no_song_events_append, h1, i1]; rfl, i2.trans h2, i3.trans h3⟩
    | post_drain =>
      obtain ⟨h1, h2, h3⟩ := PcmDrainLoop_ids t hw
      obtain ⟨i1, i2, i3⟩ := ih (PcmDrainLoop t false hw).t (PcmDrainLoop t false hw).next
      simp only [ios_run]
      exact ⟨by rw [no_song_events_append, h1, i1]; rfl, i2.trans h2, i3.trans h3⟩
    | wait_drain =>
      obtain ⟨h1, h2, h3⟩ := PcmDrainLoop_ids t hw
      obtain ⟨i1, i2, i3⟩ := ih (PcmDrainLoop t false hw).t (PcmDrainLoop t false hw).next
      simp only [ios_run]
      exact ⟨by rw [no_song_events_append, h1, i1]; rfl, i2.trans h2, i3.trans h3⟩

/-- Every run of the playing thread emits exactly one `NoSongPlayingStatus`,
with the ids of its session, as its last call. -/
theorem PlayingThreadMain_one_no_song (t : Transfer) (steps : List HwStep) :
    no_song_events (PlayingThreadMain t steps).calls = [(t.file_id_, t.play_seq_id_)]
    ∧ (PlayingThreadMain t steps).calls.getLast?
        = some (Call.NoSongPlayingStatus t.file_id_ t.play_seq_id_) := by
  obtain ⟨h1, h2, h3⟩ := ios_run_ids steps t StepEnd.post_transfer
  constructor
  · simp only [PlayingThreadMain, no_song_events_append, h1, h2, h3, List.nil_append]
    split <;> rfl
  · simp only [PlayingThreadMain, h2, h3]
    simp

/-- A run splits along the answers: the handlers of the second part start
from where the first part left. -/
theorem ios_run_append (xs ys : List HwStep) :
    ∀ (t : Transfer) (pending : StepEnd),
      ios_run t pending (xs ++ ys)
        = ((ios_run (ios_run t pending xs).1 (ios_run t pending xs).2.2.2 ys).1,
           (ios_run t pending xs).2.1
             ++ (ios_run (ios_run t pending xs).1 (ios_run t pending xs).2.2.2 ys).2.1,
           (ios_run t pending xs).2.2.1
             + (ios_run (ios_run t pending xs).1 (ios_run t pending xs).2.2.2 ys).2.2.1,
           (ios_run (ios_run t pending xs).1 (ios_run t pending xs).2.2.2 ys).2.2.2) := by
  induction xs with
  | nil => intro t pending; simp [ios_run]
  | cons hw rest ih =>
    intro t pending
    cases pending with
    | idle => simp [ios_run, ios_run_idle]
    | fatal e => simp [ios_run, ios_run_fatal]
    | post_transfer =>
      rw [List.cons_append, ios_run_transfer _ _ (Or.inl rfl),
        ios_run_transfer _ _ (Or.inl rfl), ih]
      simp only [List.append_assoc, Nat.add_right_comm]
    | wait_transfer =>
      rw [List.cons_append, ios_run_transfer _ _ (Or.inr rfl),
        ios_run_transfer _ _ (Or.inr rfl), ih]
      simp only [List.append_assoc, Nat.add_right_comm]
    | post_drain =>
      rw [List.cons_append, ios_run_drain _ _ (Or.inl rfl),
        ios_run_drain _ _ (Or.inl rfl), ih]
      simp only [List.append_assoc, Nat.add_right_comm]
    | wait_drain =>
      rw [List.cons_append, ios_run_drain _ _ (Or.inr rfl),
        ios_run_drain _ _ (Or.inr rfl), ih]
      simp only [List.append_assoc, Nat.add_right_comm]

/-- A run that leaves a handler scheduled has run one handler for each
answer. -/
theorem ios_run_count (steps : List HwStep) :
    ∀ (t : Transfer) (pending : StepEnd),
      ((ios_run t pending steps).2.2.2 = StepEnd.post_transfer
        ∨ (ios_run t pending steps).2.2.2 = StepEnd.wait_transfer
        ∨ (ios_run t pending steps).2.2.2 = StepEnd.post_drain
        ∨ (ios_run t pending steps).2.2.2 = StepEnd.wait_drain) →
      (ios_run t pending steps).2.2.1 = steps.length := by
  induction steps with
  | nil => intro t pending _; rfl
  | cons hw rest ih =>
    intro t pending h
    cases pending with
    | idle => simp [ios_run] at h
    | fatal e => simp [ios_run] at h
    | post_transfer =>
      simp only [ios_run] at h ⊢
      rw [ih _ _ h]
      rfl
    | wait_transfer =>
      simp only [ios_run] at h ⊢
      rw [ih _ _ h]
      rfl
    | post_drain =>
      simp only [ios_run] at h ⊢
      rw [ih _ _ h]
      rfl
    | wait_drain =>
      simp only [ios_run] at h ⊢
      rw [ih _ _ h]
      rfl

/-- C13: for every session whose transfer step, due after the handler runs
`pre`, hits a hardware failure (the available-space query returns the underrun
sentinel `-EPIPE` or any other negative value, or the frame submit is reached
and returns a negative value): the step throws, the loop runs no further step
(the thread ends as if no answer followed), and the worker emits exactly one
`NoSongPlayingStatus` event, as its last call, carrying that session's own
file id and sequence id. -/
theorem hardware_failure_ends_thread_with_one_event (t : Transfer) (pre : List HwStep)
    (hw : HwStep) (post : List HwStep)
    (hdue : (ios_run t StepEnd.post_transfer pre).2.2.2 = StepEnd.post_transfer
      ∨ (ios_run t StepEnd.post_transfer pre).2.2.2 = StepEnd.wait_transfer)
    (hfail : hw.avail < 0
      ∨ (0 < hw.avail
        ∧ ((ios_run t StepEnd.post_transfer pre).1.curr_position_frames_ < 0
          ∨ to_uint32 hw.read_raw ≠ 0)
        ∧ hw.frames_written < 0)) :
    (∃ e, (FramesToPcmTransferLoop (ios_run t StepEnd.post_transfer pre).1 false hw).next
        = StepEnd.fatal e
      ∧ (hw.avail = -EPIPE → e = Fatal.xrun)
      ∧ (hw.avail < 0 → hw.avail ≠ -EPIPE → e = Fatal.avail_unknown hw.avail)
      ∧ (0 < hw.avail → e = Fatal.writei_failed hw.frames_written))
    ∧ (PlayingThreadMain t (pre ++ hw :: post)).handlers_run = pre.length + 1
    ∧ PlayingThreadMain t (pre ++ hw :: post) = PlayingThreadMain t (pre ++ [hw])
    ∧ no_song_events (PlayingThreadMain t (pre ++ hw :: post)).calls
        = [(t.file_id_, t.play_seq_id_)]
    ∧ (PlayingThreadMain t (pre ++ hw :: post)).calls.getLast?
        = some (Call.NoSongPlayingStatus t.file_id_ t.play_seq_id_) := by
  have hstep : ∃ e, (FramesToPcmTransferLoop (ios_run t StepEnd.post_transfer pre).1
        false hw).next = StepEnd.fatal e
      ∧ (hw.avail = -EPIPE → e = Fatal.xrun)
      ∧ (hw.avail < 0 → hw.avail ≠ -EPIPE → e = Fatal.avail_unknown hw.avail)
      ∧ (0 < hw.avail → e = Fatal.writei_failed hw.frames_written) := by
    rcases hfail with ha | ⟨ha, hreach, hw0⟩
    · rw [FramesToPcmTransferLoop_avail_neg _ hw ha]
      refine ⟨_, rfl, ?_, ?_, ?_⟩
      · intro h; simp [h]
      · intro _ h; simp [h]
      · intro h; omega
    · have hneq : hw.avail ≠ -EPIPE := by
        intro h
        rw [h] at ha
        simp [EPIPE] at ha
      by_cases hc : (ios_run t StepEnd.post_transfer pre).1.curr_position_frames_ < 0
      · rw [FramesToPcmTransferLoop_future _ hw ha hc, transfer_submit_refused _ _ _ _ _ hw0]
        exact ⟨_, rfl, fun h => absurd h hneq, fun h => by omega, fun _ => rfl⟩
      · have hr : to_uint32 hw.read_raw ≠ 0 := by
          rcases hreach with h | h
          · exact absurd h hc
          · exact h
        rw [FramesToPcmTransferLoop_normal _ hw ha (by omega) hr,
          transfer_submit_refused _ _ _ _ _ hw0]
        exact ⟨_, rfl, fun h => absurd h hneq, fun h => by omega, fun _ => rfl⟩
  have hstep2 := hstep
  obtain ⟨e, he, _⟩ := hstep2
  have hcount := ios_run_count pre t StepEnd.post_transfer
    (by rcases hdue with h | h
        · exact Or.inl h
        · exact Or.inr (Or.inl h))
  have hone : ∀ rest : List HwStep,
      ios_run (ios_run t StepEnd.post_transfer pre).1
          (ios_run t StepEnd.post_transfer pre).2.2.2 (hw :: rest)
        = ((FramesToPcmTransferLoop (ios_run t StepEnd.post_transfer pre).1 false hw).t,
           (FramesToPcmTransferLoop (ios_run t StepEnd.post_transfer pre).1 false hw).calls,
           1, StepEnd.fatal e) := by
    intro rest
    rw [ios_run_transfer _ _ hdue hw rest, he, ios_run_fatal]
    simp
  have hsame : ∀ rest : List HwStep,
      ios_run t StepEnd.post_transfer (pre ++ hw :: rest)
        = ios_run t StepEnd.post_transfer (pre ++ [hw]) := by
    intro rest
    rw [ios_run_append, ios_run_append, hone rest, hone []]
  refine ⟨hstep, ?_, ?_, (PlayingThreadMain_one_no_song t _).1,
    (PlayingThreadMain_one_no_song t _).2⟩
  · simp only [PlayingThreadMain]
    rw [ios_run_append, hone post, hcount]
  · simp only [PlayingThreadMain]
    rw [hsame post]

set_option maxRecDepth 100000 in
/-- C13 at a session of the sample file that, after two good steps, meets an
underrun: the third handler is the last, and the thread ends with its one
`NoSongPlayingStatus`. -/
theorem hardware_failure_ends_thread_with_one_event_witness :
    (PlayingThreadMain (demoTransfer 0)
        ([demoHw, demoHw] ++ { demoHw with avail := -32 } :: [demoHw])).handlers_run
      = [demoHw, demoHw].length + 1
    ∧ no_song_events (PlayingThreadMain (demoTransfer 0)
        ([demoHw, demoHw] ++ { demoHw with avail := -32 } :: [demoHw])).calls
      = [((demoTransfer 0).file_id_, (demoTransfer 0).play_seq_id_)] :=
  ⟨(hardware_failure_ends_thread_with_one_event (demoTransfer 0) [demoHw, demoHw]
      { demoHw with avail := -32 } [demoHw] (by decide) (by decide)).2.1,
   (hardware_failure_ends_thread_with_one_event (demoTransfer 0) [demoHw, demoHw]
      { demoHw with avail := -32 } [demoHw] (by decide) (by decide)).2.2.2.1⟩

/-! ## Start-time estimate -/

/-- A `uint64_t` conversion is the remainder modulo `2^64`. -/
theorem to_uint64_cast (x : Int) :
    ((to_uint64 x : Nat) : Int) = x % (UINT64_MODULUS : Int) := by
  unfold to_uint64
  apply Int.toNat_of_nonneg
  apply Int.emod_nonneg
  simp [UINT64_MODULUS]

/-- A `uint64_t` conversion is below `2^64`. -/
theorem to_uint64_lt (x : Int) : to_uint64 x < UINT64_MODULUS := by
  have h := to_uint64_cast x
  have h2 : x % (UINT64_MODULUS : Int) < (UINT64_MODULUS : Int) := by
    apply Int.emod_lt_of_pos
    simp [UINT64_MODULUS]
  omega

/-- An `int64_t` conversion differs from its argument by a multiple of `2^64`
and lies in the range of `int64_t`. -/
theorem to_int64_spec (n : Nat) :
    (to_int64 n) % (UINT64_MODULUS : Int) = (n : Int) % (UINT64_MODULUS : Int)
    ∧ -(2 ^ 63 : Int) ≤ to_int64 n ∧ to_int64 n < (2 ^ 63 : Int) := by
  unfold to_int64
  have hm : (UINT64_MODULUS : Int) = 2 ^ 64 := by simp [UINT64_MODULUS]
  have hlt : n % UINT64_MODULUS < UINT64_MODULUS := Nat.mod_lt _ (by simp [UINT64_MODULUS])
  have hcast : ((n % UINT64_MODULUS : Nat) : Int) = (n : Int) % (UINT64_MODULUS : Int) := by
    simp
  simp only [UINT64_MODULUS] at hlt hcast hm ⊢
  split
  · rename_i h
    refine ⟨?_, ?_, ?_⟩
    · rw [hcast]
      simp
    · omega
    · omega
  · rename_i h
    refine ⟨?_, ?_, ?_⟩
    · rw [hcast]
      simp
    · omega
    · omega

/-- A 64-bit operation whose exact result fits in an `int64_t` leaves that
result. -/
theorem wrap_int64_of_range (x : Int) (h1 : -(2 ^ 63 : Int) ≤ x) (h2 : x < 2 ^ 63) :
    wrap_int64 x = x := by
  unfold wrap_int64
  obtain ⟨hmod, hlo, hhi⟩ := to_int64_spec (to_uint64 x)
  rw [to_uint64_cast, Int.emod_emod_of_dvd _ (dvd_refl _)] at hmod
  have hm : (UINT64_MODULUS : Int) = 2 ^ 64 := by simp [UINT64_MODULUS]
  rw [hm] at hmod
  generalize to_int64 (to_uint64 x) = d at hmod hlo hhi
  omega

/-- While the product of line 560 fits in an `int64_t`, the estimate is the
time less the position, modulo `2^64`. -/
theorem start_time_estimate_cast (cursor delay : Int) (frame_rate_ now : Nat)
    (h1 : -(2 ^ 63 : Int) ≤ (cursor - delay) * 1000) (h2 : (cursor - delay) * 1000 < 2 ^ 63) :
    ((start_time_estimate cursor delay frame_rate_ now : Nat) : Int)
      = ((now : Int) - Int.tdiv ((cursor - delay) * 1000) (frame_rate_ : Int))
          % (UINT64_MODULUS : Int) := by
  unfold start_time_estimate
  simp only []
  rw [wrap_int64_of_range (cursor - delay) (by omega) (by omega),
    wrap_int64_of_range ((cursor - delay) * 1000) h1 h2]
  rw [to_uint64_cast, Int.sub_emod, (to_int64_spec now).1, ← Int.sub_emod]

/-- The difference of line 568 is the plain difference whenever that fits in
an `int64_t`. -/
theorem diff_from_prev_eq (e l : Nat) (h1 : -(2 ^ 63 : Int) ≤ (e : Int) - l)
    (h2 : (e : Int) - l < 2 ^ 63) : diff_from_prev e l = (e : Int) - l := by
  unfold diff_from_prev
  obtain ⟨hmod, hlo, hhi⟩ := to_int64_spec (to_uint64 ((e : Int) - l))
  rw [to_uint64_cast, Int.emod_emod_of_dvd _ (dvd_refl _)] at hmod
  have hm : (UINT64_MODULUS : Int) = 2 ^ 64 := by simp [UINT64_MODULUS]
  rw [hm] at hmod
  generalize to_int64 (to_uint64 ((e : Int) - l)) = d at hmod hlo hhi
  generalize (e : Int) - (l : Int) = x at hmod h1 h2
  omega

/-- Two estimates whose difference of line 568 is beyond 1 differ by more than
1 as numbers. -/
theorem abs_sub_gt_one_of_diff (e l : Nat)
    (h : ¬ (diff_from_prev e l ≤ 1 ∧ diff_from_prev e l ≥ -1)) :
    1 < |(e : Int) - (l : Int)| := by
  by_contra hcon
  have habs : |(e : Int) - (l : Int)| ≤ 1 := by omega
  rw [abs_le] at habs
  have := diff_from_prev_eq e l (by omega) (by omega)
  rw [this] at h
  omega

/-- The start times published in two traces in a row. -/
theorem published_start_times_append (xs ys : List Call) :
    published_start_times (xs ++ ys)
      = published_start_times xs ++ published_start_times ys := by
  induction xs with
  | nil => rfl
  | cons x rest ih => cases x <;> simp [published_start_times, ih]

/-- What `CheckSongStartTime` does when the delay query has succeeded. -/
theorem CheckSongStartTime_cases (t : Transfer) (hw : HwStep) (hrc : 0 ≤ hw.delay_err) :
    (4096 ≤ hw.delay
        ∧ (diff_from_prev
              (start_time_estimate t.curr_position_frames_ hw.delay t.params.frame_rate_
                (curr_time_ms_since_epoch hw)) t.audio_start_time_ms_since_epoch_ < -1
          ∨ 1 < diff_from_prev
              (start_time_estimate t.curr_position_frames_ hw.delay t.params.frame_rate_
                (curr_time_ms_since_epoch hw)) t.audio_start_time_ms_since_epoch_) →
      CheckSongStartTime t hw
        = ({ t with audio_start_time_ms_since_epoch_ :=
              (start_time_estimate t.curr_position_frames_ hw.delay t.params.frame_rate_
                (curr_time_ms_since_epoch hw)) },
           [Call.delay,
            Call.NewSongStatus t.file_id_ t.play_seq_id_
              (start_time_estimate t.curr_position_frames_ hw.delay t.params.frame_rate_
                (curr_time_ms_since_epoch hw)) 1],
           none))
    ∧ (¬ (4096 ≤ hw.delay
        ∧ (diff_from_prev
              (start_time_estimate t.curr_position_frames_ hw.delay t.params.frame_rate_
                (curr_time_ms_since_epoch hw)) t.audio_start_time_ms_since_epoch_ < -1
          ∨ 1 < diff_from_prev
              (start_time_estimate t.curr_position_frames_ hw.delay t.params.frame_rate_
                (curr_time_ms_since_epoch hw)) t.audio_start_time_ms_since_epoch_)) →
      CheckSongStartTime t hw = (t, [Call.delay], none)) := by
  have h0 : ¬ hw.delay_err < 0 := by omega
  constructor
  · rintro ⟨hd, hdiff⟩
    have h1 : ¬ hw.delay < 4096 := by omega
    have h2 : ¬ (diff_from_prev
          (start_time_estimate t.curr_position_frames_ hw.delay t.params.frame_rate_
            (curr_time_ms_since_epoch hw)) t.audio_start_time_ms_since_epoch_ ≤ 1
        ∧ diff_from_prev
          (start_time_estimate t.curr_position_frames_ hw.delay t.params.frame_rate_
            (curr_time_ms_since_epoch hw)) t.audio_start_time_ms_since_epoch_ ≥ -1) := by
      omega
    simp only [CheckSongStartTime, h0, h1, h2, if_false]
  · intro hn
    by_cases h1 : hw.delay < 4096
    · simp only [CheckSongStartTime, h0, h1, if_false, if_true]
    · have h2 : diff_from_prev
            (start_time_estimate t.curr_position_frames_ hw.delay t.params.frame_rate_
              (curr_time_ms_since_epoch hw)) t.audio_start_time_ms_since_epoch_ ≤ 1
          ∧ diff_from_prev
            (start_time_estimate t.curr_position_frames_ hw.delay t.params.frame_rate_
              (curr_time_ms_since_epoch hw)) t.audio_start_time_ms_since_epoch_ ≥ -1 := by
        omega
      simp only [CheckSongStartTime, h0, h1, h2, if_false, if_true, and_self]

/-- What a handler publishes: nothing, leaving the last published start time,
or one start time that becomes the last published one, is below `2^64` and
differs from the one before by more than 1. -/
theorem CheckSongStartTime_published (t : Transfer) (hw : HwStep) :
    (published_start_times (CheckSongStartTime t hw).2.1 = []
      ∧ (CheckSongStartTime t hw).1.audio_start_time_ms_since_epoch_
          = t.audio_start_time_ms_since_epoch_)
    ∨ (∃ e, published_start_times (CheckSongStartTime t hw).2.1 = [e]
      ∧ (CheckSongStartTime t hw).1.audio_start_time_ms_since_epoch_ = e
      ∧ e < UINT64_MODULUS
      ∧ 1 < |(e : Int) - (t.audio_start_time_ms_since_epoch_ : Int)|) := by
  unfold CheckSongStartTime
  split
  · exact Or.inl ⟨rfl, rfl⟩
  · split
    · exact Or.inl ⟨rfl, rfl⟩
    · simp only []
      split
      · exact Or.inl ⟨rfl, rfl⟩
      · rename_i h
        exact Or.inr ⟨_, rfl, rfl, to_uint64_lt _, abs_sub_gt_one_of_diff _ _ h⟩

/-- `CheckSongStartTime` publishes at most one start time. -/
theorem CheckSongStartTime_publishes_at_most_one (t : Transfer) (hw : HwStep) :
    publishes_at_most_one t.audio_start_time_ms_since_epoch_ (CheckSongStartTime t hw).2.1
      (CheckSongStartTime t hw).1.audio_start_time_ms_since_epoch_ :=
  CheckSongStartTime_published t hw

/-- A submission publishes at most one start time. -/
theorem transfer_submit_publishes (t : Transfer) (hw : HwStep) (n : Int) (future : Bool)
    (before : List Call) (hb : published_start_times before = []) :
    publishes_at_most_one t.audio_start_time_ms_since_epoch_
      (transfer_submit t hw n future before).calls
      (transfer_submit t hw n future before).t.audio_start_time_ms_since_epoch_ := by
  by_cases hw0 : hw.frames_written < 0
  · rw [transfer_submit_refused t hw n future before hw0]
    left
    simp [published_start_times_append, hb, published_start_times]
  · have h1 : ¬ hw.frames_written < 0 := hw0
    have hcalls := (transfer_submit_taken t hw n future before (by omega)).2.2.2.2.1
    have hl : (transfer_submit t hw n future before).t.audio_start_time_ms_since_epoch_
        = (CheckSongStartTime
            { t with curr_position_frames_ := t.curr_position_frames_ + hw.frames_written }
            hw).1.audio_start_time_ms_since_epoch_ := by
      simp [transfer_submit, h1]
    have hpre : published_start_times
        (before ++ [Call.writei n hw.frames_written]
          ++ (if 0 ≤ t.curr_position_frames_ + hw.frames_written
                ∧ (future = true ∨ hw.frames_written ≠ n)
              then [Call.seek (t.curr_position_frames_ + hw.frames_written)] else [])) = [] := by
      simp only [published_start_times_append, hb, List.nil_append]
      split <;> rfl
    rw [hcalls, hl]
    have hp := CheckSongStartTime_published
      { t with curr_position_frames_ := t.curr_position_frames_ + hw.frames_written } hw
    unfold publishes_at_most_one
    rw [published_start_times_append, hpre, List.nil_append]
    exact hp

/-- The transfer step publishes at most one start time. -/
theorem FramesToPcmTransferLoop_publishes (t : Transfer) (hw : HwStep) :
    publishes_at_most_one t.audio_start_time_ms_since_epoch_
      (FramesToPcmTransferLoop t false hw).calls
      (FramesToPcmTransferLoop t false hw).t.audio_start_time_ms_since_epoch_ := by
  rcases lt_trichotomy hw.avail 0 with ha | ha | ha
  · rw [FramesToPcmTransferLoop_avail_neg t hw ha]
    exact Or.inl ⟨rfl, rfl⟩
  · rw [FramesToPcmTransferLoop_avail_zero t hw ha]
    exact Or.inl ⟨rfl, rfl⟩
  · by_cases hc : t.curr_position_frames_ < 0
    · rw [FramesToPcmTransferLoop_future t hw ha hc]
      exact transfer_submit_publishes _ _ _ _ _ rfl
    · have hc0 : 0 ≤ t.curr_position_frames_ := by omega
      by_cases hr : to_uint32 hw.read_raw = 0
      · rw [FramesToPcmTransferLoop_eof t hw ha hc0 hr]
        exact Or.inl ⟨rfl, rfl⟩
      · rw [FramesToPcmTransferLoop_normal t hw ha hc0 hr]
        exact transfer_submit_publishes _ _ _ _ _ rfl

/-- The drain step publishes at most one start time. -/
theorem PcmDrainLoop_publishes (t : Transfer) (hw : HwStep) :
    publishes_at_most_one t.audio_start_time_ms_since_epoch_
      (PcmDrainLoop t false hw).calls
      (PcmDrainLoop t false hw).t.audio_start_time_ms_since_epoch_ := by
  unfold PcmDrainLoop
  simp only [Bool.false_eq_true, if_false]
  split
  · exact Or.inl ⟨rfl, rfl⟩
  · have hp := CheckSongStartTime_published t hw
    unfold publishes_at_most_one
    simp only [published_start_times_append, published_start_times, List.nil_append]
    exact hp

/-- Start times published one after the other, from the last published start
time on, differ by more than 1. -/
theorem chain_of_publishes (l : Nat) (calls : List Call) (l1 : Nat) (rest : List Nat)
    (h : publishes_at_most_one l calls l1)
    (hrest : List.Chain (fun a b : Nat => 1 < |(b : Int) - (a : Int)|) l1 rest) :
    List.Chain (fun a b : Nat => 1 < |(b : Int) - (a : Int)|) l
      (published_start_times calls ++ rest) := by
  rcases h with ⟨h1, h2⟩ | ⟨e, h1, h2, _, h4⟩
  · rw [h1, List.nil_append, ← h2]
    exact hrest
  · rw [h1, List.singleton_append]
    exact List.Chain.cons h4 (h2 ▸ hrest)

/-- In every run the start times published, from the last published start
time on, differ from one to the next by more than 1. -/
theorem ios_run_published_chain (steps : List HwStep) :
    ∀ (t : Transfer) (pending : StepEnd),
      List.Chain (fun a b : Nat => 1 < |(b : Int) - (a : Int)|)
        t.audio_start_time_ms_since_epoch_
        (published_start_times (ios_run t pending steps).2.1) := by
  induction steps with
  | nil => intro t pending; exact List.Chain.nil
  | cons hw rest ih =>
    intro t pending
    cases pending with
    | idle => exact List.Chain.nil
    | fatal e => exact List.Chain.nil
    | post_transfer =>
      rw [ios_run_transfer _ _ (Or.inl rfl)]
      simp only [published_start_times_append]
      exact chain_of_publishes _ _ _ _ (FramesToPcmTransferLoop_publishes t hw) (ih _ _)
    | wait_transfer =>
      rw [ios_run_transfer _ _ (Or.inr rfl)]
      simp only [published_start_times_append]
      exact chain_of_publishes _ _ _ _ (FramesToPcmTransferLoop_publishes t hw) (ih _ _)
    | post_drain =>
      rw [ios_run_drain _ _ (Or.inl rfl)]
      simp only [published_start_times_append]
      exact chain_of_publishes _ _ _ _ (PcmDrainLoop_publishes t hw) (ih _ _)
    | wait_drain =>
      rw [ios_run_drain _ _ (Or.inr rfl)]
      simp only [published_start_times_append]
      exact chain_of_publishes _ _ _ _ (PcmDrainLoop_publishes t hw) (ih _ _)

/-- The thread publishes the start times its handlers publish. -/
theorem PlayingThreadMain_published (t : Transfer) (steps : List HwStep) :
    published_start_times (PlayingThreadMain t steps).calls
      = published_start_times (ios_run t StepEnd.post_transfer steps).2.1 := by
  simp only [PlayingThreadMain, published_start_times_append]
  split <;> simp [published_start_times]

/-- While nothing wraps, the estimate is the time less the position. -/
theorem start_time_estimate_exact (cursor delay : Int) (frame_rate_ now : Nat)
    (h1 : -(2 ^ 63 : Int) ≤ (cursor - delay) * 1000) (h2 : (cursor - delay) * 1000 < 2 ^ 63)
    (h3 : 0 ≤ (now : Int) - Int.tdiv ((cursor - delay) * 1000) (frame_rate_ : Int))
    (h4 : (now : Int) - Int.tdiv ((cursor - delay) * 1000) (frame_rate_ : Int) < 2 ^ 64) :
    start_time_estimate cursor delay frame_rate_ now
      = ((now : Int) - Int.tdiv ((cursor - delay) * 1000) (frame_rate_ : Int)).toNat := by
  have hcast := start_time_estimate_cast cursor delay frame_rate_ now h1 h2
  have hm : (UINT64_MODULUS : Int) = 2 ^ 64 := by simp [UINT64_MODULUS]
  rw [hm, Int.emod_eq_of_lt h3 h4] at hcast
  omega

set_option maxRecDepth 100000 in
/-- C18 as stated fails where the 64-bit arithmetic of the estimate wraps.
`Play(-300000000000000)` on the sample file sets the cursor to
-13230000000000000; the first step submits 4096 frames of silence, and with
8192 frames queued the product `(cursor - d) * 1000` of line 560 is below
`-2^63`: the value `now - (cursor - d) * 1000 / frame_rate` is 301700000000092,
but the event published carries 18446627480193141062. And 445096 frames into
the file with 4096 frames queued and the clock at 5000 ms, that value is -5000,
and the event carries `2^64 - 5000`, which also becomes the last published
estimate. -/
theorem CheckSongStartTime_estimate_wraps_at_64_bits :
    ((Transfer.Play (demoTransfer 0) (-300000000000000)).1
        = demoTransfer (-13230000000000000)
      ∧ FramesToPcmTransferLoop (demoTransfer (-13230000000000000)) false demoHw
        = { t := { demoTransfer (-13229999999995904) with
                    audio_start_time_ms_since_epoch_ := 18446627480193141062 }
            calls := [Call.avail_update, Call.bzero 16384, Call.writei 4096 4096, Call.delay,
              Call.NewSongStatus "track1.wav" 1 18446627480193141062 1]
            next := StepEnd.post_transfer }
      ∧ CheckSongStartTime (demoTransfer (-13229999999995904)) demoHw
        = ({ demoTransfer (-13229999999995904) with
              audio_start_time_ms_since_epoch_ := 18446627480193141062 },
           [Call.delay, Call.NewSongStatus "track1.wav" 1 18446627480193141062 1],
           none)
      ∧ (curr_time_ms_since_epoch demoHw : Int)
          - Int.tdiv (((demoTransfer (-13229999999995904)).curr_position_frames_ - demoHw.delay)
              * 1000)
              ((demoTransfer (-13229999999995904)).params.frame_rate_ : Int)
        = 301700000000092)
    ∧ ((curr_time_ms_since_epoch demoHwFiveSeconds : Int)
          - Int.tdiv ((demoTransferLate.curr_position_frames_ - demoHwFiveSeconds.delay) * 1000)
              (demoTransferLate.params.frame_rate_ : Int) = -5000
      ∧ CheckSongStartTime demoTransferLate demoHwFiveSeconds
        = ({ demoTransferLate with audio_start_time_ms_since_epoch_ := 18446744073709546616 },
           [Call.delay, Call.NewSongStatus "track1.wav" 1 18446744073709546616 1],
           none)) := by
  refine ⟨⟨by decide!, by decide, by decide, by decide⟩, by decide, by decide⟩

/-- C18 (amended): for every cursor, hardware delay `d` (the delay query having
succeeded), positive frame rate, current time `now` and last published
estimate `L` for which nothing wraps at 64 bits, that is, `(cursor - d) * 1000`
fits in an `int64_t`, the value `E = now - (cursor - d) * 1000 / frame_rate`
(division truncating) lies in `[0, 2^64)` and `E - L` fits in an `int64_t`:
`CheckSongStartTime` publishes a `NewSongStatus` event if and only if
`d >= 4096` and `|E - L| > 1`; when it publishes, the one event carries the
file id and sequence id of the session, start time `E` and speed 1, and `L`
becomes `E`; when it does not, it publishes nothing and the members are
unchanged. In every run of the playing thread each published start time
differs from the one before it, and the first from `L`, by more than 1. -/
theorem CheckSongStartTime_publishes_iff (t : Transfer) (hw : HwStep)
    (hrc : 0 ≤ hw.delay_err) (_hrate : 0 < t.params.frame_rate_)
    (hmul : -(2 ^ 63 : Int) ≤ (t.curr_position_frames_ - hw.delay) * 1000
      ∧ (t.curr_position_frames_ - hw.delay) * 1000 < 2 ^ 63)
    (hE : 0 ≤ (curr_time_ms_since_epoch hw : Int)
          - Int.tdiv ((t.curr_position_frames_ - hw.delay) * 1000) (t.params.frame_rate_ : Int)
      ∧ (curr_time_ms_since_epoch hw : Int)
          - Int.tdiv ((t.curr_position_frames_ - hw.delay) * 1000) (t.params.frame_rate_ : Int)
        < 2 ^ 64)
    (hD : -(2 ^ 63 : Int) ≤ (curr_time_ms_since_epoch hw : Int)
          - Int.tdiv ((t.curr_position_frames_ - hw.delay) * 1000) (t.params.frame_rate_ : Int)
          - (t.audio_start_time_ms_since_epoch_ : Int)
      ∧ (curr_time_ms_since_epoch hw : Int)
          - Int.tdiv ((t.curr_position_frames_ - hw.delay) * 1000) (t.params.frame_rate_ : Int)
          - (t.audio_start_time_ms_since_epoch_ : Int) < 2 ^ 63) :
    (published_start_times (CheckSongStartTime t hw).2.1 ≠ []
        ↔ (4096 ≤ hw.delay
          ∧ 1 < |(curr_time_ms_since_epoch hw : Int)
                - Int.tdiv ((t.curr_position_frames_ - hw.delay) * 1000)
                    (t.params.frame_rate_ : Int)
                - (t.audio_start_time_ms_since_epoch_ : Int)|))
    ∧ (published_start_times (CheckSongStartTime t hw).2.1 ≠ [] →
        CheckSongStartTime t hw
          = ({ t with audio_start_time_ms_since_epoch_ :=
                ((curr_time_ms_since_epoch hw : Int)
                  - Int.tdiv ((t.curr_position_frames_ - hw.delay) * 1000)
                      (t.params.frame_rate_ : Int)).toNat },
             [Call.delay,
              Call.NewSongStatus t.file_id_ t.play_seq_id_
                ((curr_time_ms_since_epoch hw : Int)
                  - Int.tdiv ((t.curr_position_frames_ - hw.delay) * 1000)
                      (t.params.frame_rate_ : Int)).toNat 1],
             none))
    ∧ (published_start_times (CheckSongStartTime t hw).2.1 = [] →
        CheckSongStartTime t hw = (t, [Call.delay], none))
    ∧ (∀ steps : List HwStep,
        List.Chain (fun a b : Nat => 1 < |(b : Int) - (a : Int)|)
          t.audio_start_time_ms_since_epoch_
          (published_start_times (PlayingThreadMain t steps).calls)) := by
  have hest := start_time_estimate_exact t.curr_position_frames_ hw.delay
    t.params.frame_rate_ (curr_time_ms_since_epoch hw) hmul.1 hmul.2 hE.1 hE.2
  obtain ⟨hpub, hnot⟩ := CheckSongStartTime_cases t hw hrc
  rw [hest] at hpub hnot
  generalize hEdef : (curr_time_ms_since_epoch hw : Int)
      - Int.tdiv ((t.curr_position_frames_ - hw.delay) * 1000) (t.params.frame_rate_ : Int)
    = E at hE hD hpub hnot hest ⊢
  have hcast : ((E.toNat : Nat) : Int) = E := Int.toNat_of_nonneg hE.1
  have hdiff : diff_from_prev E.toNat t.audio_start_time_ms_since_epoch_
      = E - (t.audio_start_time_ms_since_epoch_ : Int) := by
    rw [diff_from_prev_eq E.toNat _ (by rw [hcast]; exact hD.1) (by rw [hcast]; exact hD.2),
      hcast]
  rw [hdiff] at hpub hnot
  have habs : (E - (t.audio_start_time_ms_since_epoch_ : Int) < -1
        ∨ 1 < E - (t.audio_start_time_ms_since_epoch_ : Int))
      ↔ 1 < |E - (t.audio_start_time_ms_since_epoch_ : Int)| := by
    rw [lt_abs]
    constructor
    · rintro (h | h)
      · right; omega
      · left; exact h
    · rintro (h | h)
      · right; exact h
      · left; omega
  rw [habs] at hpub hnot
  have hiff : published_start_times (CheckSongStartTime t hw).2.1 ≠ []
      ↔ (4096 ≤ hw.delay ∧ 1 < |E - (t.audio_start_time_ms_since_epoch_ : Int)|) := by
    constructor
    · intro h
      by_contra hc
      rw [hnot hc] at h
      exact h rfl
    · intro hc
      rw [hpub hc]
      simp [published_start_times]
  refine ⟨hiff, ?_, ?_, ?_⟩
  · intro h
    exact hpub (hiff.mp h)
  · intro h
    apply hnot
    intro hc
    exact (hiff.mpr hc) h
  · intro steps
    rw [PlayingThreadMain_published]
    exact ios_run_published_chain steps t StepEnd.post_transfer

set_option maxRecDepth 100000 in
/-- C18 (amended) at a session of the sample file 8192 frames in with 8192
frames queued, at a clock of 1700000000000 ms: the estimate 1700000000000
differs from the last published estimate 0 by more than 1 and is published
with the ids of the session. -/
theorem CheckSongStartTime_publishes_iff_witness :
    CheckSongStartTime (demoTransfer 8192) demoHw
      = ({ demoTransfer 8192 with audio_start_time_ms_since_epoch_ := 1700000000000 },
         [Call.delay, Call.NewSongStatus "track1.wav" 1 1700000000000 1],
         none) :=
  (CheckSongStartTime_publishes_iff (demoTransfer 8192) demoHw (by decide) (by decide)
      (by decide) (by decide) (by decide)).2.1
    ((CheckSongStartTime_publishes_iff (demoTransfer 8192) demoHw (by decide) (by decide)
      (by decide) (by decide) (by decide)).1.mpr (by decide))

/-! ## Lifecycle of a session -/

set_option maxRecDepth 100000 in
/-- C12 as stated fails in the state `Created`: the session that the factory
builds for `/wav/track1.wav` has not played yet, `Play` on it succeeds, and
`Stop` on it returns false. -/
theorem Stop_on_created_session_returns_false :
    ∃ s, CreateAlsaPlaybackService demoExt "/wav/track1.wav" "track1.wav" 1 = Except.ok s
      ∧ shows_lifecycle s SpecLifecycle.Created = true
      ∧ SpecLifecycle.terminal SpecLifecycle.Created = false
      ∧ (∃ s1, AlsaPlaybackService.Play demoExt s 0 = Except.ok s1)
      ∧ (AlsaPlaybackService.Stop s).1 = false :=
  ⟨_, rfl, by decide, by decide, ⟨_, rfl⟩, by decide⟩

/-- C12 (amended): for every session, `Stop()` returns true exactly when the
playing thread has been started and the scheduler of the session has not been
stopped, that is in the states `Playing` and `Draining`, and false in the
states `Created`, `Ended` and `Stopped`; after `Stop()` has returned the
session is in the state `Stopped`, a second `Stop()` returns false and every
later `Play()` fails. -/
theorem Stop_returns_true_iff_thread_running (s : AlsaPlaybackService) :
    ((AlsaPlaybackService.Stop s).1 = true ↔ s.joinable = true ∧ s.ios_stopped = false)
    ∧ (∀ l : SpecLifecycle, shows_lifecycle s l = true →
        ((AlsaPlaybackService.Stop s).1 = true
          ↔ l = SpecLifecycle.Playing ∨ l = SpecLifecycle.Draining))
    ∧ shows_lifecycle (AlsaPlaybackService.Stop s).2 SpecLifecycle.Stopped = true
    ∧ (∀ l : SpecLifecycle, shows_lifecycle (AlsaPlaybackService.Stop s).2 l = true →
        l = SpecLifecycle.Stopped)
    ∧ (AlsaPlaybackService.Stop (AlsaPlaybackService.Stop s).2).1 = false
    ∧ (∀ (ext : Externals) (offset_in_ms : Int),
        ∃ e, AlsaPlaybackService.Play ext (AlsaPlaybackService.Stop s).2 offset_in_ms
          = Except.error e) := by
  refine ⟨?_, ?_, ?_, ?_, ?_, ?_⟩
  · simp [AlsaPlaybackService.Stop]
  · intro l hl
    cases l <;> simp_all [AlsaPlaybackService.Stop, shows_lifecycle]
  · simp [AlsaPlaybackService.Stop, shows_lifecycle]
  · intro l hl
    cases l <;> simp_all [AlsaPlaybackService.Stop, shows_lifecycle]
  · simp [AlsaPlaybackService.Stop]
  · intro ext offset_in_ms
    by_cases hi : s.initialized_ = true
    · exact ⟨_, by simp [AlsaPlaybackService.Play, AlsaPlaybackService.Stop, hi]; rfl⟩
    · exact ⟨_, by simp [AlsaPlaybackService.Play, AlsaPlaybackService.Stop, hi]; rfl⟩

/-! ## The cursor set by `Play` -/

/-- For an offset other than `INT64_MIN` that fits in an `int64_t`, the hours,
minutes and seconds of lines 104-108 are those of `|start_offset_ms| / 1000`
seconds. -/
theorem position_parts_eq (start_offset_ms : Int) (hmin : INT64_MIN < start_offset_ms)
    (hmax : start_offset_ms < 2 ^ 63) :
    position_parts start_offset_ms
      = (start_offset_ms.natAbs / 1000 / 3600,
         start_offset_ms.natAbs / 1000 % 3600 / 60,
         start_offset_ms.natAbs / 1000 % 3600 % 60) := by
  have hne : start_offset_ms ≠ INT64_MIN := ne_of_gt hmin
  have habs : start_offset_ms.natAbs < 2 ^ 63 := by
    simp only [INT64_MIN] at hmin
    omega
  have hsec : to_uint64 (Int.tdiv (abs_int64 start_offset_ms) 1000)
      = start_offset_ms.natAbs / 1000 := by
    have hcast := to_uint64_cast (Int.tdiv (abs_int64 start_offset_ms) 1000)
    have htdiv : Int.tdiv (abs_int64 start_offset_ms) 1000
        = ((start_offset_ms.natAbs / 1000 : Nat) : Int) := by
      simp only [abs_int64, if_neg hne]
      rfl
    rw [htdiv] at hcast ⊢
    have hlt : ((start_offset_ms.natAbs / 1000 : Nat) : Int) < (UINT64_MODULUS : Int) := by
      simp only [UINT64_MODULUS]
      omega
    rw [Int.emod_eq_of_lt (Int.ofNat_nonneg _) hlt] at hcast
    exact_mod_cast hcast
  unfold position_parts
  simp only [hsec, SECONDS_PER_HOUR]
  have hmod : (start_offset_ms.natAbs / 1000 - start_offset_ms.natAbs / 1000 / (60 * 60) * (60 * 60))
      % UINT64_MODULUS = start_offset_ms.natAbs / 1000 % 3600 := by
    simp only [UINT64_MODULUS]
    omega
  rw [hmod]

set_option maxRecDepth 100000 in
/-- A number below 60 printed with `setw(2)` and fill `0` takes two characters:
its decimal digits, after a `0` when it is below 10. -/
theorem setw2_two_digits :
    ∀ n, n < 60 → (setw2 n).length = 2
      ∧ setw2 n = (if n < 10 then "0" ++ toString n else toString n) := by
  decide

/-- C22: for every `start_offset_ms` greater than the minimum 64-bit value (and
within `int64_t`), the `h`, `mm` and `ss` printed in the `NewSongRequest`
message satisfy `h*3600 + mm*60 + ss = |start_offset_ms| / 1000` (integer
division) with `mm < 60` and `ss < 60`; the position is printed as `h`, `:`,
`mm`, `:`, `ss` with `mm` and `ss` zero-padded to two digits; and every
successful request for a file other than the one just replaced prints it
after the opening parenthesis of its message. -/
theorem NewSongRequest_position_hms_arithmetic (start_offset_ms : Int)
    (hmin : INT64_MIN < start_offset_ms) (hmax : start_offset_ms < 2 ^ 63) :
    (position_parts start_offset_ms).1 * 3600 + (position_parts start_offset_ms).2.1 * 60
        + (position_parts start_offset_ms).2.2 = start_offset_ms.natAbs / 1000
    ∧ (position_parts start_offset_ms).2.1 < 60
    ∧ (position_parts start_offset_ms).2.2 < 60
    ∧ position_hms start_offset_ms
        = toString (position_parts start_offset_ms).1 ++ ":"
          ++ setw2 (position_parts start_offset_ms).2.1 ++ ":"
          ++ setw2 (position_parts start_offset_ms).2.2
    ∧ (setw2 (position_parts start_offset_ms).2.1).length = 2
    ∧ setw2 (position_parts start_offset_ms).2.1
        = (if (position_parts start_offset_ms).2.1 < 10
            then "0" ++ toString (position_parts start_offset_ms).2.1
            else toString (position_parts start_offset_ms).2.1)
    ∧ (setw2 (position_parts start_offset_ms).2.2).length = 2
    ∧ setw2 (position_parts start_offset_ms).2.2
        = (if (position_parts start_offset_ms).2.2 < 10
            then "0" ++ toString (position_parts start_offset_ms).2.2
            else toString (position_parts start_offset_ms).2.2)
    ∧ (∀ (ext : Externals) (c : CurrentSongController) (file_id : String),
        (NewSongRequest ext c file_id start_offset_ms).reply.success = true →
        file_id ≠ (stop_and_delete c).1 →
        Contains (NewSongRequest ext c file_id start_offset_ms).reply.out_msg
          ("(" ++ position_hms start_offset_ms)) := by
  have hparts := position_parts_eq start_offset_ms hmin hmax
  have hmm : (position_parts start_offset_ms).2.1 < 60 := by
    rw [hparts]
    simp only []
    omega
  have hss : (position_parts start_offset_ms).2.2 < 60 := by
    rw [hparts]
    simp only []
    omega
  refine ⟨?_, hmm, hss, rfl, (setw2_two_digits _ hmm).1, (setw2_two_digits _ hmm).2,
    (setw2_two_digits _ hss).1, (setw2_two_digits _ hss).2, ?_⟩
  · rw [hparts]
    simp only []
    omega
  · intro ext c file_id hok hne
    rw [NewSongRequest_success_out_msg ext c file_id start_offset_ms hok]
    simp only [new_song_msg, hne, if_false]
    generalize (if (stop_and_delete c).2.1 = true ∧ (stop_and_delete c).1 ≠ "" then _
      else "will play audio file '" ++ file_id ++ "' ") = head
    exact Contains_of_eq_append
      (head ++ "starting at position " ++ toString start_offset_ms ++ " ms ")
      ((if start_offset_ms < 0 then " in the future" else "") ++ ")")
      (by simp only [String.append_assoc])

set_option maxRecDepth 100000 in
/-- C22 at 3723999 ms in the future: 3723 seconds are printed as `1:02:03`. -/
theorem NewSongRequest_position_hms_arithmetic_witness :
    (position_parts (-3723999)).1 * 3600 + (position_parts (-3723999)).2.1 * 60
        + (position_parts (-3723999)).2.2 = (-3723999 : Int).natAbs / 1000
    ∧ position_hms (-3723999) = "1:02:03"
    ∧ Contains (NewSongRequest demoExt demoCtl "track1.wav" (-3723999)).reply.out_msg
        ("(" ++ position_hms (-3723999)) :=
  ⟨(NewSongRequest_position_hms_arithmetic (-3723999) (by decide) (by decide)).1,
   by decide,
   (NewSongRequest_position_hms_arithmetic (-3723999) (by decide)
      (by decide)).2.2.2.2.2.2.2.2 demoExt demoCtl "track1.wav" (by decide) (by decide)⟩

/-! ## Frames submitted and frames read -/

/-- A step that got past a read of any number of bytes other than zero asks the
device for the frames of line 475, whatever the read returned, and advances
the cursor by the frames the device takes. -/
theorem FramesToPcmTransferLoop_request_ignores_read (t : Transfer) (hw : HwStep)
    (ha : 0 < hw.avail) (hc : 0 ≤ t.curr_position_frames_)
    (hr : to_uint32 hw.read_raw ≠ 0) (hw0 : 0 ≤ hw.frames_written) :
    Call.writei (min hw.avail t.params.frames_capacity_in_buffer_) hw.frames_written
        ∈ (FramesToPcmTransferLoop t false hw).calls
    ∧ (FramesToPcmTransferLoop t false hw).t.curr_position_frames_
        = t.curr_position_frames_ + hw.frames_written := by
  rw [FramesToPcmTransferLoop_normal t hw ha hc hr]
  refine ⟨?_, (transfer_submit_taken t hw _ false _ hw0).1⟩
  rw [transfer_submit_writei_mem t hw _ false _ (by simp)]
  exact ⟨rfl, rfl⟩

set_option maxRecDepth 100000 in
/-- C21 at the failing input: `Play(4990)` on the sample file of 220500 frames
sets the cursor to 220059, with 441 frames (1764 bytes) left. The device has
room for 4096 frames; the read asked for 16384 bytes returns the 1764 that are
left; the step nevertheless submits 4096 frames of the buffer, the device takes
them, and the cursor becomes 224155, beyond the 220500 frames of the file.
The next read returns zero bytes, the device drains, and the thread ends with
the cursor at 224155. For every step that got past the read, the frames
submitted are those of line 475 whatever the read returned. -/
theorem FramesToPcmTransferLoop_short_read_submits_full_request :
    (Transfer.Play (demoTransfer 0) 4990).1 = demoTransfer 220059
    ∧ (220059 : Int) + 441 = ((demoTransfer 220059).params.total_frame_in_file_ : Int)
    ∧ to_uint32 demoHwShortRead.read_raw / (demoTransfer 220059).params.bytes_per_frame_ = 441
    ∧ FramesToPcmTransferLoop (demoTransfer 220059) false demoHwShortRead
      = { t := { demoTransfer 224155 with audio_start_time_ms_since_epoch_ := 1699999995103 }
          calls := [Call.avail_update, Call.readRaw 16384, Call.writei 4096 4096, Call.delay,
            Call.NewSongStatus "track1.wav" 1 1699999995103 1]
          next := StepEnd.post_transfer }
    ∧ (PlayingThreadMain (demoTransfer 220059) demoEndOfFileSteps).t.curr_position_frames_
        = 224155
    ∧ ((demoTransfer 220059).params.total_frame_in_file_ : Int) < 224155
    ∧ (∀ (t : Transfer) (hw : HwStep), 0 < hw.avail → 0 ≤ t.curr_position_frames_ →
        to_uint32 hw.read_raw ≠ 0 → 0 ≤ hw.frames_written →
        Call.writei (min hw.avail t.params.frames_capacity_in_buffer_) hw.frames_written
            ∈ (FramesToPcmTransferLoop t false hw).calls
        ∧ (FramesToPcmTransferLoop t false hw).t.curr_position_frames_
            = t.curr_position_frames_ + hw.frames_written) :=
  ⟨by decide!, by decide, by decide, by decide, by decide, by decide,
    FramesToPcmTransferLoop_request_ignores_read⟩

end wavplayeralsa
